import Mathlib

/-! # owoTrackVR device server: protocol and connection layer

A shallow embedding of `NetworkedDeviceQuatServer`, `UDPDeviceQuatServer` and
`InfoServer` (directory `src/DeviceHandler/vendor/owoTrackVR`).

Conventions of the embedding:

* C++ member arrays of `MAX_TRACKERS` elements are lists of length 20, read with
  `List.getD` and written with `List.set`;
* `unsigned long long` values are natural numbers below `2^64`, subtraction on them
  wraps explicitly;
* a byte (`unsigned char`) is an element of `Fin 256`;
* a `float` is represented by its 32-bit pattern, and a `double` stored in a sample
  buffer by the 32-bit pattern of the `float` it was widened from (every value the
  program ever stores in a buffer is such a widening, the initial `0.0` and `1.0`
  included);
* the socket and the logger are effects: what is sent and what is logged is appended
  to two lists carried by the server state.
-/

namespace OwoTrack

/-! ## Constants (`DeviceQuatServer.h`, `NetworkedDeviceQuatServer.h`) -/

/-- The capacity of the slot store: `#define MAX_TRACKERS 20`. -/
def MAX_TRACKERS : Nat := 20

/-- Message type `#define MSG_HEARTBEAT 0`. -/
def MSG_HEARTBEAT : Nat := 0
/-- Message type `#define MSG_ROTATION 1`. -/
def MSG_ROTATION : Nat := 1
/-- Message type `#define MSG_GYRO 2`. -/
def MSG_GYRO : Nat := 2
/-- Message type `#define MSG_HANDSHAKE 3`. -/
def MSG_HANDSHAKE : Nat := 3
/-- Message type `#define MSG_ACCELEROMETER 4`. -/
def MSG_ACCELEROMETER : Nat := 4

/-- The size of the receive buffer: `#define MAX_MSG_SIZE 256`. -/
def MAX_MSG_SIZE : Nat := 256

/-- The number of values of an `unsigned long long`. -/
def U64 : Nat := 2 ^ 64

/-- An `unsigned char`. -/
abbrev Byte : Type := Fin 256

/-! ## Wire codec (`convert_chars`) -/

/-- The value of a union member read back from its bytes `c[0], c[1], ...` on the
little-endian hosts the plugin is built for (Windows): `c[0]` is the least significant. -/
def hostValue : List Byte → Nat
  | [] => 0
  | b :: bs => b.val + 256 * hostValue bs

/-- The template `convert_chars<T>` with `size = sizeof(T)`: the loop
`un.c[i] = src[sizeof(T) - i - 1]` for `i = 0 .. sizeof(T) - 1`, then `un.v`. -/
def convert_chars (size : Nat) (src : List Byte) : Nat :=
  hostValue ((List.range size).map (fun i => src.getD (size - i - 1) 0))

/-- The big-endian encoding of `v` on `k` bytes, as the specification words it: byte `i` is the
digit of weight `256^(k-1-i)`. -/
def bigEndianBytes (k v : Nat) : List Byte :=
  (List.range k).map (fun i => Fin.ofNat (v / 256 ^ (k - 1 - i)))

/-! ## Per-tracker data (`struct TrackerData`) -/

/-- The struct `TrackerData` with its default member initialisers. The identity
quaternion `(0, 0, 0, 1)` is held as the bit patterns of `0.0f` and `1.0f`. -/
structure TrackerData where
  current_packet_id : Nat := 0
  quat_buffer : List Nat := [0, 0, 0, 0x3F800000]
  gyro_buffer : List Nat := [0, 0, 0]
  accel_buffer : List Nat := [0, 0, 0]
  isNewDataAvailable : Bool := false
  lastContactTime : Nat := 0
  isConnected : Bool := false
  deriving DecidableEq, Repr

instance : Inhabited TrackerData := ⟨{}⟩

/-- The method `TrackerData::receive_packet_id`: the returned flag and the tracker
afterwards. -/
def TrackerData.receive_packet_id (t : TrackerData) (new_id : Nat) : Bool × TrackerData :=
  if new_id > t.current_packet_id ∨ new_id < 5 then
    (true, { t with current_packet_id := new_id })
  else
    (false, t)

/-! ## Effects: addresses, outbound datagrams, log records -/

/-- The fields of a `sockaddr_in` that identify a peer. `isSameClient` compares
`sin_addr.s_addr` and `sin_port` only. -/
structure sockaddr_in where
  sin_family : Nat := 0
  sin_port : Nat := 0
  sin_addr : Nat := 0
  deriving DecidableEq, Repr

instance : Inhabited sockaddr_in := ⟨{}⟩

/-- One `put` into a `ByteBuffer`: `putInt` of an `int`, or `putFloat` of a `float`
given by its bit pattern. -/
inductive Field where
  | putInt (v : Int)
  | putFloat (bits : Nat)
  deriving DecidableEq, Repr

/-- What is handed to `Socket.SendTo`: a raw character array, or the content of a
`ByteBuffer` (ByteBuffer.h is not among the sources, so the content is kept as the
sequence of `put` calls that built it). -/
inductive Payload where
  | chars (bytes : List Byte)
  | byteBuffer (fields : List Field)
  deriving DecidableEq, Repr

/-- One call of the logger `Log(std::format(fmt, arg), severity)`: the format string,
its one argument and the severity. -/
structure LogRecord where
  fmt : String
  arg : Int
  severity : Int
  deriving DecidableEq, Repr

/-- Which member array of a `TrackerData` the pointer `into` of
`handle_doubles_packet` designates. -/
inductive SampleBuffer where
  | quat
  | gyro
  | accel
  deriving DecidableEq, Repr

/-- The assignment `into[i] = v` through the pointer `into`. -/
def TrackerData.store (t : TrackerData) (into : SampleBuffer) (i : Nat) (v : Nat) :
    TrackerData :=
  match into with
  | .quat => { t with quat_buffer := t.quat_buffer.set i v }
  | .gyro => { t with gyro_buffer := t.gyro_buffer.set i v }
  | .accel => { t with accel_buffer := t.accel_buffer.set i v }

/-- The array `into` points to. -/
def TrackerData.buffer (t : TrackerData) (into : SampleBuffer) : List Nat :=
  match into with
  | .quat => t.quat_buffer
  | .gyro => t.gyro_buffer
  | .accel => t.accel_buffer

/-! ## The server object (`NetworkedDeviceQuatServer`, `UDPDeviceQuatServer`) -/

/-- The data members of a `UDPDeviceQuatServer` (those of its base class
`NetworkedDeviceQuatServer` first), followed by the two effect logs. -/
structure UDPDeviceQuatServer where
  trackers : List TrackerData
  activeTrackerCount : Int
  clients : List sockaddr_in
  lastContactTime : List Nat
  connectionIsDead : List Bool
  buffer : List Byte
  curr_time : Nat
  hb_accum : Int
  sent : List (sockaddr_in × Payload)
  logged : List LogRecord
  deriving DecidableEq, Repr

/-- The statement `a[i].member = ...` on a member array: element `i` replaced by its
image under `f`. -/
def updateAt {α : Type} [Inhabited α] (l : List α) (i : Nat) (f : α → α) : List α :=
  l.set i (f (l.getD i default))

/-- The literal `HELLOMESSAGE`, `" Hey OVR =D 5"`, with its terminating zero:
`sizeof(HELLOMESSAGE)` is 14. -/
def HELLOMESSAGE : List Byte :=
  [32, 72, 101, 121, 32, 79, 86, 82, 32, 61, 68, 32, 53, 0]

/-- The member `buff_hello` as the constructor of `NetworkedDeviceQuatServer` leaves
it: a copy of `HELLOMESSAGE` whose first byte is `MSG_HANDSHAKE`. It is never written
again, and `buff_hello_len` is its length. -/
def buff_hello : List Byte :=
  HELLOMESSAGE.set 0 (Fin.ofNat MSG_HANDSHAKE)

/-- The constructors of `NetworkedDeviceQuatServer` and `UDPDeviceQuatServer`. The
member `hb_accum` has no initialiser and the receive buffer comes from `malloc`, so
both start with whatever value they happen to hold: they are parameters. -/
def UDPDeviceQuatServer.new (hb_accum : Int) (buffer : List Byte) : UDPDeviceQuatServer :=
  { trackers := List.replicate MAX_TRACKERS {}
    activeTrackerCount := 0
    clients := List.replicate MAX_TRACKERS {}
    lastContactTime := List.replicate MAX_TRACKERS 0
    connectionIsDead := List.replicate MAX_TRACKERS true
    buffer := buffer
    curr_time := 0
    hb_accum := hb_accum
    sent := []
    logged := [] }

/-- Addition on `int` as the hardware performs it: two's complement on 32 bits. -/
def wrapInt32 (x : Int) : Int :=
  (x + 2 ^ 31) % 2 ^ 32 - 2 ^ 31

/-- Subtraction on `unsigned long long`: modulo `2^64`. -/
def sub64 (a b : Nat) : Nat :=
  (a + U64 - b % U64) % U64

/-- The method `UDPDeviceQuatServer::isConnectionAlive`. -/
def isConnectionAlive (s : UDPDeviceQuatServer) (trackerId : Int) : Bool :=
  if trackerId < 0 ∨ trackerId ≥ MAX_TRACKERS then false
  else !(s.connectionIsDead.getD trackerId.toNat true)

/-- The method `UDPDeviceQuatServer::send_bytebuffer`: one `Socket.SendTo` to
`clients[trackerId]`, unless the id is out of range. -/
def send_bytebuffer (s : UDPDeviceQuatServer) (b : List Field) (trackerId : Int) :
    UDPDeviceQuatServer :=
  if trackerId < 0 ∨ trackerId ≥ MAX_TRACKERS then s
  else { s with sent := s.sent ++ [(s.clients.getD trackerId.toNat default, .byteBuffer b)] }

/-- The heartbeat command: `buff.putInt(1); buff.putInt(0);`. -/
def heartbeatCommand : List Field :=
  [.putInt 1, .putInt 0]

/-- The method `UDPDeviceQuatServer::send_heartbeat`. -/
def send_heartbeat (s : UDPDeviceQuatServer) : UDPDeviceQuatServer :=
  let s := { s with hb_accum := wrapInt32 (s.hb_accum + 1) }
  if s.hb_accum > 200 then
    let s := { s with hb_accum := 0 }
    (List.range s.activeTrackerCount.toNat).foldl
      (fun s (i : Nat) =>
        if !isConnectionAlive s (i : Int) then s
        else send_bytebuffer s heartbeatCommand (i : Int)) s
  else s

/-- The method `UDPDeviceQuatServer::isSameClient`. -/
def isSameClient (a b : sockaddr_in) : Bool :=
  a.sin_addr == b.sin_addr && a.sin_port == b.sin_port

/-- The record logged when a slot is assigned. -/
def connectedRecord (newId : Int) : LogRecord :=
  ⟨"New owoTrack device connected! Tracker ID: \x7b\x7d", newId, 0⟩

/-- The record logged when the sweep marks a slot dead. -/
def disconnectedRecord (i : Int) : LogRecord :=
  ⟨"owoTrack device \x7b\x7d disconnected (timeout)", i, 1⟩

/-- The method `UDPDeviceQuatServer::getOrAssignTrackerId`: the returned id and the
server afterwards. -/
def getOrAssignTrackerId (s : UDPDeviceQuatServer) (addr : sockaddr_in) :
    Int × UDPDeviceQuatServer :=
  match (List.range s.activeTrackerCount.toNat).find?
      (fun i => isSameClient (s.clients.getD i default) addr) with
  | some i => ((i : Int), s)
  | none =>
    if s.activeTrackerCount < MAX_TRACKERS then
      let newId := s.activeTrackerCount
      (newId,
        { s with
          clients := s.clients.set newId.toNat addr
          trackers := updateAt s.trackers newId.toNat
            (fun t => { t with isConnected := true, lastContactTime := s.curr_time })
          connectionIsDead := s.connectionIsDead.set newId.toNat false
          lastContactTime := s.lastContactTime.set newId.toNat s.curr_time
          activeTrackerCount := s.activeTrackerCount + 1
          logged := s.logged ++ [connectedRecord newId] })
    else
      (-1, s)

/-- The method `NetworkedDeviceQuatServer::handle_doubles_packet` on the tracker that
both `into` and `tracker` refer to. -/
def handle_doubles_packet (packet : List Byte) (into : SampleBuffer) (num_doubles : Nat)
    (tracker : TrackerData) : TrackerData :=
  let packet := packet.drop 4
  let id := convert_chars 8 packet
  let packet := packet.drop 8
  let r := tracker.receive_packet_id id
  if !r.1 then r.2
  else
    let tracker := (List.range num_doubles).foldl
      (fun t i => t.store into i (convert_chars 4 (packet.drop (4 * i)))) r.2
    { tracker with isNewDataAvailable := true }

/-- The method `NetworkedDeviceQuatServer::handle_gyro_packet`. -/
def handle_gyro_packet (s : UDPDeviceQuatServer) (packet : List Byte) (trackerId : Int) :
    UDPDeviceQuatServer :=
  if trackerId < 0 ∨ trackerId ≥ MAX_TRACKERS then s
  else
    { s with
      trackers := updateAt s.trackers trackerId.toNat (handle_doubles_packet packet .gyro 3) }

/-- The method `NetworkedDeviceQuatServer::handle_rotation_packet`. -/
def handle_rotation_packet (s : UDPDeviceQuatServer) (packet : List Byte) (trackerId : Int) :
    UDPDeviceQuatServer :=
  if trackerId < 0 ∨ trackerId ≥ MAX_TRACKERS then s
  else
    { s with
      trackers := updateAt s.trackers trackerId.toNat (handle_doubles_packet packet .quat 4) }

/-- The method `NetworkedDeviceQuatServer::handle_accel_packet`. -/
def handle_accel_packet (s : UDPDeviceQuatServer) (packet : List Byte) (trackerId : Int) :
    UDPDeviceQuatServer :=
  if trackerId < 0 ∨ trackerId ≥ MAX_TRACKERS then s
  else
    { s with
      trackers := updateAt s.trackers trackerId.toNat (handle_doubles_packet packet .accel 3) }

/-- The method `NetworkedDeviceQuatServer::getActiveTrackerCount`. -/
def getActiveTrackerCount (s : UDPDeviceQuatServer) : Int :=
  s.activeTrackerCount

/-- The method `NetworkedDeviceQuatServer::isTrackerConnected`. -/
def isTrackerConnected (s : UDPDeviceQuatServer) (trackerId : Int) : Bool :=
  if trackerId < 0 ∨ trackerId ≥ MAX_TRACKERS then false
  else (s.trackers.getD trackerId.toNat default).isConnected

/-- The method `NetworkedDeviceQuatServer::isDataAvailable`: the returned flag and the
server afterwards. -/
def isDataAvailable (s : UDPDeviceQuatServer) (trackerId : Int) : Bool × UDPDeviceQuatServer :=
  if trackerId < 0 ∨ trackerId ≥ MAX_TRACKERS then (false, s)
  else
    let was_available := (s.trackers.getD trackerId.toNat default).isNewDataAvailable
    (was_available,
      { s with
        trackers := updateAt s.trackers trackerId.toNat
          (fun t => { t with isNewDataAvailable := false }) })

/-- The method `NetworkedDeviceQuatServer::getRotationQuaternion`; `none` is `nullptr`. -/
def getRotationQuaternion (s : UDPDeviceQuatServer) (trackerId : Int) : Option (List Nat) :=
  if trackerId < 0 ∨ trackerId ≥ MAX_TRACKERS then none
  else some (s.trackers.getD trackerId.toNat default).quat_buffer

/-- The method `NetworkedDeviceQuatServer::getGyroscope`; `none` is `nullptr`. -/
def getGyroscope (s : UDPDeviceQuatServer) (trackerId : Int) : Option (List Nat) :=
  if trackerId < 0 ∨ trackerId ≥ MAX_TRACKERS then none
  else some (s.trackers.getD trackerId.toNat default).gyro_buffer

/-- The method `NetworkedDeviceQuatServer::getAccel`; `none` is `nullptr`. -/
def getAccel (s : UDPDeviceQuatServer) (trackerId : Int) : Option (List Nat) :=
  if trackerId < 0 ∨ trackerId ≥ MAX_TRACKERS then none
  else some (s.trackers.getD trackerId.toNat default).accel_buffer

/-- Modelled from the spec: `UDPSocket::RecvFrom` of Network.h, which is not among the
sources. The spec says only that a datagram is received: afterwards the bytes of the
datagram, at most `len` of them, are at the start of the caller's buffer. What the bytes
behind the datagram hold afterwards is said neither by the spec nor by the sources. The
definition takes them from the argument `buffer`; the theorems on truncated datagrams
and on discovery matching are stated for every content of `buffer`, and so hold
whatever the call leaves behind the datagram (`RecvFrom_covers`). -/
def RecvFrom (buffer : List Byte) (len : Nat) (datagram : List Byte) : List Byte :=
  datagram.take len ++ buffer.drop (datagram.take len).length

/-- The method `UDPDeviceQuatServer::more_data_exists__read`. Its two inputs are the
reading of `std::time` and the outcome of `Socket.RecvFrom`: `none` when no datagram is
queued, the source address and the bytes of the datagram otherwise. -/
def more_data_exists__read (s : UDPDeviceQuatServer) (now : Nat)
    (recv : Option (sockaddr_in × List Byte)) : Bool × UDPDeviceQuatServer :=
  let s := { s with curr_time := now % U64 }
  match recv with
  | none => (false, s)
  | some (incomingClient, datagram) =>
    let s := { s with buffer := RecvFrom s.buffer MAX_MSG_SIZE datagram }
    let msg_type := convert_chars 4 s.buffer
    if msg_type = MSG_HANDSHAKE then
      (true, { s with sent := s.sent ++ [(incomingClient, .chars buff_hello)] })
    else
      let r := getOrAssignTrackerId s incomingClient
      let trackerId := r.1
      let s := r.2
      if trackerId < 0 then (true, s)
      else
        let s := { s with
          lastContactTime := s.lastContactTime.set trackerId.toNat s.curr_time
          connectionIsDead := s.connectionIsDead.set trackerId.toNat false
          trackers := updateAt s.trackers trackerId.toNat
            (fun t => { t with isConnected := true, lastContactTime := s.curr_time }) }
        if msg_type = MSG_HEARTBEAT then (true, s)
        else if msg_type = MSG_ROTATION then (true, handle_rotation_packet s s.buffer trackerId)
        else if msg_type = MSG_GYRO then (true, handle_gyro_packet s s.buffer trackerId)
        else if msg_type = MSG_ACCELEROMETER then
          (true, handle_accel_packet s s.buffer trackerId)
        else (true, s)

/-- The loop `while (more_data_exists__read()) {}` of `tick`: `queued` holds, for each
datagram waiting in the socket, the clock reading of the call that receives it, its
source and its bytes; `now` is the clock reading of the call that finds the socket
empty. -/
def drain (s : UDPDeviceQuatServer) (queued : List (Nat × sockaddr_in × List Byte))
    (now : Nat) : UDPDeviceQuatServer :=
  match queued with
  | [] => (more_data_exists__read s now none).2
  | (t, from_addr, datagram) :: rest =>
    let r := more_data_exists__read s t (some (from_addr, datagram))
    if r.1 then drain r.2 rest now else r.2

/-- The body of the loop of `tick` under the comment "Check for dead connections", for
the slot `i`. -/
def checkDeadConnection (s : UDPDeviceQuatServer) (i : Nat) : UDPDeviceQuatServer :=
  if !(s.connectionIsDead.getD i true) &&
      decide (sub64 s.curr_time (s.lastContactTime.getD i 0) > 2) then
    { s with
      connectionIsDead := s.connectionIsDead.set i true
      trackers := updateAt s.trackers i (fun t => { t with isConnected := false })
      logged := s.logged ++ [disconnectedRecord (i : Int)] }
  else s

/-- The loop of `tick` under the comment "Check for dead connections":
`for (int i = 0; i < activeTrackerCount; i++)`. -/
def checkDeadConnections (s : UDPDeviceQuatServer) : UDPDeviceQuatServer :=
  (List.range s.activeTrackerCount.toNat).foldl checkDeadConnection s

/-- The method `UDPDeviceQuatServer::tick`. -/
def tick (s : UDPDeviceQuatServer) (queued : List (Nat × sockaddr_in × List Byte))
    (now : Nat) : UDPDeviceQuatServer :=
  checkDeadConnections (drain (send_heartbeat s) queued now)

/-- The method `UDPDeviceQuatServer::buzz`; the three `float` arguments are bit
patterns. -/
def buzz (s : UDPDeviceQuatServer) (trackerId : Int) (duration_s frequency amplitude : Nat) :
    UDPDeviceQuatServer :=
  if trackerId < 0 ∨ trackerId ≥ s.activeTrackerCount then s
  else if !isConnectionAlive s trackerId then s
  else send_bytebuffer s
    [.putInt 2, .putFloat duration_s, .putFloat frequency, .putFloat amplitude] trackerId

/-! ## Runs of the server -/

/-- The state-changing operations of the server: the public methods `tick`,
`isDataAvailable` and `buzz`, and the three stages `tick` is made of, so that the
states in the middle of a `tick` are covered as well. -/
inductive Action where
  | send_heartbeat
  | more_data_exists__read (now : Nat) (recv : Option (sockaddr_in × List Byte))
  | checkDeadConnections
  | tick (queued : List (Nat × sockaddr_in × List Byte)) (now : Nat)
  | isDataAvailable (trackerId : Int)
  | buzz (trackerId : Int) (duration_s frequency amplitude : Nat)
  deriving DecidableEq, Repr

/-- One operation applied to the server. -/
def step (s : UDPDeviceQuatServer) : Action → UDPDeviceQuatServer
  | .send_heartbeat => send_heartbeat s
  | .more_data_exists__read now recv => (more_data_exists__read s now recv).2
  | .checkDeadConnections => checkDeadConnections s
  | .tick queued now => tick s queued now
  | .isDataAvailable trackerId => (isDataAvailable s trackerId).2
  | .buzz trackerId d f a => buzz s trackerId d f a

/-- A sequence of operations applied in order. -/
def run (s : UDPDeviceQuatServer) (actions : List Action) : UDPDeviceQuatServer :=
  actions.foldl step s

/-- The states a server can be in: those a run leads to from a freshly constructed
server with a 256-byte receive buffer and any `int` in `hb_accum`. -/
def Reachable (s : UDPDeviceQuatServer) : Prop :=
  ∃ (hb : Int) (buf : List Byte) (actions : List Action),
    -(2 ^ 31) ≤ hb ∧ hb < 2 ^ 31 ∧ buf.length = MAX_MSG_SIZE ∧
      s = run (UDPDeviceQuatServer.new hb buf) actions

/-! ## The discovery responder (`InfoServer`) -/

/-- The data members of an `InfoServer`, followed by the log of what it sent. -/
structure InfoServer where
  INFO_PORT : Nat := 35903
  port_no : Nat := 6969
  buff : List Byte
  response_info : String := ""
  trackerCount : Int := MAX_TRACKERS
  sent : List (sockaddr_in × String) := []
  deriving DecidableEq, Repr

/-- The method `InfoServer::update_response_info`; `std::to_string` is the decimal
numeral. -/
def InfoServer.update_response_info (s : InfoServer) : InfoServer :=
  { s with
    response_info := (List.range s.trackerCount.toNat).foldl
      (fun r i => r ++ (toString s.port_no ++ ":Tracker " ++ toString i ++ "\n")) "" }

/-- The method `InfoServer::set_tracker_count`. -/
def InfoServer.set_tracker_count (s : InfoServer) (count : Int) : InfoServer :=
  InfoServer.update_response_info { s with trackerCount := count }

/-- The method `InfoServer::set_port_no`. -/
def InfoServer.set_port_no (s : InfoServer) (new_port_no : Nat) : InfoServer :=
  InfoServer.update_response_info { s with port_no := new_port_no }

/-- The constructor of `InfoServer`, given the content of the freshly allocated
`buff`. -/
def InfoServer.new (buff : List Byte) : InfoServer :=
  InfoServer.update_response_info { buff := buff }

/-- The constant member `MAX_BUFF_SIZE` of `InfoServer`. -/
def InfoServer.MAX_BUFF_SIZE : Nat := 64

/-- The function `strcmp` of the C library on two `char` arrays: the characters are
compared one by one up to the first difference or the first zero byte, and the result is
zero when none differs and the difference of the first differing pair otherwise. The end
of a list reads as a zero byte. -/
def strcmp : List Byte → List Byte → Int
  | c1 :: r1, c2 :: r2 =>
    if c1 ≠ c2 then (c1.val : Int) - (c2.val : Int)
    else if c1.val = 0 then 0
    else strcmp r1 r2
  | c1 :: _, [] => (c1.val : Int)
  | [], c2 :: _ => -(c2.val : Int)
  | [], [] => 0

/-- The string literal `"DISCOVERY\0"` of `respond_to_all_requests` as a `char` array:
the nine letters, the zero byte the literal spells out and the terminating zero byte. -/
def discoveryLiteral : List Byte :=
  [68, 73, 83, 67, 79, 86, 69, 82, 89, 0, 0]

/-- The method `InfoServer::respond_to_all_requests`. Its input is the outcome of
`Socket.RecvFrom`: `none` when no datagram is queued, the source address and the bytes of
the datagram otherwise. -/
def InfoServer.respond_to_all_requests (s : InfoServer)
    (recv : Option (sockaddr_in × List Byte)) : Bool × InfoServer :=
  match recv with
  | none => (false, s)
  | some (addr, datagram) =>
    let s := { s with buff := RecvFrom s.buff InfoServer.MAX_BUFF_SIZE datagram }
    if strcmp s.buff discoveryLiteral = 0 then
      (true, { s with sent := s.sent ++ [(addr, s.response_info)] })
    else (true, s)

/-- The response as the specification words it: for `index = 0, 1, ..., n-1` in increasing
order, the decimal numeral of `p`, then `":Tracker "`, then the decimal numeral of
`index`, then a newline, all concatenated. -/
def discoveryLines (p n : Nat) : List String :=
  (List.range n).map (fun index => toString p ++ ":Tracker " ++ toString index ++ "\n")

/-- The number of newline characters of a string. -/
def lineCount (r : String) : Nat :=
  r.toList.count (Char.ofNat 10)

/-! ## Auxiliary definitions for the proofs -/

/-- The structural facts every state of a run satisfies: the member arrays have
`MAX_TRACKERS` elements, the receive buffer has `MAX_MSG_SIZE` bytes, the counter of
assigned slots is between 0 and `MAX_TRACKERS`, the two liveness flags of a slot agree,
a slot that is not assigned is dead, and the addresses of the assigned slots are
pairwise different clients. -/
structure Valid (s : UDPDeviceQuatServer) : Prop where
  trackers_length : s.trackers.length = MAX_TRACKERS
  clients_length : s.clients.length = MAX_TRACKERS
  lastContactTime_length : s.lastContactTime.length = MAX_TRACKERS
  connectionIsDead_length : s.connectionIsDead.length = MAX_TRACKERS
  buffer_length : s.buffer.length = MAX_MSG_SIZE
  count_nonneg : 0 ≤ s.activeTrackerCount
  count_le : s.activeTrackerCount ≤ MAX_TRACKERS
  hb_lower : -(2 ^ 31) ≤ s.hb_accum
  hb_upper : s.hb_accum < 2 ^ 31
  connected_iff : ∀ i, i < MAX_TRACKERS →
    (s.trackers.getD i default).isConnected = !(s.connectionIsDead.getD i true)
  unassigned_dead : ∀ i, s.activeTrackerCount.toNat ≤ i →
    s.connectionIsDead.getD i true = true
  distinct : ∀ i j, i < j → j < s.activeTrackerCount.toNat →
    isSameClient (s.clients.getD i default) (s.clients.getD j default) = false

/-- The condition of the sweep on slot `i`: the slot is not dead and
`(curr_time - lastContactTime[i]) > 2`. -/
def timedOut (s : UDPDeviceQuatServer) (i : Nat) : Bool :=
  !(s.connectionIsDead.getD i true) &&
    decide (sub64 s.curr_time (s.lastContactTime.getD i 0) > 2)

/-- What one heartbeat broadcast sends: the heartbeat command to the address of every
assigned slot that is alive, in increasing order of the slots. -/
def heartbeatTargets (s : UDPDeviceQuatServer) : List (sockaddr_in × Payload) :=
  ((List.range s.activeTrackerCount.toNat).filter
      (fun (i : Nat) => isConnectionAlive s (i : Int))).map
    (fun i => (s.clients.getD i default, Payload.byteBuffer heartbeatCommand))

/-- The four assignments of `more_data_exists__read` under the comment "Update
connection status", for the slot `i`. -/
def markContact (s : UDPDeviceQuatServer) (i : Nat) : UDPDeviceQuatServer :=
  { s with
    lastContactTime := s.lastContactTime.set i s.curr_time
    connectionIsDead := s.connectionIsDead.set i false
    trackers := updateAt s.trackers i
      (fun t => { t with isConnected := true, lastContactTime := s.curr_time }) }

/-- The `switch (msg_type)` of `more_data_exists__read`. -/
def dispatch (s : UDPDeviceQuatServer) (msg_type : Nat) (trackerId : Int) :
    UDPDeviceQuatServer :=
  if msg_type = MSG_HEARTBEAT then s
  else if msg_type = MSG_ROTATION then handle_rotation_packet s s.buffer trackerId
  else if msg_type = MSG_GYRO then handle_gyro_packet s s.buffer trackerId
  else if msg_type = MSG_ACCELEROMETER then handle_accel_packet s s.buffer trackerId
  else s

/-- The first two statements of `more_data_exists__read` when a datagram is queued: the
clock is read and the datagram is received into the buffer. -/
def receive (s : UDPDeviceQuatServer) (now : Nat) (datagram : List Byte) :
    UDPDeviceQuatServer :=
  { s with curr_time := now % U64, buffer := RecvFrom s.buffer MAX_MSG_SIZE datagram }

/-- The state `getOrAssignTrackerId` leaves when it assigns a new id to `addr`: the
branch under the comment "Assign new ID if we have space". -/
def assignSlot (s : UDPDeviceQuatServer) (addr : sockaddr_in) : UDPDeviceQuatServer :=
  { s with
    clients := s.clients.set s.activeTrackerCount.toNat addr
    trackers := updateAt s.trackers s.activeTrackerCount.toNat
      (fun t => { t with isConnected := true, lastContactTime := s.curr_time })
    connectionIsDead := s.connectionIsDead.set s.activeTrackerCount.toNat false
    lastContactTime := s.lastContactTime.set s.activeTrackerCount.toNat s.curr_time
    activeTrackerCount := s.activeTrackerCount + 1
    logged := s.logged ++ [connectedRecord s.activeTrackerCount] }

/-- A datagram of at least four bytes whose type field is `MSG_HANDSHAKE`. -/
def isHandshake (datagram : List Byte) : Bool :=
  decide (4 ≤ datagram.length) && decide (convert_chars 4 datagram = MSG_HANDSHAKE)

/-- An operation during which every datagram the server receives is a handshake. -/
def Action.onlyHandshakes : Action → Bool
  | .more_data_exists__read _ (some (_, datagram)) => isHandshake datagram
  | .tick queued _ => queued.all (fun q => isHandshake q.2.2)
  | _ => true

/-- The address `addr` is the client of the assigned slot `i` and of no slot before
it: the scan of `getOrAssignTrackerId` stops at `i`. -/
def resolvesTo (s : UDPDeviceQuatServer) (addr : sockaddr_in) (i : Nat) : Prop :=
  i < s.activeTrackerCount.toNat ∧
    isSameClient (s.clients.getD i default) addr = true ∧
    ∀ j, j < i → isSameClient (s.clients.getD j default) addr = false

/-- A receive buffer for the examples: 256 zero bytes. -/
def exampleBuffer : List Byte :=
  List.replicate 256 0

/-- A client address for the examples. -/
def exampleClient : sockaddr_in :=
  { sin_family := 2, sin_port := 6969, sin_addr := 0x0A000001 }

/-- A second client address for the examples. -/
def otherClient : sockaddr_in :=
  { sin_family := 2, sin_port := 6969, sin_addr := 0x0A000002 }

/-- A heartbeat datagram with sequence number 1. -/
def exampleHeartbeat : List Byte :=
  [0, 0, 0, 0, 0, 0, 0, 0, 0, 0, 0, 1]

/-- A handshake datagram. -/
def exampleHandshake : List Byte :=
  [0, 0, 0, 3, 0, 0, 0, 0, 0, 0, 0, 0]

/-- A rotation datagram with sequence number 9 and the quaternion `(0, 0, 0, 1)`. -/
def exampleRotation : List Byte :=
  [0, 0, 0, 1, 0, 0, 0, 0, 0, 0, 0, 9, 0, 0, 0, 0, 0, 0, 0, 0, 0, 0, 0, 0, 0x3F, 0x80, 0, 0]

/-- A server after one tick, at clock reading 100, that received a heartbeat from
`exampleClient`: slot 0 is assigned and alive. -/
def exampleServer : UDPDeviceQuatServer :=
  run (UDPDeviceQuatServer.new 0 exampleBuffer)
    [Action.tick [(100, exampleClient, exampleHeartbeat)] 100]

/-- A server whose 20 slots are all assigned, to the clients `10.0.1.0` ..
`10.0.1.19` on port 6969, all alive since clock reading 100. -/
def fullServer : UDPDeviceQuatServer :=
  { trackers := List.replicate 20 { isConnected := true, lastContactTime := 100 }
    activeTrackerCount := 20
    clients := (List.range 20).map
      (fun i => { sin_family := 2, sin_port := 6969, sin_addr := 0x0A000100 + i })
    lastContactTime := List.replicate 20 100
    connectionIsDead := List.replicate 20 false
    buffer := exampleBuffer
    curr_time := 100
    hb_accum := 0
    sent := []
    logged := [] }

/-- The number of disconnect notifications for slot `i` in a log. -/
def disconnectNotifications (log : List LogRecord) (i : Nat) : Nat :=
  log.count (disconnectedRecord (i : Int))

/-- An operation during which no datagram arrives from the client `c`. -/
def Action.noDatagramFrom (c : sockaddr_in) : Action → Bool
  | .more_data_exists__read _ (some (from_addr, _)) => !isSameClient c from_addr
  | .tick queued _ => queued.all (fun q => !isSameClient c q.2.1)
  | _ => true

/-- The example server in the middle of a later tick, at clock reading 110, just
before the sweep: slot 0 is alive and was last heard of at 100. -/
def staleServer : UDPDeviceQuatServer :=
  run exampleServer [Action.send_heartbeat, Action.more_data_exists__read 110 none]

/-- Consecutive calls of `tick` that find the socket empty; `nows` are the clock
readings, one per tick. -/
def quietTicks (s : UDPDeviceQuatServer) (nows : List Nat) : UDPDeviceQuatServer :=
  nows.foldl (fun t now => tick t [] now) s

/-- The number of heartbeat commands sent to the address `c` so far. -/
def heartbeatsSentTo (s : UDPDeviceQuatServer) (c : sockaddr_in) : Nat :=
  s.sent.countP (fun e => decide (e = (c, Payload.byteBuffer heartbeatCommand)))

/-- A server whose `hb_accum` happened to start at -1, after one tick at clock reading
100 that received a heartbeat from `exampleClient`: the accumulator is 0 and slot 0 is
assigned and alive. -/
def cadenceServer : UDPDeviceQuatServer :=
  run (UDPDeviceQuatServer.new (-1) exampleBuffer)
    [Action.tick [(100, exampleClient, exampleHeartbeat)] 100]

/-- A discovery responder that has just been constructed; its 64-byte buffer holds
zeros. -/
def exampleInfoServer : InfoServer :=
  InfoServer.new (List.replicate 64 0)

/-- The example server after a further datagram, a heartbeat from `otherClient` at
clock reading 100: slots 0 and 1 are assigned and alive. -/
def twoClientServer : UDPDeviceQuatServer :=
  run exampleServer [Action.more_data_exists__read 100 (some (otherClient, exampleHeartbeat))]

/-- Every slot that is not assigned still holds the tracker data it was constructed
with. -/
def Pristine (s : UDPDeviceQuatServer) : Prop :=
  ∀ i, s.activeTrackerCount.toNat ≤ i → s.trackers.getD i default = {}

/-- The stale example server after the sweep: slot 0 is assigned to `exampleClient` and
has been marked disconnected. -/
def timedOutServer : UDPDeviceQuatServer :=
  checkDeadConnections staleServer

/-- The sensor data of a tracker: the sequence number, the three sample buffers and the
fresh-data flag, that is every member but the two that record liveness. -/
def TrackerData.sample (t : TrackerData) : Nat × List Nat × List Nat × List Nat × Bool :=
  (t.current_packet_id, t.quat_buffer, t.gyro_buffer, t.accel_buffer, t.isNewDataAvailable)

/-- The sample buffers of a tracker have the sizes of the arrays `quat_buffer[4]`,
`gyro_buffer[3]` and `accel_buffer[3]`. -/
def TrackerData.Sized (t : TrackerData) : Prop :=
  t.quat_buffer.length = 4 ∧ t.gyro_buffer.length = 3 ∧ t.accel_buffer.length = 3

/-- The bit pattern of the `float` whose big-endian bytes are at the offsets `o`,
`o + 1`, `o + 2` and `o + 3` of a datagram. -/
def float32At (datagram : List Byte) (o : Nat) : Nat :=
  (datagram.getD o 0).val * 256 ^ 3 + (datagram.getD (o + 1) 0).val * 256 ^ 2 +
    (datagram.getD (o + 2) 0).val * 256 + (datagram.getD (o + 3) 0).val

/-- The sequence number of a datagram: the unsigned 64-bit value whose big-endian bytes
are at the offsets 4 to 11. -/
def sequenceOf (datagram : List Byte) : Nat :=
  convert_chars 8 (datagram.drop 4)

/-- A datagram whose type field is 5, a value the protocol does not define, with
sequence number 1. -/
def exampleUnknown : List Byte :=
  [0, 0, 0, 5, 0, 0, 0, 0, 0, 0, 0, 1]

/-- A rotation datagram with sequence number 7 and the quaternion `(1, 0, 0, 0)`. -/
def staleRotation : List Byte :=
  [0, 0, 0, 1, 0, 0, 0, 0, 0, 0, 0, 7, 0x3F, 0x80, 0, 0, 0, 0, 0, 0, 0, 0, 0, 0, 0, 0, 0, 0]

/-- The example server after a rotation datagram with sequence number 9 from
`exampleClient` at clock reading 100: the sequence number of slot 0 is 9. -/
def sequencedServer : UDPDeviceQuatServer :=
  run exampleServer [Action.more_data_exists__read 100 (some (exampleClient, exampleRotation))]

/-- The ten bytes of a discovery request: the letters of `DISCOVERY` followed by a zero
byte. -/
def discoveryRequest : List Byte :=
  [68, 73, 83, 67, 79, 86, 69, 82, 89, 0]

/-- A datagram that starts with `DISCOVERY` and a zero byte and goes on with the letters
`abc`. -/
def paddedDiscovery : List Byte :=
  discoveryRequest ++ [97, 98, 99]

/-- A datagram of four bytes: the type field of a rotation message and nothing else. -/
def truncatedRotation : List Byte :=
  [0, 0, 0, 1]

/-- A datagram of sixteen bytes: the header of a rotation message with sequence number 9
and the first component, `1.0`, of the four the message should carry. -/
def shortRotation : List Byte :=
  [0, 0, 0, 1, 0, 0, 0, 0, 0, 0, 0, 9, 0x3F, 0x80, 0, 0]

/-- Whether the call of `send_heartbeat` made in the state `s` broadcasts: the test
`hb_accum > 200` on the incremented accumulator. -/
def broadcasts (s : UDPDeviceQuatServer) : Bool :=
  decide (wrapInt32 (s.hb_accum + 1) > 200)

/-- Consecutive calls of `tick`; each element of `inputs` holds the datagrams queued at
one call and the clock reading of the call that finds the socket empty. -/
def runTicks (s : UDPDeviceQuatServer)
    (inputs : List (List (Nat × sockaddr_in × List Byte) × Nat)) : UDPDeviceQuatServer :=
  inputs.foldl (fun t x => tick t x.1 x.2) s

/-- A server whose `hb_accum` happened to start at 199, after one tick at clock reading
100 that received a heartbeat from `exampleClient`: the accumulator is 200, so the next
tick broadcasts, and slot 0 is assigned and alive. -/
def dueServer : UDPDeviceQuatServer :=
  run (UDPDeviceQuatServer.new 199 exampleBuffer)
    [Action.tick [(100, exampleClient, exampleHeartbeat)] 100]

/-- The clock readings that `more_data_exists__read` takes during one operation, in
order, each as the `unsigned long long` value the call stores in `curr_time`. -/
def Action.clockReadings : Action → List Nat
  | .more_data_exists__read now _ => [now % U64]
  | .tick queued now => queued.map (fun q => q.1 % U64) ++ [now % U64]
  | _ => []

/-- The clock readings taken during a run, in order. -/
def clockReadings : List Action → List Nat
  | [] => []
  | x :: rest => x.clockReadings ++ clockReadings rest

/-- The successive clock readings of a run are non-decreasing. -/
@[reducible] def MonotoneClock (actions : List Action) : Prop :=
  (clockReadings actions).Pairwise (fun a b => a ≤ b)

/-- The stages of one call of `tick`, as operations: `send_heartbeat`, one call of
`more_data_exists__read` for every queued datagram, the call that finds the socket
empty, and the sweep. -/
def tickStages (queued : List (Nat × sockaddr_in × List Byte)) (now : Nat) : List Action :=
  Action.send_heartbeat ::
    (queued.map (fun q => Action.more_data_exists__read q.1 (some q.2)) ++
      [Action.more_data_exists__read now none, Action.checkDeadConnections])

/-- The clock of the server is in order: `curr_time` is an `unsigned long long` and no
contact time lies after it. -/
def InClock (s : UDPDeviceQuatServer) : Prop :=
  Valid s ∧ s.curr_time < U64 ∧ ∀ j, s.lastContactTime.getD j 0 ≤ s.curr_time

/-- Slot `i` is assigned and alive and was last heard of at the clock reading `t` or
later. -/
def HeardSince (s : UDPDeviceQuatServer) (i t : Nat) : Prop :=
  i < s.activeTrackerCount.toNat ∧ t ≤ s.lastContactTime.getD i 0 ∧
    s.connectionIsDead.getD i true = false

/-- A run for the examples: a tick at clock reading 100 that receives a heartbeat from
`exampleClient`, then the first stages of the next tick, which receives a rotation
datagram from the same client at clock reading 101 and finds the socket empty at 102. -/
def clockedActions : List Action :=
  [Action.tick [(100, exampleClient, exampleHeartbeat)] 100,
    Action.send_heartbeat,
    Action.more_data_exists__read 101 (some (exampleClient, exampleRotation)),
    Action.more_data_exists__read 102 none]

/-! # Theorems -/

/-! ## Lists and loops -/

/-- Reading the element just written. -/
theorem getD_set_self {α : Type} (l : List α) (i : Nat) (x d : α) (h : i < l.length) :
    (l.set i x).getD i d = x := by
  simp [List.getD_eq_getElem?_getD, List.getElem?_set, h]

/-- Writing one element leaves the others. -/
theorem getD_set_other {α : Type} (l : List α) (i j : Nat) (x d : α) (h : i ≠ j) :
    (l.set i x).getD j d = l.getD j d := by
  simp [List.getD_eq_getElem?_getD, List.getElem?_set, h]

/-- Updating an element keeps the length. -/
theorem length_updateAt {α : Type} [Inhabited α] (l : List α) (i : Nat) (f : α → α) :
    (updateAt l i f).length = l.length := by
  simp [updateAt]

/-- Reading the element just updated. -/
theorem getD_updateAt_self {α : Type} [Inhabited α] (l : List α) (i : Nat) (f : α → α)
    (h : i < l.length) : (updateAt l i f).getD i default = f (l.getD i default) := by
  simp [updateAt, getD_set_self, h]

/-- Updating one element leaves the others. -/
theorem getD_updateAt_other {α : Type} [Inhabited α] (l : List α) (i j : Nat) (f : α → α)
    (h : i ≠ j) : (updateAt l i f).getD j default = l.getD j default := by
  simp [updateAt, getD_set_other, h]

/-- A scan `for (i = 0; i < n; i++)` that finds nothing. -/
theorem find_range_none (p : Nat → Bool) (n : Nat) :
    (List.range n).find? p = none ↔ ∀ j, j < n → p j = false := by
  simp [List.find?_eq_none]

/-- A scan `for (i = 0; i < n; i++)` that returns at `i`: `i` is the first hit. -/
theorem find_range_some (p : Nat → Bool) (n i : Nat)
    (h : (List.range n).find? p = some i) :
    i < n ∧ p i = true ∧ ∀ j, j < i → p j = false := by
  induction n with
  | zero => simp at h
  | succ n ih =>
    rw [List.range_succ, List.find?_append] at h
    cases hf : (List.range n).find? p with
    | some k =>
      rw [hf] at h
      simp at h
      subst h
      obtain ⟨h1, h2, h3⟩ := ih hf
      exact ⟨by omega, h2, h3⟩
    | none =>
      rw [hf] at h
      simp at h
      obtain ⟨h1, h2⟩ := h
      subst h2
      exact ⟨by omega, h1, (find_range_none p _).1 hf⟩

/-- The scan returns at the first hit. -/
theorem find_range_first (p : Nat → Bool) (n i : Nat) (hi : i < n) (hp : p i = true)
    (hfirst : ∀ j, j < i → p j = false) : (List.range n).find? p = some i := by
  cases hf : (List.range n).find? p with
  | none =>
    have := (find_range_none p n).1 hf i hi
    rw [hp] at this
    exact absurd this (by simp)
  | some k =>
    obtain ⟨h1, h2, h3⟩ := find_range_some p n k hf
    congr
    rcases Nat.lt_trichotomy k i with h | h | h
    · have := hfirst k h
      rw [h2] at this
      exact absurd this (by simp)
    · exact h
    · have := h3 i h
      rw [hp] at this
      exact absurd this (by simp)

/-! ## Wire codec and sequencing guard -/

/-- C1: `receive_packet_id(new)` returns true exactly when `new > old` or `new < 5`,
where `old` is the stored sequence number; when it returns true the stored sequence
number becomes `new`, and when it returns false (then `new <= old` and `new >= 5`) the
tracker is unchanged. -/
theorem receive_packet_id_guard (t : TrackerData) (new_id : Nat) :
    ((t.receive_packet_id new_id).1 = true ↔
        (new_id > t.current_packet_id ∨ new_id < 5)) ∧
      ((t.receive_packet_id new_id).1 = true →
        (t.receive_packet_id new_id).2.current_packet_id = new_id) ∧
      ((t.receive_packet_id new_id).1 = false →
        (new_id ≤ t.current_packet_id ∧ 5 ≤ new_id) ∧
          (t.receive_packet_id new_id).2 = t) := by
  unfold TrackerData.receive_packet_id
  by_cases h : new_id > t.current_packet_id ∨ new_id < 5
  · simp [h]
  · rw [if_neg h]
    exact ⟨by simp [h], by simp, fun _ => ⟨by omega, rfl⟩⟩


/-- The guard of C1 on a tracker whose stored sequence number is 9: 10 is accepted, 3 is
accepted, 7 is rejected. -/
theorem receive_packet_id_guard_witness :
    (({ current_packet_id := 9 } : TrackerData).receive_packet_id 10).2.current_packet_id = 10 ∧
      (({ current_packet_id := 9 } : TrackerData).receive_packet_id 3).2.current_packet_id = 3 ∧
      (({ current_packet_id := 9 } : TrackerData).receive_packet_id 7).2
        = { current_packet_id := 9 } :=
  ⟨(receive_packet_id_guard { current_packet_id := 9 } 10).2.1 (by decide),
    (receive_packet_id_guard { current_packet_id := 9 } 3).2.1 (by decide),
    ((receive_packet_id_guard { current_packet_id := 9 } 7).2.2 (by decide)).2⟩

/-- A byte appended to a union is its most significant byte. -/
theorem hostValue_append (l : List Byte) (b : Byte) :
    hostValue (l ++ [b]) = hostValue l + 256 ^ l.length * b.val := by
  induction l with
  | nil => simp [hostValue]
  | cons a l ih => simp [hostValue, ih, pow_succ]; ring

/-- The value of a union filled by a loop, as a sum. -/
theorem hostValue_map_range (g : Nat → Byte) (k : Nat) :
    hostValue ((List.range k).map g) = ∑ i in Finset.range k, (g i).val * 256 ^ i := by
  induction k with
  | zero => simp [hostValue]
  | succ k ih =>
    rw [List.range_succ, List.map_append, List.map_singleton, hostValue_append, ih,
      Finset.sum_range_succ]
    simp [mul_comm]

/-- The template `convert_chars` is the big-endian reading of its argument. -/
theorem convert_chars_eq_sum (k : Nat) (src : List Byte) :
    convert_chars k src = ∑ i in Finset.range k, (src.getD i 0).val * 256 ^ (k - 1 - i) := by
  unfold convert_chars
  rw [hostValue_map_range, ← Finset.sum_range_reflect]
  apply Finset.sum_congr rfl
  intro i hi
  have hi := Finset.mem_range.1 hi
  have h1 : k - (k - 1 - i) - 1 = i := by omega
  rw [h1]


/-- C9: decoding the 4-byte big-endian encoding of an unsigned 32-bit value (the bit
pattern of a `float` included) with `convert_chars` gives the value back, the same on
8 bytes for an unsigned 64-bit value, and in general `convert_chars` reads the bytes
`b0 .. b(k-1)` as the sum of `b_i * 256^(k-1-i)`. -/
theorem convert_chars_roundtrip :
    (∀ v : Nat, v < 2 ^ 32 → convert_chars 4 (bigEndianBytes 4 v) = v) ∧
      (∀ v : Nat, v < 2 ^ 64 → convert_chars 8 (bigEndianBytes 8 v) = v) ∧
      (∀ (k : Nat) (src : List Byte),
        convert_chars k src = ∑ i in Finset.range k, (src.getD i 0).val * 256 ^ (k - 1 - i)) := by
  refine ⟨?_, ?_, convert_chars_eq_sum⟩
  · intro v hv
    simp [convert_chars, bigEndianBytes, hostValue, List.range, List.range.loop, Fin.ofNat]
    omega
  · intro v hv
    simp [convert_chars, bigEndianBytes, hostValue, List.range, List.range.loop, Fin.ofNat]
    omega

/-- The round trip of C9 at `0x01020304` and at `0x0102030405060708`. -/
theorem convert_chars_roundtrip_witness :
    convert_chars 4 (bigEndianBytes 4 0x01020304) = 0x01020304 ∧
      convert_chars 8 (bigEndianBytes 8 0x0102030405060708) = 0x0102030405060708 :=
  ⟨convert_chars_roundtrip.1 _ (by decide), convert_chars_roundtrip.2.1 _ (by decide)⟩

/-! ## The stages of tick in closed form -/

/-- Loop invariants for `for (i = 0; i < n; i++)`. -/
theorem foldl_range_induction {σ : Type} (P : Nat → σ → Prop) (f : σ → Nat → σ) (s : σ)
    (n : Nat) (h0 : P 0 s) (hstep : ∀ k t, k < n → P k t → P (k + 1) (f t k)) :
    P n ((List.range n).foldl f s) := by
  have key : ∀ m, m ≤ n → P m ((List.range m).foldl f s) := by
    intro m
    induction m with
    | zero => intro _; simpa using h0
    | succ m ih =>
      intro hm
      rw [List.range_succ, List.foldl_append]
      exact hstep m _ (by omega) (ih (by omega))
  exact key n le_rfl

/-- The call that finds the socket empty only reads the clock. -/
theorem more_data_exists__read_none (s : UDPDeviceQuatServer) (now : Nat) :
    more_data_exists__read s now none = (false, { s with curr_time := now % U64 }) := rfl

/-- The call that receives a datagram, by stages. -/
theorem more_data_exists__read_some (s : UDPDeviceQuatServer) (now : Nat) (a : sockaddr_in)
    (d : List Byte) :
    more_data_exists__read s now (some (a, d)) =
      if convert_chars 4 (receive s now d).buffer = MSG_HANDSHAKE then
        (true, { receive s now d with
          sent := s.sent ++ [(a, Payload.chars buff_hello)] })
      else if (getOrAssignTrackerId (receive s now d) a).1 < 0 then
        (true, (getOrAssignTrackerId (receive s now d) a).2)
      else
        (true, dispatch
          (markContact (getOrAssignTrackerId (receive s now d) a).2
            (getOrAssignTrackerId (receive s now d) a).1.toNat)
          (convert_chars 4 (receive s now d).buffer)
          (getOrAssignTrackerId (receive s now d) a).1) := by
  unfold more_data_exists__read dispatch
  simp only [receive, markContact]
  split_ifs <;> rfl

/-- The liveness query reads `connectionIsDead` only. -/
theorem isConnectionAlive_congr (s t : UDPDeviceQuatServer)
    (h : t.connectionIsDead = s.connectionIsDead) (i : Int) :
    isConnectionAlive t i = isConnectionAlive s i := by
  simp [isConnectionAlive, h]

/-- The broadcast loop of `send_heartbeat` in closed form. -/
theorem send_heartbeat_loop (s : UDPDeviceQuatServer) (n : Nat) :
    (List.range n).foldl
      (fun s (i : Nat) =>
        if !isConnectionAlive s (i : Int) then s
        else send_bytebuffer s heartbeatCommand (i : Int)) s
    = { s with
        sent := s.sent ++
          ((List.range n).filter (fun (i : Nat) => isConnectionAlive s (i : Int))).map
            (fun i => (s.clients.getD i default, Payload.byteBuffer heartbeatCommand)) } := by
  refine foldl_range_induction
    (fun k t => t = { s with
        sent := s.sent ++
          ((List.range k).filter (fun (i : Nat) => isConnectionAlive s (i : Int))).map
            (fun i => (s.clients.getD i default, Payload.byteBuffer heartbeatCommand)) })
    _ s n ?_ ?_
  · simp
  · intro k t _ ht
    subst ht
    rw [List.range_succ, List.filter_append, List.map_append]
    have h1 : ∀ x, isConnectionAlive { s with sent := x } (k : Int)
        = isConnectionAlive s (k : Int) := fun x => isConnectionAlive_congr _ _ rfl _
    rw [h1]
    cases ha : isConnectionAlive s (k : Int) with
    | false => simp [ha]
    | true =>
      have hk2 : k < MAX_TRACKERS := by
        have ha2 := ha
        simp [isConnectionAlive] at ha2
        exact ha2.1
      have hk : ¬ ((k : Int) < 0 ∨ (k : Int) ≥ MAX_TRACKERS) := by
        simp only [MAX_TRACKERS] at hk2 ⊢
        omega
      simp [ha, send_bytebuffer, hk, hk2]

/-- The method `send_heartbeat` in closed form. -/
theorem send_heartbeat_eq (s : UDPDeviceQuatServer) :
    send_heartbeat s =
      if wrapInt32 (s.hb_accum + 1) > 200 then
        { s with hb_accum := 0, sent := s.sent ++ heartbeatTargets s }
      else { s with hb_accum := wrapInt32 (s.hb_accum + 1) } := by
  unfold send_heartbeat
  simp only []
  split_ifs with h
  · rw [send_heartbeat_loop]
    simp [heartbeatTargets, isConnectionAlive]
  · rfl

/-- One more iteration does not concern the other indices. -/
theorem ite_lt_succ_of_ne {α : Type} (i k : Nat) (c : Prop) [Decidable c] (a b : α)
    (h : i ≠ k) :
    (if i < k + 1 ∧ c then a else b) = if i < k ∧ c then a else b := by
  have h1 : (i < k + 1) ↔ (i < k) := by omega
  simp only [h1]

/-- The body of the sweep in terms of `timedOut`. -/
theorem checkDeadConnection_eq (s : UDPDeviceQuatServer) (i : Nat) :
    checkDeadConnection s i =
      if timedOut s i then
        { s with
          connectionIsDead := s.connectionIsDead.set i true
          trackers := updateAt s.trackers i (fun t => { t with isConnected := false })
          logged := s.logged ++ [disconnectedRecord (i : Int)] }
      else s := rfl

/-- A slot that times out exists. -/
theorem timedOut_lt_length (s : UDPDeviceQuatServer) (i : Nat) (h : timedOut s i = true) :
    i < s.connectionIsDead.length := by
  by_contra hc
  simp [timedOut, List.getD_eq_getElem?_getD, List.getElem?_eq_none (not_lt.1 hc)] at h

/-- The sweep after `n` iterations, slot by slot. -/
theorem checkDead_loop (s : UDPDeviceQuatServer) (n : Nat) (hn : n ≤ s.trackers.length) :
    ((List.range n).foldl checkDeadConnection s).activeTrackerCount = s.activeTrackerCount ∧
    ((List.range n).foldl checkDeadConnection s).clients = s.clients ∧
    ((List.range n).foldl checkDeadConnection s).lastContactTime = s.lastContactTime ∧
    ((List.range n).foldl checkDeadConnection s).curr_time = s.curr_time ∧
    ((List.range n).foldl checkDeadConnection s).buffer = s.buffer ∧
    ((List.range n).foldl checkDeadConnection s).hb_accum = s.hb_accum ∧
    ((List.range n).foldl checkDeadConnection s).sent = s.sent ∧
    ((List.range n).foldl checkDeadConnection s).connectionIsDead.length
      = s.connectionIsDead.length ∧
    ((List.range n).foldl checkDeadConnection s).trackers.length = s.trackers.length ∧
    (∀ i, ((List.range n).foldl checkDeadConnection s).connectionIsDead.getD i true
      = if i < n ∧ timedOut s i = true then true else s.connectionIsDead.getD i true) ∧
    (∀ i, ((List.range n).foldl checkDeadConnection s).trackers.getD i default
      = if i < n ∧ timedOut s i = true then
          { s.trackers.getD i default with isConnected := false }
        else s.trackers.getD i default) ∧
    ((List.range n).foldl checkDeadConnection s).logged
      = s.logged ++ ((List.range n).filter (timedOut s)).map
          (fun (i : Nat) => disconnectedRecord (i : Int)) := by
  refine foldl_range_induction
    (fun k t =>
      t.activeTrackerCount = s.activeTrackerCount ∧
      t.clients = s.clients ∧
      t.lastContactTime = s.lastContactTime ∧
      t.curr_time = s.curr_time ∧
      t.buffer = s.buffer ∧
      t.hb_accum = s.hb_accum ∧
      t.sent = s.sent ∧
      t.connectionIsDead.length = s.connectionIsDead.length ∧
      t.trackers.length = s.trackers.length ∧
      (∀ i, t.connectionIsDead.getD i true
        = if i < k ∧ timedOut s i = true then true else s.connectionIsDead.getD i true) ∧
      (∀ i, t.trackers.getD i default
        = if i < k ∧ timedOut s i = true then
            { s.trackers.getD i default with isConnected := false }
          else s.trackers.getD i default) ∧
      t.logged = s.logged ++ ((List.range k).filter (timedOut s)).map
          (fun (i : Nat) => disconnectedRecord (i : Int)))
    checkDeadConnection s n ?_ ?_
  · simp
  · intro k t hk ⟨h1, h2, h3, h4, h5, h6, h7, h8, h9, h10, h11, h12⟩
    have ht : timedOut t k = timedOut s k := by
      simp only [timedOut, h3, h4, h10 k]
      simp
    rw [checkDeadConnection_eq, ht]
    cases hto : timedOut s k with
    | false =>
      simp only [Bool.false_eq_true, if_false]
      refine ⟨h1, h2, h3, h4, h5, h6, h7, h8, h9, ?_, ?_, ?_⟩
      · intro i
        rw [h10 i]
        by_cases hik : i = k
        · subst hik; simp [hto]
        · rw [ite_lt_succ_of_ne i k _ _ _ hik]
      · intro i
        rw [h11 i]
        by_cases hik : i = k
        · subst hik; simp [hto]
        · rw [ite_lt_succ_of_ne i k _ _ _ hik]
      · rw [h12, List.range_succ, List.filter_append]
        simp [hto]
    | true =>
      simp only [if_true]
      have hlen := timedOut_lt_length s k hto
      refine ⟨h1, h2, h3, h4, h5, h6, h7, by simp [h8], by simp [length_updateAt, h9],
        ?_, ?_, ?_⟩
      · intro i
        by_cases hik : i = k
        · subst hik
          rw [getD_set_self _ _ _ _ (by omega)]
          simp [hto]
        · rw [getD_set_other _ _ _ _ _ (Ne.symm hik), h10 i, ite_lt_succ_of_ne i k _ _ _ hik]
      · intro i
        by_cases hik : i = k
        · subst hik
          rw [getD_updateAt_self _ _ _ (by omega), h11 i]
          simp [hto]
        · rw [getD_updateAt_other _ _ _ _ (Ne.symm hik), h11 i,
            ite_lt_succ_of_ne i k _ _ _ hik]
      · rw [h12, List.range_succ, List.filter_append]
        simp [hto]

/-! ## Slot assignment, dispatch and the structural invariant -/

/-- The three outcomes of `getOrAssignTrackerId`: found, newly assigned, no space. -/
theorem getOrAssign_cases (s : UDPDeviceQuatServer) (a : sockaddr_in) :
    (∃ i : Nat, i < s.activeTrackerCount.toNat ∧
        isSameClient (s.clients.getD i default) a = true ∧
        (∀ j, j < i → isSameClient (s.clients.getD j default) a = false) ∧
        getOrAssignTrackerId s a = ((i : Int), s)) ∨
      ((∀ j, j < s.activeTrackerCount.toNat →
          isSameClient (s.clients.getD j default) a = false) ∧
        s.activeTrackerCount < MAX_TRACKERS ∧
        getOrAssignTrackerId s a = (s.activeTrackerCount, assignSlot s a)) ∨
      ((∀ j, j < s.activeTrackerCount.toNat →
          isSameClient (s.clients.getD j default) a = false) ∧
        ¬ s.activeTrackerCount < MAX_TRACKERS ∧
        getOrAssignTrackerId s a = (-1, s)) := by
  cases hf : (List.range s.activeTrackerCount.toNat).find?
      (fun i => isSameClient (s.clients.getD i default) a) with
  | some i =>
    left
    obtain ⟨h1, h2, h3⟩ := find_range_some _ _ _ hf
    refine ⟨i, h1, h2, h3, ?_⟩
    unfold getOrAssignTrackerId
    rw [hf]
  | none =>
    right
    have hnone := (find_range_none _ _).1 hf
    by_cases hc : s.activeTrackerCount < MAX_TRACKERS
    · left
      refine ⟨hnone, hc, ?_⟩
      unfold getOrAssignTrackerId
      rw [hf]
      simp only [hc, if_true]
      rfl
    · right
      refine ⟨hnone, hc, ?_⟩
      unfold getOrAssignTrackerId
      rw [hf]
      simp only [hc, if_false]

/-- A sample stored in a buffer leaves the other members. -/
theorem store_isConnected (t : TrackerData) (into : SampleBuffer) (i v : Nat) :
    (t.store into i v).isConnected = t.isConnected ∧
      (t.store into i v).lastContactTime = t.lastContactTime ∧
      (t.store into i v).current_packet_id = t.current_packet_id ∧
      (t.store into i v).isNewDataAvailable = t.isNewDataAvailable := by
  cases into <;> simp [TrackerData.store]

/-- The decoding loop leaves the members that are not buffers. -/
theorem store_loop_frame (packet : List Byte) (into : SampleBuffer) (n : Nat) (t : TrackerData) :
    ((List.range n).foldl
        (fun t i => t.store into i (convert_chars 4 (packet.drop (4 * i)))) t).isConnected
        = t.isConnected ∧
      ((List.range n).foldl
        (fun t i => t.store into i (convert_chars 4 (packet.drop (4 * i)))) t).lastContactTime
        = t.lastContactTime ∧
      ((List.range n).foldl
        (fun t i => t.store into i (convert_chars 4 (packet.drop (4 * i)))) t).current_packet_id
        = t.current_packet_id ∧
      ((List.range n).foldl
        (fun t i => t.store into i (convert_chars 4 (packet.drop (4 * i)))) t).isNewDataAvailable
        = t.isNewDataAvailable := by
  refine foldl_range_induction
    (fun _ u => u.isConnected = t.isConnected ∧ u.lastContactTime = t.lastContactTime ∧
      u.current_packet_id = t.current_packet_id ∧
      u.isNewDataAvailable = t.isNewDataAvailable) _ t n ⟨rfl, rfl, rfl, rfl⟩ ?_
  intro k u _ ⟨h1, h2, h3, h4⟩
  obtain ⟨g1, g2, g3, g4⟩ := store_isConnected u into k (convert_chars 4 (packet.drop (4 * k)))
  exact ⟨g1.trans h1, g2.trans h2, g3.trans h3, g4.trans h4⟩

/-- A sensor packet does not touch the liveness members of a tracker. -/
theorem handle_doubles_packet_liveness (packet : List Byte) (into : SampleBuffer) (n : Nat)
    (t : TrackerData) :
    (handle_doubles_packet packet into n t).isConnected = t.isConnected ∧
      (handle_doubles_packet packet into n t).lastContactTime = t.lastContactTime := by
  unfold handle_doubles_packet
  simp only []
  split_ifs with h
  · unfold TrackerData.receive_packet_id
    split_ifs <;> exact ⟨rfl, rfl⟩
  · obtain ⟨g1, g2, _, _⟩ := store_loop_frame (List.drop 8 (List.drop 4 packet)) into n
      (t.receive_packet_id (convert_chars 8 (List.drop 4 packet))).2
    refine ⟨g1.trans ?_, g2.trans ?_⟩
    · unfold TrackerData.receive_packet_id
      split_ifs <;> rfl
    · unfold TrackerData.receive_packet_id
      split_ifs <;> rfl

/-- Reading after an update, in general. -/
theorem getD_updateAt {α : Type} [Inhabited α] (l : List α) (i j : Nat) (f : α → α) :
    (updateAt l i f).getD j default =
      if j = i ∧ i < l.length then f (l.getD i default) else l.getD j default := by
  by_cases hji : j = i
  · subst hji
    by_cases hlen : j < l.length
    · rw [getD_updateAt_self _ _ _ hlen, if_pos ⟨rfl, hlen⟩]
    · rw [if_neg (fun h => hlen h.2)]
      unfold updateAt
      rw [List.set_eq_of_length_le (not_lt.1 hlen)]
  · rw [getD_updateAt_other _ _ _ _ (Ne.symm hji), if_neg (fun h => hji h.1)]

/-- An update that keeps `isConnected` keeps it in every slot. -/
theorem updateAt_isConnected (l : List TrackerData) (i j : Nat) (f : TrackerData → TrackerData)
    (hf : ∀ t, (f t).isConnected = t.isConnected) :
    ((updateAt l i f).getD j default).isConnected = (l.getD j default).isConnected := by
  rw [getD_updateAt]
  split_ifs with h
  · rw [hf, h.1]
  · rfl

/-- The `switch` writes to `trackers` only, and there to the slot of the id only. -/
theorem dispatch_frame (s : UDPDeviceQuatServer) (ty : Nat) (id : Int) :
    dispatch s ty id = { s with trackers := (dispatch s ty id).trackers } ∧
      (dispatch s ty id).trackers.length = s.trackers.length ∧
      (∀ j, ((dispatch s ty id).trackers.getD j default).isConnected
        = (s.trackers.getD j default).isConnected) ∧
      (∀ j, j ≠ id.toNat →
        (dispatch s ty id).trackers.getD j default = s.trackers.getD j default) := by
  unfold dispatch handle_rotation_packet handle_gyro_packet handle_accel_packet
  split_ifs <;>
    first
    | exact ⟨rfl, rfl, fun _ => rfl, fun _ _ => rfl⟩
    | exact ⟨rfl, length_updateAt _ _ _,
        fun j => updateAt_isConnected _ _ _ _
          (fun t => (handle_doubles_packet_liveness _ _ _ t).1),
        fun j hj => getD_updateAt_other _ _ _ _ (Ne.symm hj)⟩

/-- The structural facts depend on the slot table and the liveness members only. -/
theorem Valid_congr (s t : UDPDeviceQuatServer) (hv : Valid s)
    (h1 : t.trackers.length = s.trackers.length) (h2 : t.clients = s.clients)
    (h3 : t.lastContactTime.length = s.lastContactTime.length)
    (h4 : t.connectionIsDead = s.connectionIsDead)
    (h5 : t.buffer.length = s.buffer.length)
    (h6 : t.activeTrackerCount = s.activeTrackerCount)
    (h7 : -(2 ^ 31) ≤ t.hb_accum ∧ t.hb_accum < 2 ^ 31)
    (h8 : ∀ i, (t.trackers.getD i default).isConnected
      = (s.trackers.getD i default).isConnected) : Valid t where
  trackers_length := h1.trans hv.trackers_length
  clients_length := by rw [h2]; exact hv.clients_length
  lastContactTime_length := h3.trans hv.lastContactTime_length
  connectionIsDead_length := by rw [h4]; exact hv.connectionIsDead_length
  buffer_length := h5.trans hv.buffer_length
  count_nonneg := by rw [h6]; exact hv.count_nonneg
  count_le := by rw [h6]; exact hv.count_le
  hb_lower := h7.1
  hb_upper := h7.2
  connected_iff := by
    intro i hi
    rw [h8, h4]
    exact hv.connected_iff i hi
  unassigned_dead := by
    intro i hi
    rw [h4]
    rw [h6] at hi
    exact hv.unassigned_dead i hi
  distinct := by
    intro i j hij hj
    rw [h2]
    rw [h6] at hj
    exact hv.distinct i j hij hj

/-- Receiving keeps the size of the buffer. -/
theorem RecvFrom_length (buffer datagram : List Byte) (len : Nat) (h : buffer.length = len) :
    (RecvFrom buffer len datagram).length = len := by
  simp [RecvFrom]
  omega

/-- Receiving keeps the structural facts. -/
theorem Valid_receive (s : UDPDeviceQuatServer) (now : Nat) (d : List Byte) (hv : Valid s) :
    Valid (receive s now d) :=
  Valid_congr s _ hv rfl rfl rfl rfl
    ((RecvFrom_length _ _ _ hv.buffer_length).trans hv.buffer_length.symm) rfl
    ⟨hv.hb_lower, hv.hb_upper⟩ (fun _ => rfl)

/-- The `switch` keeps the structural facts. -/
theorem Valid_dispatch (s : UDPDeviceQuatServer) (ty : Nat) (id : Int) (hv : Valid s) :
    Valid (dispatch s ty id) := by
  obtain ⟨h1, h2, h3, _⟩ := dispatch_frame s ty id
  refine Valid_congr s _ hv h2 ?_ ?_ ?_ ?_ ?_ ?_ h3
  · rw [h1]
  · rw [h1]
  · rw [h1]
  · rw [h1]
  · rw [h1]
  · rw [h1]; exact ⟨hv.hb_lower, hv.hb_upper⟩

/-- Assigning a slot to a new client keeps the structural facts. -/
theorem Valid_assignSlot (s : UDPDeviceQuatServer) (a : sockaddr_in) (hv : Valid s)
    (hc : s.activeTrackerCount < MAX_TRACKERS)
    (hnone : ∀ j, j < s.activeTrackerCount.toNat →
      isSameClient (s.clients.getD j default) a = false) : Valid (assignSlot s a) := by
  have h0 := hv.count_nonneg
  have hlt : s.activeTrackerCount.toNat < MAX_TRACKERS := by
    simp only [MAX_TRACKERS] at hc ⊢
    omega
  constructor
  · simp [assignSlot, length_updateAt, hv.trackers_length]
  · simp [assignSlot, hv.clients_length]
  · simp [assignSlot, hv.lastContactTime_length]
  · simp [assignSlot, hv.connectionIsDead_length]
  · exact hv.buffer_length
  · simp only [assignSlot]; omega
  · simp only [assignSlot, MAX_TRACKERS] at hc ⊢; omega
  · exact hv.hb_lower
  · exact hv.hb_upper
  · intro i hi
    simp only [assignSlot]
    by_cases hic : i = s.activeTrackerCount.toNat
    · subst hic
      rw [getD_updateAt_self _ _ _ (by rw [hv.trackers_length]; exact hlt),
        getD_set_self _ _ _ _ (by rw [hv.connectionIsDead_length]; exact hlt)]
      rfl
    · rw [getD_updateAt_other _ _ _ _ (Ne.symm hic), getD_set_other _ _ _ _ _ (Ne.symm hic)]
      exact hv.connected_iff i hi
  · intro i hi
    simp only [assignSlot] at hi ⊢
    have hic : s.activeTrackerCount.toNat ≠ i := by omega
    rw [getD_set_other _ _ _ _ _ hic]
    exact hv.unassigned_dead i (by omega)
  · intro i j hij hj
    simp only [assignSlot] at hj ⊢
    have hi : s.activeTrackerCount.toNat ≠ i := by omega
    rw [getD_set_other _ _ _ _ _ hi]
    by_cases hjc : j = s.activeTrackerCount.toNat
    · subst hjc
      rw [getD_set_self _ _ _ _ (by rw [hv.clients_length]; exact hlt)]
      exact hnone i hij
    · rw [getD_set_other _ _ _ _ _ (Ne.symm hjc)]
      exact hv.distinct i j hij (by omega)

/-- Updating the connection status of an assigned slot keeps the structural facts. -/
theorem Valid_markContact (s : UDPDeviceQuatServer) (i : Nat) (hv : Valid s)
    (hi : i < s.activeTrackerCount.toNat) : Valid (markContact s i) := by
  have h0 := hv.count_nonneg
  have hle := hv.count_le
  have hlt : i < MAX_TRACKERS := by
    simp only [MAX_TRACKERS] at hle ⊢
    omega
  constructor
  · simp [markContact, length_updateAt, hv.trackers_length]
  · exact hv.clients_length
  · simp [markContact, hv.lastContactTime_length]
  · simp [markContact, hv.connectionIsDead_length]
  · exact hv.buffer_length
  · exact hv.count_nonneg
  · exact hv.count_le
  · exact hv.hb_lower
  · exact hv.hb_upper
  · intro j hj
    simp only [markContact]
    by_cases hji : j = i
    · subst hji
      rw [getD_updateAt_self _ _ _ (by rw [hv.trackers_length]; exact hlt),
        getD_set_self _ _ _ _ (by rw [hv.connectionIsDead_length]; exact hlt)]
      rfl
    · rw [getD_updateAt_other _ _ _ _ (Ne.symm hji), getD_set_other _ _ _ _ _ (Ne.symm hji)]
      exact hv.connected_iff j hj
  · intro j hj
    simp only [markContact] at hj ⊢
    have hji : i ≠ j := by omega
    rw [getD_set_other _ _ _ _ _ hji]
    exact hv.unassigned_dead j hj
  · intro j k hjk hk
    exact hv.distinct j k hjk hk

/-- The method `getOrAssignTrackerId` keeps the structural facts and returns -1 or an
assigned id. -/
theorem Valid_getOrAssign (s : UDPDeviceQuatServer) (a : sockaddr_in) (hv : Valid s) :
    Valid (getOrAssignTrackerId s a).2 ∧
      ((getOrAssignTrackerId s a).1 = -1 ∨
        (0 ≤ (getOrAssignTrackerId s a).1 ∧
          (getOrAssignTrackerId s a).1.toNat
            < (getOrAssignTrackerId s a).2.activeTrackerCount.toNat)) := by
  have h0 := hv.count_nonneg
  rcases getOrAssign_cases s a with ⟨i, h1, _, _, h4⟩ | ⟨h1, h2, h3⟩ | ⟨_, _, h3⟩
  · rw [h4]
    exact ⟨hv, Or.inr ⟨by simp, by simpa using h1⟩⟩
  · rw [h3]
    refine ⟨Valid_assignSlot s a hv h2 h1, Or.inr ⟨h0, ?_⟩⟩
    simp only [assignSlot, MAX_TRACKERS] at h2 ⊢
    omega
  · rw [h3]
    exact ⟨hv, Or.inl rfl⟩

/-- The method `more_data_exists__read` keeps the structural facts. -/
theorem Valid_read (s : UDPDeviceQuatServer) (now : Nat)
    (recv : Option (sockaddr_in × List Byte)) (hv : Valid s) :
    Valid (more_data_exists__read s now recv).2 := by
  cases recv with
  | none =>
    rw [more_data_exists__read_none]
    exact Valid_congr s _ hv rfl rfl rfl rfl rfl rfl ⟨hv.hb_lower, hv.hb_upper⟩ (fun _ => rfl)
  | some r =>
    obtain ⟨a, d⟩ := r
    rw [more_data_exists__read_some]
    have hr := Valid_receive s now d hv
    split_ifs with h1 h2
    · exact Valid_congr _ _ hr rfl rfl rfl rfl rfl rfl ⟨hr.hb_lower, hr.hb_upper⟩
        (fun _ => rfl)
    · exact (Valid_getOrAssign _ a hr).1
    · obtain ⟨g1, g2⟩ := Valid_getOrAssign _ a hr
      apply Valid_dispatch
      apply Valid_markContact _ _ g1
      rcases g2 with g2 | g2
      · omega
      · exact g2.2

/-- A wrapped value is an `int`. -/
theorem wrapInt32_range (x : Int) : -(2 ^ 31) ≤ wrapInt32 x ∧ wrapInt32 x < 2 ^ 31 := by
  unfold wrapInt32
  omega

/-- The method `send_heartbeat` keeps the structural facts. -/
theorem Valid_send_heartbeat (s : UDPDeviceQuatServer) (hv : Valid s) :
    Valid (send_heartbeat s) := by
  rw [send_heartbeat_eq]
  split_ifs
  · exact Valid_congr s _ hv rfl rfl rfl rfl rfl rfl ⟨by norm_num, by norm_num⟩ (fun _ => rfl)
  · exact Valid_congr s _ hv rfl rfl rfl rfl rfl rfl (wrapInt32_range _) (fun _ => rfl)

/-- The sweep keeps the structural facts. -/
theorem Valid_checkDeadConnections (s : UDPDeviceQuatServer) (hv : Valid s) :
    Valid (checkDeadConnections s) := by
  have h0 := hv.count_nonneg
  have hle := hv.count_le
  have hn : s.activeTrackerCount.toNat ≤ s.trackers.length := by
    rw [hv.trackers_length]
    simp only [MAX_TRACKERS] at hle ⊢
    omega
  obtain ⟨h1, h2, h3, h4, h5, h6, h7, h8, h9, h10, h11, h12⟩ :=
    checkDead_loop s s.activeTrackerCount.toNat hn
  unfold checkDeadConnections
  constructor
  · rw [h9]; exact hv.trackers_length
  · rw [h2]; exact hv.clients_length
  · rw [h3]; exact hv.lastContactTime_length
  · rw [h8]; exact hv.connectionIsDead_length
  · rw [h5]; exact hv.buffer_length
  · rw [h1]; exact h0
  · rw [h1]; exact hle
  · rw [h6]; exact hv.hb_lower
  · rw [h6]; exact hv.hb_upper
  · intro i hi
    rw [h10, h11]
    split_ifs
    · rfl
    · exact hv.connected_iff i hi
  · intro i hi
    rw [h1] at hi
    rw [h10]
    split_ifs
    · rfl
    · exact hv.unassigned_dead i hi
  · intro i j hij hj
    rw [h1] at hj
    rw [h2]
    exact hv.distinct i j hij hj

/-- The method `isDataAvailable` keeps the structural facts. -/
theorem Valid_isDataAvailable (s : UDPDeviceQuatServer) (id : Int) (hv : Valid s) :
    Valid (isDataAvailable s id).2 := by
  unfold isDataAvailable
  split_ifs
  · exact hv
  · dsimp only
    exact Valid_congr s _ hv (by simp [length_updateAt]) rfl rfl rfl rfl rfl
      ⟨hv.hb_lower, hv.hb_upper⟩
      (fun j => updateAt_isConnected s.trackers id.toNat j
        (fun t => { t with isNewDataAvailable := false }) (fun _ => rfl))

/-- The method `buzz` keeps the structural facts. -/
theorem Valid_buzz (s : UDPDeviceQuatServer) (id : Int) (d f a : Nat) (hv : Valid s) :
    Valid (buzz s id d f a) := by
  unfold buzz send_bytebuffer
  split_ifs <;>
    first
    | exact hv
    | exact Valid_congr s _ hv rfl rfl rfl rfl rfl rfl ⟨hv.hb_lower, hv.hb_upper⟩ (fun _ => rfl)

/-- The drain loop keeps the structural facts. -/
theorem Valid_drain (queued : List (Nat × sockaddr_in × List Byte)) (now : Nat) :
    ∀ s : UDPDeviceQuatServer, Valid s → Valid (drain s queued now) := by
  induction queued with
  | nil =>
    intro s hv
    exact Valid_read s now none hv
  | cons q rest ih =>
    intro s hv
    obtain ⟨t, a, d⟩ := q
    unfold drain
    simp only []
    split_ifs
    · exact ih _ (Valid_read s t _ hv)
    · exact Valid_read s t _ hv

/-- The method `tick` keeps the structural facts. -/
theorem Valid_tick (s : UDPDeviceQuatServer) (queued : List (Nat × sockaddr_in × List Byte))
    (now : Nat) (hv : Valid s) : Valid (tick s queued now) :=
  Valid_checkDeadConnections _ (Valid_drain queued now _ (Valid_send_heartbeat s hv))

/-- Every operation keeps the structural facts. -/
theorem Valid_step (s : UDPDeviceQuatServer) (a : Action) (hv : Valid s) : Valid (step s a) := by
  cases a with
  | send_heartbeat => exact Valid_send_heartbeat s hv
  | more_data_exists__read now recv => exact Valid_read s now recv hv
  | checkDeadConnections => exact Valid_checkDeadConnections s hv
  | tick queued now => exact Valid_tick s queued now hv
  | isDataAvailable id => exact Valid_isDataAvailable s id hv
  | buzz id d f a => exact Valid_buzz s id d f a hv

/-- Every run keeps the structural facts. -/
theorem Valid_run (actions : List Action) :
    ∀ s : UDPDeviceQuatServer, Valid s → Valid (run s actions) := by
  induction actions with
  | nil => intro s hv; exact hv
  | cons a rest ih => intro s hv; exact ih _ (Valid_step s a hv)

/-- A freshly constructed server satisfies the structural facts. -/
theorem Valid_new (hb : Int) (buf : List Byte) (h1 : -(2 ^ 31) ≤ hb) (h2 : hb < 2 ^ 31)
    (h3 : buf.length = MAX_MSG_SIZE) : Valid (UDPDeviceQuatServer.new hb buf) := by
  constructor
  · simp [UDPDeviceQuatServer.new]
  · simp [UDPDeviceQuatServer.new]
  · simp [UDPDeviceQuatServer.new]
  · simp [UDPDeviceQuatServer.new]
  · exact h3
  · simp [UDPDeviceQuatServer.new]
  · simp [UDPDeviceQuatServer.new, MAX_TRACKERS]
  · exact h1
  · exact h2
  · intro i hi
    simp only [UDPDeviceQuatServer.new]
    rw [List.getD_eq_getElem?_getD, List.getD_eq_getElem?_getD]
    simp [List.getElem?_replicate, hi]
  · intro i _
    simp only [UDPDeviceQuatServer.new]
    rw [List.getD_eq_getElem?_getD]
    simp [List.getElem?_replicate]
    split_ifs <;> rfl
  · intro i j _ hj
    simp [UDPDeviceQuatServer.new] at hj

/-- Every reachable state satisfies the structural facts. -/
theorem Reachable_valid (s : UDPDeviceQuatServer) (h : Reachable s) : Valid s := by
  obtain ⟨hb, buf, actions, h1, h2, h3, h4⟩ := h
  rw [h4]
  exact Valid_run actions _ (Valid_new hb buf h1 h2 h3)

/-- An operation leads from a reachable state to a reachable state. -/
theorem Reachable_step (s : UDPDeviceQuatServer) (a : Action) (h : Reachable s) :
    Reachable (step s a) := by
  obtain ⟨hb, buf, actions, h1, h2, h3, h4⟩ := h
  refine ⟨hb, buf, actions ++ [a], h1, h2, h3, ?_⟩
  rw [h4]
  simp [run]

/-- A run leads from a reachable state to a reachable state. -/
theorem Reachable_run (s : UDPDeviceQuatServer) (actions : List Action) (h : Reachable s) :
    Reachable (run s actions) := by
  obtain ⟨hb, buf, acts, h1, h2, h3, h4⟩ := h
  refine ⟨hb, buf, acts ++ actions, h1, h2, h3, ?_⟩
  rw [h4]
  simp [run]

/-! ## Liveness queries -/

/-- The example server is reachable. -/
theorem exampleServer_reachable : Reachable exampleServer :=
  ⟨0, exampleBuffer, _, by decide, by decide, List.length_replicate 256 0, rfl⟩

/-- C10: in every reachable state and for every integer id, `isTrackerConnected(id)` and
`isConnectionAlive(id)` return the same value, and both return false when the id is out
of range or is not below `getActiveTrackerCount()`. -/
theorem liveness_queries_agree (s : UDPDeviceQuatServer) (h : Reachable s) (id : Int) :
    isTrackerConnected s id = isConnectionAlive s id ∧
      ((id < 0 ∨ id ≥ MAX_TRACKERS ∨ id ≥ getActiveTrackerCount s) →
        isTrackerConnected s id = false ∧ isConnectionAlive s id = false) := by
  have hv := Reachable_valid s h
  have hagree : isTrackerConnected s id = isConnectionAlive s id := by
    unfold isTrackerConnected isConnectionAlive
    split_ifs with hr
    · rfl
    · apply hv.connected_iff
      simp only [MAX_TRACKERS] at hr ⊢
      omega
  refine ⟨hagree, ?_⟩
  intro hid
  rw [hagree]
  refine ⟨?_, ?_⟩ <;>
  · unfold isConnectionAlive
    split_ifs with hr
    · rfl
    · have hc : s.activeTrackerCount.toNat ≤ id.toNat := by
        simp only [getActiveTrackerCount] at hid
        omega
      rw [hv.unassigned_dead _ hc]
      rfl

/-- C10 on the example server: slot 0 is connected and alive, the ids 1, 20 and -1 are
neither. -/
theorem liveness_queries_agree_witness :
    isTrackerConnected exampleServer 0 = isConnectionAlive exampleServer 0 ∧
      isTrackerConnected exampleServer 1 = false ∧
      isConnectionAlive exampleServer 20 = false ∧
      isTrackerConnected exampleServer (-1) = false :=
  ⟨(liveness_queries_agree exampleServer exampleServer_reachable 0).1,
    ((liveness_queries_agree exampleServer exampleServer_reachable 1).2
      (Or.inr (Or.inr (by decide)))).1,
    ((liveness_queries_agree exampleServer exampleServer_reachable 20).2
      (Or.inr (Or.inl (by decide)))).2,
    ((liveness_queries_agree exampleServer exampleServer_reachable (-1)).2
      (Or.inl (by decide))).1⟩

/-! ## Handshake -/

/-- The bytes of the datagram are at the start of the buffer. -/
theorem getD_RecvFrom (buffer datagram : List Byte) (len i : Nat) (h1 : i < datagram.length)
    (h2 : i < len) : (RecvFrom buffer len datagram).getD i 0 = datagram.getD i 0 := by
  unfold RecvFrom
  rw [List.getD_append _ _ _ _ (by simp; omega)]
  simp [List.getD_eq_getElem?_getD, List.getElem?_take, h2]

/-- The type field read from the buffer is that of a datagram of at least four bytes. -/
theorem convert_chars_RecvFrom (buffer datagram : List Byte) (h : 4 ≤ datagram.length) :
    convert_chars 4 (RecvFrom buffer MAX_MSG_SIZE datagram) = convert_chars 4 datagram := by
  have e0 := getD_RecvFrom buffer datagram MAX_MSG_SIZE 0 (by omega) (by decide)
  have e1 := getD_RecvFrom buffer datagram MAX_MSG_SIZE 1 (by omega) (by decide)
  have e2 := getD_RecvFrom buffer datagram MAX_MSG_SIZE 2 (by omega) (by decide)
  have e3 := getD_RecvFrom buffer datagram MAX_MSG_SIZE 3 (by omega) (by decide)
  simp only [convert_chars, List.range, List.range.loop, List.map]
  simp only [e0, e1, e2, e3]

/-- The handshake branch of `more_data_exists__read`. -/
theorem read_handshake (s : UDPDeviceQuatServer) (now : Nat) (a : sockaddr_in) (d : List Byte)
    (h : isHandshake d = true) :
    more_data_exists__read s now (some (a, d)) =
      (true, { receive s now d with sent := s.sent ++ [(a, Payload.chars buff_hello)] }) := by
  simp only [isHandshake, Bool.and_eq_true, decide_eq_true_eq] at h
  rw [more_data_exists__read_some, if_pos]
  simp only [receive]
  rw [convert_chars_RecvFrom _ _ h.1]
  exact h.2

/-- The method `send_heartbeat` writes to `hb_accum` and to the socket only. -/
theorem send_heartbeat_frame (s : UDPDeviceQuatServer) :
    (send_heartbeat s).trackers = s.trackers ∧
      (send_heartbeat s).activeTrackerCount = s.activeTrackerCount ∧
      (send_heartbeat s).clients = s.clients ∧
      (send_heartbeat s).lastContactTime = s.lastContactTime ∧
      (send_heartbeat s).connectionIsDead = s.connectionIsDead ∧
      (send_heartbeat s).buffer = s.buffer ∧
      (send_heartbeat s).curr_time = s.curr_time ∧
      (send_heartbeat s).logged = s.logged := by
  rw [send_heartbeat_eq]
  split_ifs <;> exact ⟨rfl, rfl, rfl, rfl, rfl, rfl, rfl, rfl⟩

/-- The sweep leaves the slot table. -/
theorem checkDeadConnections_count (s : UDPDeviceQuatServer) :
    (checkDeadConnections s).activeTrackerCount = s.activeTrackerCount ∧
      (checkDeadConnections s).clients = s.clients := by
  unfold checkDeadConnections
  refine foldl_range_induction
    (fun _ t => t.activeTrackerCount = s.activeTrackerCount ∧ t.clients = s.clients)
    checkDeadConnection s _ ⟨rfl, rfl⟩ ?_
  intro k t _ ht
  rw [checkDeadConnection_eq]
  split_ifs
  · exact ht
  · exact ht

/-- The method `isDataAvailable` writes to `trackers` only. -/
theorem isDataAvailable_frame (s : UDPDeviceQuatServer) (id : Int) :
    (isDataAvailable s id).2 = { s with trackers := (isDataAvailable s id).2.trackers } := by
  unfold isDataAvailable
  split_ifs <;> rfl

/-- The method `buzz` writes to the socket only. -/
theorem buzz_frame (s : UDPDeviceQuatServer) (id : Int) (d f a : Nat) :
    buzz s id d f a = { s with sent := (buzz s id d f a).sent } := by
  unfold buzz send_bytebuffer
  split_ifs <;> rfl

/-- Draining handshakes assigns no slot. -/
theorem drain_handshakes_count (queued : List (Nat × sockaddr_in × List Byte)) (now : Nat)
    (h : queued.all (fun q => isHandshake q.2.2) = true) :
    ∀ s : UDPDeviceQuatServer,
      (drain s queued now).activeTrackerCount = s.activeTrackerCount := by
  induction queued with
  | nil => intro s; rfl
  | cons q rest ih =>
    intro s
    obtain ⟨t, a, d⟩ := q
    simp only [List.all_cons, Bool.and_eq_true] at h
    unfold drain
    simp only []
    rw [read_handshake s t a d h.1]
    simp only [if_true]
    rw [ih h.2]
    rfl

/-- An operation that receives handshakes only assigns no slot. -/
theorem step_onlyHandshakes_count (s : UDPDeviceQuatServer) (a : Action)
    (h : a.onlyHandshakes = true) :
    (step s a).activeTrackerCount = s.activeTrackerCount := by
  cases a with
  | send_heartbeat => exact (send_heartbeat_frame s).2.1
  | more_data_exists__read now recv =>
    cases recv with
    | none => rfl
    | some r =>
      obtain ⟨a, d⟩ := r
      simp only [step]
      rw [read_handshake s now a d h]
      rfl
  | checkDeadConnections => exact (checkDeadConnections_count s).1
  | tick queued now =>
    simp only [step, tick]
    rw [(checkDeadConnections_count _).1, drain_handshakes_count queued now h,
      (send_heartbeat_frame s).2.1]
  | isDataAvailable id =>
    simp only [step]
    rw [isDataAvailable_frame]
  | buzz id d f a =>
    simp only [step]
    rw [buzz_frame]

/-- C2: a datagram of at least four bytes whose type field decodes to 3 (handshake),
from any source address and in any state, makes `more_data_exists__read` send exactly
one reply, the fixed handshake payload, to that source address, and leaves the number of
assigned slots, the stored client addresses, the liveness flags, the contact times, the
tracker data and the log unchanged; consequently a run from a freshly constructed
server in which every received datagram is a handshake ends with
`getActiveTrackerCount() == 0`. -/
theorem handshake_never_allocates :
    (∀ (s : UDPDeviceQuatServer) (now : Nat) (a : sockaddr_in) (d : List Byte),
      4 ≤ d.length → convert_chars 4 d = MSG_HANDSHAKE →
        (more_data_exists__read s now (some (a, d))).1 = true ∧
        (more_data_exists__read s now (some (a, d))).2.sent
          = s.sent ++ [(a, Payload.chars buff_hello)] ∧
        (more_data_exists__read s now (some (a, d))).2.activeTrackerCount
          = s.activeTrackerCount ∧
        (more_data_exists__read s now (some (a, d))).2.clients = s.clients ∧
        (more_data_exists__read s now (some (a, d))).2.connectionIsDead
          = s.connectionIsDead ∧
        (more_data_exists__read s now (some (a, d))).2.lastContactTime
          = s.lastContactTime ∧
        (more_data_exists__read s now (some (a, d))).2.trackers = s.trackers ∧
        (more_data_exists__read s now (some (a, d))).2.logged = s.logged) ∧
      (∀ (hb : Int) (buf : List Byte) (actions : List Action),
        (∀ x ∈ actions, x.onlyHandshakes = true) →
          getActiveTrackerCount (run (UDPDeviceQuatServer.new hb buf) actions) = 0) := by
  constructor
  · intro s now a d h1 h2
    have h : isHandshake d = true := by
      simp [isHandshake, h1, h2]
    rw [read_handshake s now a d h]
    exact ⟨rfl, rfl, rfl, rfl, rfl, rfl, rfl, rfl⟩
  · intro hb buf actions
    have key : ∀ (acts : List Action) (s : UDPDeviceQuatServer),
        (∀ x ∈ acts, x.onlyHandshakes = true) →
          (run s acts).activeTrackerCount = s.activeTrackerCount := by
      intro acts
      induction acts with
      | nil => intro s _; rfl
      | cons x rest ih =>
        intro s hx
        have h1 := step_onlyHandshakes_count s x (hx x (List.mem_cons_self _ _))
        have h2 := ih (step s x) (fun y hy => hx y (List.mem_cons_of_mem _ hy))
        simp only [run, List.foldl_cons] at h2 ⊢
        rw [h2, h1]
    intro hx
    exact key actions _ hx

/-- C2 on examples: a handshake from `exampleClient` to the example server is answered
with the 14-byte hello payload, and three ticks that deliver handshakes from two
addresses to a fresh server leave no slot assigned. -/
theorem handshake_never_allocates_witness :
    (more_data_exists__read exampleServer 101 (some (exampleClient, exampleHandshake))).2.sent
        = exampleServer.sent ++ [(exampleClient, Payload.chars buff_hello)] ∧
      getActiveTrackerCount (run (UDPDeviceQuatServer.new 0 exampleBuffer)
        [Action.tick [(1, exampleClient, exampleHandshake), (1, otherClient, exampleHandshake)] 1,
          Action.tick [] 2,
          Action.tick [(3, otherClient, exampleHandshake)] 3]) = 0 :=
  ⟨(handshake_never_allocates.1 exampleServer 101 exampleClient exampleHandshake
      (by decide) (by decide)).2.1,
    handshake_never_allocates.2 0 exampleBuffer _ (by decide)⟩

/-! ## Capacity -/

/-- Two addresses are different clients when they differ in IP or in port. -/
theorem isSameClient_eq_false (a b : sockaddr_in) :
    isSameClient a b = false ↔ (a.sin_addr ≠ b.sin_addr ∨ a.sin_port ≠ b.sin_port) := by
  unfold isSameClient
  rw [Bool.and_eq_false_iff]
  simp

/-- An address is the same client as itself. -/
theorem isSameClient_self (a : sockaddr_in) : isSameClient a a = true := by
  simp [isSameClient]

/-- No space and no match: `getOrAssignTrackerId` returns -1 and writes nothing. -/
theorem getOrAssign_full (s : UDPDeviceQuatServer) (a : sockaddr_in)
    (hfull : s.activeTrackerCount = MAX_TRACKERS)
    (hdiff : ∀ i, i < MAX_TRACKERS → isSameClient (s.clients.getD i default) a = false) :
    getOrAssignTrackerId s a = (-1, s) := by
  rcases getOrAssign_cases s a with ⟨i, h1, h2, _, _⟩ | ⟨_, h2, _⟩ | ⟨_, _, h3⟩
  · rw [hfull] at h1
    rw [hdiff i (by simpa using h1)] at h2
    exact absurd h2 (by simp)
  · rw [hfull] at h2
    exact absurd h2 (lt_irrefl _)
  · exact h3

/-- C4: when all `MAX_TRACKERS` (20) slots are assigned, a datagram that is not a
handshake and comes from an address that differs in IP or port from each of the 20
stored client addresses makes `getOrAssignTrackerId` return -1, and processing it leaves
the number of assigned slots, the stored addresses, the liveness flags, the contact
times and every tracker (buffers, sequence number, fresh-data flag) unchanged; nothing
is sent and nothing is logged. -/
theorem capacity_bound (s : UDPDeviceQuatServer) (now : Nat) (a : sockaddr_in) (d : List Byte)
    (hfull : s.activeTrackerCount = MAX_TRACKERS)
    (hdiff : ∀ i, i < MAX_TRACKERS →
      (s.clients.getD i default).sin_addr ≠ a.sin_addr ∨
        (s.clients.getD i default).sin_port ≠ a.sin_port)
    (hty : convert_chars 4 (RecvFrom s.buffer MAX_MSG_SIZE d) ≠ MSG_HANDSHAKE) :
    (getOrAssignTrackerId (receive s now d) a).1 = -1 ∧
      (more_data_exists__read s now (some (a, d))).1 = true ∧
      (more_data_exists__read s now (some (a, d))).2.activeTrackerCount
        = s.activeTrackerCount ∧
      (more_data_exists__read s now (some (a, d))).2.clients = s.clients ∧
      (more_data_exists__read s now (some (a, d))).2.connectionIsDead = s.connectionIsDead ∧
      (more_data_exists__read s now (some (a, d))).2.lastContactTime = s.lastContactTime ∧
      (more_data_exists__read s now (some (a, d))).2.trackers = s.trackers ∧
      (more_data_exists__read s now (some (a, d))).2.sent = s.sent ∧
      (more_data_exists__read s now (some (a, d))).2.logged = s.logged := by
  have hg : getOrAssignTrackerId (receive s now d) a = (-1, receive s now d) :=
    getOrAssign_full (receive s now d) a hfull
      (fun i hi => (isSameClient_eq_false _ _).2 (hdiff i hi))
  have hty2 : convert_chars 4 (receive s now d).buffer ≠ MSG_HANDSHAKE := hty
  have hr : more_data_exists__read s now (some (a, d)) = (true, receive s now d) := by
    rw [more_data_exists__read_some, if_neg hty2, hg]
    rfl
  rw [hr, hg]
  exact ⟨rfl, rfl, rfl, rfl, rfl, rfl, rfl, rfl, rfl⟩

/-- C4 on the full example server: a rotation datagram from `exampleClient`, whose
address is none of the 20 stored ones, is dropped and the trackers are as before. -/
theorem capacity_bound_witness :
    (getOrAssignTrackerId (receive fullServer 101 exampleRotation) exampleClient).1 = -1 ∧
      (more_data_exists__read fullServer 101
        (some (exampleClient, exampleRotation))).2.trackers = fullServer.trackers :=
  ⟨(capacity_bound fullServer 101 exampleClient exampleRotation rfl (by decide)
      (by decide)).1,
    (capacity_bound fullServer 101 exampleClient exampleRotation rfl (by decide)
      (by decide)).2.2.2.2.2.2.1⟩

/-! ## Slot assignment is stable -/

/-- The branches of `more_data_exists__read` after the handshake test. -/
theorem read_not_handshake (s : UDPDeviceQuatServer) (now : Nat) (a : sockaddr_in)
    (d : List Byte) (hty : convert_chars 4 (receive s now d).buffer ≠ MSG_HANDSHAKE) :
    more_data_exists__read s now (some (a, d)) =
      if (getOrAssignTrackerId (receive s now d) a).1 < 0 then
        (true, (getOrAssignTrackerId (receive s now d) a).2)
      else
        (true, dispatch
          (markContact (getOrAssignTrackerId (receive s now d) a).2
            (getOrAssignTrackerId (receive s now d) a).1.toNat)
          (convert_chars 4 (receive s now d).buffer)
          (getOrAssignTrackerId (receive s now d) a).1) := by
  rw [more_data_exists__read_some, if_neg hty]

/-- The `switch` leaves every member but `trackers`. -/
theorem dispatch_table (s : UDPDeviceQuatServer) (ty : Nat) (id : Int) :
    (dispatch s ty id).activeTrackerCount = s.activeTrackerCount ∧
      (dispatch s ty id).clients = s.clients ∧
      (dispatch s ty id).lastContactTime = s.lastContactTime ∧
      (dispatch s ty id).connectionIsDead = s.connectionIsDead ∧
      (dispatch s ty id).sent = s.sent ∧
      (dispatch s ty id).logged = s.logged ∧
      (dispatch s ty id).curr_time = s.curr_time ∧
      (dispatch s ty id).hb_accum = s.hb_accum := by
  have h := (dispatch_frame s ty id).1
  refine ⟨?_, ?_, ?_, ?_, ?_, ?_, ?_, ?_⟩ <;> rw [h]

/-- An address that resolves to slot `i` gets the id `i`, and nothing is written. -/
theorem resolvesTo_getOrAssign (s : UDPDeviceQuatServer) (a : sockaddr_in) (i : Nat)
    (h : resolvesTo s a i) : getOrAssignTrackerId s a = ((i : Int), s) := by
  obtain ⟨h1, h2, h3⟩ := h
  unfold getOrAssignTrackerId
  rw [find_range_first _ _ i h1 h2 h3]

/-- Resolution depends on the slot table only. -/
theorem resolvesTo_congr (s t : UDPDeviceQuatServer) (a : sockaddr_in) (i : Nat)
    (h1 : t.activeTrackerCount = s.activeTrackerCount) (h2 : t.clients = s.clients)
    (h : resolvesTo s a i) : resolvesTo t a i := by
  unfold resolvesTo at h ⊢
  rw [h1, h2]
  exact h

/-- Resolution survives the growth of the slot table. -/
theorem resolvesTo_extends (s t : UDPDeviceQuatServer) (a : sockaddr_in) (i : Nat)
    (h1 : s.activeTrackerCount ≤ t.activeTrackerCount)
    (h2 : ∀ j, j < s.activeTrackerCount.toNat →
      t.clients.getD j default = s.clients.getD j default)
    (h : resolvesTo s a i) : resolvesTo t a i := by
  obtain ⟨g1, g2, g3⟩ := h
  refine ⟨by omega, ?_, ?_⟩
  · rw [h2 i g1]; exact g2
  · intro j hj
    rw [h2 j (by omega)]
    exact g3 j hj

/-- After `getOrAssignTrackerId` returned an id, the address resolves to it. -/
theorem getOrAssign_resolves (s : UDPDeviceQuatServer) (a : sockaddr_in) (hv : Valid s)
    (hid : 0 ≤ (getOrAssignTrackerId s a).1) :
    resolvesTo (getOrAssignTrackerId s a).2 a (getOrAssignTrackerId s a).1.toNat := by
  have h0 := hv.count_nonneg
  rcases getOrAssign_cases s a with ⟨i, h1, h2, h3, h4⟩ | ⟨h1, h2, h3⟩ | ⟨_, _, h3⟩
  · rw [h4]
    exact ⟨by simpa using h1, by simpa using h2, by simpa using h3⟩
  · rw [h3]
    have hlt : s.activeTrackerCount.toNat < s.clients.length := by
      rw [hv.clients_length]
      simp only [MAX_TRACKERS] at h2 ⊢
      omega
    refine ⟨?_, ?_, ?_⟩
    · simp only [assignSlot]
      omega
    · simp only [assignSlot]
      rw [getD_set_self _ _ _ _ hlt]
      exact isSameClient_self a
    · intro j hj
      simp only [assignSlot]
      rw [getD_set_other _ _ _ _ _ (by omega)]
      exact h1 j hj
  · rw [h3] at hid
    simp at hid

/-- The method `getOrAssignTrackerId` only appends to the slot table. -/
theorem getOrAssign_extends (s : UDPDeviceQuatServer) (a : sockaddr_in) :
    s.activeTrackerCount ≤ (getOrAssignTrackerId s a).2.activeTrackerCount ∧
      ∀ j, j < s.activeTrackerCount.toNat →
        (getOrAssignTrackerId s a).2.clients.getD j default = s.clients.getD j default := by
  rcases getOrAssign_cases s a with ⟨i, _, _, _, h4⟩ | ⟨_, _, h3⟩ | ⟨_, _, h3⟩
  · rw [h4]; exact ⟨le_rfl, fun _ _ => rfl⟩
  · rw [h3]
    refine ⟨by simp only [assignSlot]; omega, ?_⟩
    intro j hj
    simp only [assignSlot]
    rw [getD_set_other _ _ _ _ _ (by omega)]
  · rw [h3]; exact ⟨le_rfl, fun _ _ => rfl⟩

/-- The method `more_data_exists__read` only appends to the slot table. -/
theorem read_extends (s : UDPDeviceQuatServer) (now : Nat)
    (recv : Option (sockaddr_in × List Byte)) :
    s.activeTrackerCount ≤ (more_data_exists__read s now recv).2.activeTrackerCount ∧
      ∀ j, j < s.activeTrackerCount.toNat →
        (more_data_exists__read s now recv).2.clients.getD j default
          = s.clients.getD j default := by
  cases recv with
  | none => exact ⟨le_rfl, fun _ _ => rfl⟩
  | some r =>
    obtain ⟨a, d⟩ := r
    rw [more_data_exists__read_some]
    have hg := getOrAssign_extends (receive s now d) a
    split_ifs
    · exact ⟨le_rfl, fun _ _ => rfl⟩
    · exact hg
    · obtain ⟨e1, e2, _⟩ := dispatch_table
        (markContact (getOrAssignTrackerId (receive s now d) a).2
          (getOrAssignTrackerId (receive s now d) a).1.toNat)
        (convert_chars 4 (receive s now d).buffer) (getOrAssignTrackerId (receive s now d) a).1
      simp only [e1, e2]
      exact hg

/-- The drain loop only appends to the slot table. -/
theorem drain_extends (queued : List (Nat × sockaddr_in × List Byte)) (now : Nat) :
    ∀ s : UDPDeviceQuatServer,
      s.activeTrackerCount ≤ (drain s queued now).activeTrackerCount ∧
        ∀ j, j < s.activeTrackerCount.toNat →
          (drain s queued now).clients.getD j default = s.clients.getD j default := by
  induction queued with
  | nil => intro s; exact ⟨le_rfl, fun _ _ => rfl⟩
  | cons q rest ih =>
    intro s
    obtain ⟨t, a, d⟩ := q
    have h1 := read_extends s t (some (a, d))
    unfold drain
    simp only []
    split_ifs
    · have h2 := ih (more_data_exists__read s t (some (a, d))).2
      refine ⟨le_trans h1.1 h2.1, ?_⟩
      intro j hj
      rw [h2.2 j (by omega), h1.2 j hj]
    · exact h1

/-- Every operation only appends to the slot table. -/
theorem step_extends (s : UDPDeviceQuatServer) (x : Action) :
    s.activeTrackerCount ≤ (step s x).activeTrackerCount ∧
      ∀ j, j < s.activeTrackerCount.toNat →
        (step s x).clients.getD j default = s.clients.getD j default := by
  cases x with
  | send_heartbeat =>
    obtain ⟨_, e1, e2, _⟩ := send_heartbeat_frame s
    simp only [step]
    rw [e1, e2]
    exact ⟨le_rfl, fun _ _ => rfl⟩
  | more_data_exists__read now recv => exact read_extends s now recv
  | checkDeadConnections =>
    obtain ⟨e1, e2⟩ := checkDeadConnections_count s
    simp only [step]
    rw [e1, e2]
    exact ⟨le_rfl, fun _ _ => rfl⟩
  | tick queued now =>
    obtain ⟨e1, e2⟩ := checkDeadConnections_count (drain (send_heartbeat s) queued now)
    obtain ⟨_, e3, e4, _⟩ := send_heartbeat_frame s
    have h := drain_extends queued now (send_heartbeat s)
    rw [e3, e4] at h
    simp only [step, tick, e1, e2]
    exact h
  | isDataAvailable id =>
    simp only [step]
    rw [isDataAvailable_frame]
    exact ⟨le_rfl, fun _ _ => rfl⟩
  | buzz id d f a =>
    simp only [step]
    rw [buzz_frame]
    exact ⟨le_rfl, fun _ _ => rfl⟩

/-- Every run only appends to the slot table. -/
theorem run_extends (actions : List Action) :
    ∀ s : UDPDeviceQuatServer,
      s.activeTrackerCount ≤ (run s actions).activeTrackerCount ∧
        ∀ j, j < s.activeTrackerCount.toNat →
          (run s actions).clients.getD j default = s.clients.getD j default := by
  induction actions with
  | nil => intro s; exact ⟨le_rfl, fun _ _ => rfl⟩
  | cons x rest ih =>
    intro s
    have h1 := step_extends s x
    have h2 := ih (step s x)
    simp only [run, List.foldl_cons] at h2 ⊢
    refine ⟨le_trans h1.1 h2.1, ?_⟩
    intro j hj
    rw [h2.2 j (by omega), h1.2 j hj]

/-- After a datagram that got an id was processed, its source resolves to that id. -/
theorem read_resolves (s : UDPDeviceQuatServer) (now : Nat) (a : sockaddr_in) (d : List Byte)
    (hv : Valid s) (hty : convert_chars 4 (receive s now d).buffer ≠ MSG_HANDSHAKE)
    (hid : 0 ≤ (getOrAssignTrackerId (receive s now d) a).1) :
    resolvesTo (more_data_exists__read s now (some (a, d))).2 a
      (getOrAssignTrackerId (receive s now d) a).1.toNat := by
  have hr := getOrAssign_resolves (receive s now d) a (Valid_receive s now d hv) hid
  rw [read_not_handshake s now a d hty, if_neg (not_lt.2 hid)]
  obtain ⟨e1, e2, _⟩ := dispatch_table
    (markContact (getOrAssignTrackerId (receive s now d) a).2
      (getOrAssignTrackerId (receive s now d) a).1.toNat)
    (convert_chars 4 (receive s now d).buffer) (getOrAssignTrackerId (receive s now d) a).1
  exact resolvesTo_congr _ _ a _ e1 e2 hr

/-- A datagram from a client that has a slot, or that finds the table full without a match,
leaves the slot table. -/
theorem read_known_client (s : UDPDeviceQuatServer) (now : Nat) (a : sockaddr_in)
    (d : List Byte)
    (h : (∃ i, resolvesTo s a i) ∨
      ((∀ j, j < s.activeTrackerCount.toNat →
          isSameClient (s.clients.getD j default) a = false) ∧
        ¬ s.activeTrackerCount < MAX_TRACKERS)) :
    (more_data_exists__read s now (some (a, d))).2.activeTrackerCount = s.activeTrackerCount ∧
      (more_data_exists__read s now (some (a, d))).2.clients = s.clients := by
  have hg : (getOrAssignTrackerId (receive s now d) a).2 = receive s now d := by
    rcases h with ⟨i, hi⟩ | ⟨h1, h2⟩
    · rw [resolvesTo_getOrAssign (receive s now d) a i (resolvesTo_congr s _ a i rfl rfl hi)]
    · rcases getOrAssign_cases (receive s now d) a with
        ⟨i, _, _, _, g4⟩ | ⟨_, g2, _⟩ | ⟨_, _, g3⟩
      · rw [g4]
      · exact absurd g2 h2
      · rw [g3]
  rw [more_data_exists__read_some]
  split_ifs
  · exact ⟨rfl, rfl⟩
  · rw [hg]; exact ⟨rfl, rfl⟩
  · obtain ⟨e1, e2, _⟩ := dispatch_table
      (markContact (getOrAssignTrackerId (receive s now d) a).2
        (getOrAssignTrackerId (receive s now d) a).1.toNat)
      (convert_chars 4 (receive s now d).buffer) (getOrAssignTrackerId (receive s now d) a).1
    rw [e1, e2]
    simp only [markContact]
    rw [hg]
    exact ⟨rfl, rfl⟩

/-- The same for a sequence of datagrams from one client. -/
theorem reads_known_client (a : sockaddr_in) (packets : List (Nat × List Byte)) :
    ∀ s : UDPDeviceQuatServer,
      ((∃ i, resolvesTo s a i) ∨
        ((∀ j, j < s.activeTrackerCount.toNat →
            isSameClient (s.clients.getD j default) a = false) ∧
          ¬ s.activeTrackerCount < MAX_TRACKERS)) →
      (run s (packets.map
          (fun p => Action.more_data_exists__read p.1 (some (a, p.2))))).activeTrackerCount
          = s.activeTrackerCount ∧
        (run s (packets.map
          (fun p => Action.more_data_exists__read p.1 (some (a, p.2))))).clients
          = s.clients := by
  induction packets with
  | nil => intro s _; exact ⟨rfl, rfl⟩
  | cons p rest ih =>
    intro s h
    obtain ⟨e1, e2⟩ := read_known_client s p.1 a p.2 h
    have h2 : (∃ i, resolvesTo (more_data_exists__read s p.1 (some (a, p.2))).2 a i) ∨
        ((∀ j, j < (more_data_exists__read s p.1 (some (a, p.2))).2.activeTrackerCount.toNat →
            isSameClient ((more_data_exists__read s p.1 (some (a, p.2))).2.clients.getD j default)
              a = false) ∧
          ¬ (more_data_exists__read s p.1 (some (a, p.2))).2.activeTrackerCount
            < MAX_TRACKERS) := by
      rcases h with ⟨i, hi⟩ | h
      · exact Or.inl ⟨i, resolvesTo_congr s _ a i e1 e2 hi⟩
      · right
        rw [e1, e2]
        exact h
    obtain ⟨g1, g2⟩ := ih _ h2
    simp only [run, List.map_cons, List.foldl_cons, step] at g1 g2 ⊢
    exact ⟨g1.trans e1, g2.trans e2⟩

/-- C3: in a reachable state, once `getOrAssignTrackerId(a)` has returned an id that is
not negative, a later call for the same address, after any further operations of the
server, returns the same id and changes nothing; this holds for the call as such and for
the call made while a datagram from `a` that is not a handshake is processed. After
such a datagram, further datagrams from `a` change neither `activeTrackerCount` nor
the stored client addresses: one address gets one id. -/
theorem slot_assignment_idempotent (s : UDPDeviceQuatServer) (hs : Reachable s)
    (a : sockaddr_in) :
    (0 ≤ (getOrAssignTrackerId s a).1 → ∀ actions : List Action,
      getOrAssignTrackerId (run (getOrAssignTrackerId s a).2 actions) a
        = ((getOrAssignTrackerId s a).1, run (getOrAssignTrackerId s a).2 actions)) ∧
    (∀ (now : Nat) (d : List Byte),
      convert_chars 4 (receive s now d).buffer ≠ MSG_HANDSHAKE →
      0 ≤ (getOrAssignTrackerId (receive s now d) a).1 → ∀ actions : List Action,
      getOrAssignTrackerId (run (more_data_exists__read s now (some (a, d))).2 actions) a
        = ((getOrAssignTrackerId (receive s now d) a).1,
            run (more_data_exists__read s now (some (a, d))).2 actions)) ∧
    (∀ (now : Nat) (d : List Byte) (packets : List (Nat × List Byte)),
      convert_chars 4 (receive s now d).buffer ≠ MSG_HANDSHAKE →
      (run (more_data_exists__read s now (some (a, d))).2
          (packets.map (fun p => Action.more_data_exists__read p.1 (some (a, p.2))))
        ).activeTrackerCount
        = (more_data_exists__read s now (some (a, d))).2.activeTrackerCount ∧
      (run (more_data_exists__read s now (some (a, d))).2
          (packets.map (fun p => Action.more_data_exists__read p.1 (some (a, p.2))))
        ).clients
        = (more_data_exists__read s now (some (a, d))).2.clients) := by
  have hv := Reachable_valid s hs
  refine ⟨?_, ?_, ?_⟩
  · intro hid actions
    have hr := getOrAssign_resolves s a hv hid
    have he := run_extends actions (getOrAssignTrackerId s a).2
    rw [resolvesTo_getOrAssign _ a _ (resolvesTo_extends _ _ a _ he.1 he.2 hr),
      Int.toNat_of_nonneg hid]
  · intro now d hty hid actions
    have hr := read_resolves s now a d hv hty hid
    have he := run_extends actions (more_data_exists__read s now (some (a, d))).2
    rw [resolvesTo_getOrAssign _ a _ (resolvesTo_extends _ _ a _ he.1 he.2 hr),
      Int.toNat_of_nonneg hid]
  · intro now d packets hty
    apply reads_known_client
    by_cases hid : 0 ≤ (getOrAssignTrackerId (receive s now d) a).1
    · exact Or.inl ⟨_, read_resolves s now a d hv hty hid⟩
    · right
      rw [read_not_handshake s now a d hty, if_pos (not_le.1 hid)]
      rcases getOrAssign_cases (receive s now d) a with
        ⟨i, _, _, _, g4⟩ | ⟨_, _, g3⟩ | ⟨g1, g2, g3⟩
      · rw [g4] at hid
        exact absurd (Int.ofNat_nonneg i) hid
      · rw [g3] at hid
        exact absurd hv.count_nonneg hid
      · rw [g3]
        exact ⟨g1, g2⟩

/-- C3 on the example server, where `exampleClient` holds slot 0: after a tick that
assigns slot 1 to `otherClient` and a later tick in which both time out, the address
`exampleClient` still resolves to slot 0, and three more datagrams from it leave one
assigned slot. -/
theorem slot_assignment_idempotent_witness :
    (getOrAssignTrackerId
        (run (getOrAssignTrackerId exampleServer exampleClient).2
          [Action.tick [(101, otherClient, exampleRotation)] 101, Action.tick [] 110])
        exampleClient).1 = 0 ∧
      (run (more_data_exists__read exampleServer 101 (some (exampleClient, exampleRotation))).2
          ([(102, exampleHeartbeat), (103, exampleRotation), (104, exampleHandshake)].map
            (fun p => Action.more_data_exists__read p.1 (some (exampleClient, p.2))))
        ).activeTrackerCount = 1 :=
  ⟨congrArg Prod.fst
      ((slot_assignment_idempotent exampleServer exampleServer_reachable exampleClient).1
        (by decide) [Action.tick [(101, otherClient, exampleRotation)] 101, Action.tick [] 110]),
    ((slot_assignment_idempotent exampleServer exampleServer_reachable exampleClient).2.2
        101 exampleRotation
        [(102, exampleHeartbeat), (103, exampleRotation), (104, exampleHandshake)]
        (by decide)).1⟩

/-! ## Fresh data -/

/-- A property kept by the update is kept in every slot. -/
theorem updateAt_pred {α : Type} [Inhabited α] (P : α → Prop) (l : List α) (i j : Nat)
    (f : α → α) (hf : ∀ t, P t → P (f t)) (h : P (l.getD j default)) :
    P ((updateAt l i f).getD j default) := by
  rw [getD_updateAt]
  split_ifs with hc
  · rw [← hc.1]
    exact hf _ h
  · exact h

/-- A sensor packet never clears the fresh-data flag, and sets it when the guard accepts. -/
theorem handle_doubles_packet_fresh (packet : List Byte) (into : SampleBuffer) (n : Nat)
    (t : TrackerData) :
    (t.isNewDataAvailable = true →
        (handle_doubles_packet packet into n t).isNewDataAvailable = true) ∧
      ((t.receive_packet_id (convert_chars 8 (packet.drop 4))).1 = true →
        (handle_doubles_packet packet into n t).isNewDataAvailable = true) := by
  unfold handle_doubles_packet
  simp only []
  split_ifs with h
  · refine ⟨fun ht => ?_, fun hacc => ?_⟩
    · unfold TrackerData.receive_packet_id
      split_ifs <;> exact ht
    · rw [hacc] at h
      exact absurd h (by simp)
  · exact ⟨fun _ => rfl, fun _ => rfl⟩

/-- Assigning a slot leaves the flags and sequence numbers. -/
theorem assignSlot_fresh (s : UDPDeviceQuatServer) (a : sockaddr_in) (j : Nat) :
    ((assignSlot s a).trackers.getD j default).isNewDataAvailable
        = (s.trackers.getD j default).isNewDataAvailable ∧
      ((assignSlot s a).trackers.getD j default).current_packet_id
        = (s.trackers.getD j default).current_packet_id := by
  simp only [assignSlot]
  rw [getD_updateAt]
  split_ifs with h
  · rw [h.1]; exact ⟨rfl, rfl⟩
  · exact ⟨rfl, rfl⟩

/-- The method `getOrAssignTrackerId` leaves the flags and sequence numbers. -/
theorem getOrAssign_fresh (s : UDPDeviceQuatServer) (a : sockaddr_in) (j : Nat) :
    ((getOrAssignTrackerId s a).2.trackers.getD j default).isNewDataAvailable
        = (s.trackers.getD j default).isNewDataAvailable ∧
      ((getOrAssignTrackerId s a).2.trackers.getD j default).current_packet_id
        = (s.trackers.getD j default).current_packet_id := by
  rcases getOrAssign_cases s a with ⟨i, _, _, _, h4⟩ | ⟨_, _, h3⟩ | ⟨_, _, h3⟩
  · rw [h4]; exact ⟨rfl, rfl⟩
  · rw [h3]; exact assignSlot_fresh s a j
  · rw [h3]; exact ⟨rfl, rfl⟩

/-- Updating the connection status leaves the flags and sequence numbers. -/
theorem markContact_fresh (s : UDPDeviceQuatServer) (i j : Nat) :
    ((markContact s i).trackers.getD j default).isNewDataAvailable
        = (s.trackers.getD j default).isNewDataAvailable ∧
      ((markContact s i).trackers.getD j default).current_packet_id
        = (s.trackers.getD j default).current_packet_id := by
  simp only [markContact]
  rw [getD_updateAt]
  split_ifs with h
  · rw [h.1]; exact ⟨rfl, rfl⟩
  · exact ⟨rfl, rfl⟩

/-- The `switch` clears no fresh-data flag. -/
theorem dispatch_fresh (s : UDPDeviceQuatServer) (ty : Nat) (id : Int) (j : Nat)
    (h : (s.trackers.getD j default).isNewDataAvailable = true) :
    ((dispatch s ty id).trackers.getD j default).isNewDataAvailable = true := by
  unfold dispatch handle_rotation_packet handle_gyro_packet handle_accel_packet
  split_ifs <;>
    first
    | exact h
    | exact updateAt_pred (fun t => t.isNewDataAvailable = true) _ _ _ _
        (fun t ht => (handle_doubles_packet_fresh _ _ _ t).1 ht) h

/-- The method `more_data_exists__read` clears no fresh-data flag. -/
theorem read_fresh (s : UDPDeviceQuatServer) (now : Nat)
    (recv : Option (sockaddr_in × List Byte)) (j : Nat)
    (h : (s.trackers.getD j default).isNewDataAvailable = true) :
    ((more_data_exists__read s now recv).2.trackers.getD j default).isNewDataAvailable
      = true := by
  cases recv with
  | none => exact h
  | some r =>
    obtain ⟨a, d⟩ := r
    have h1 : ((getOrAssignTrackerId (receive s now d) a).2.trackers.getD j
        default).isNewDataAvailable = true :=
      (getOrAssign_fresh (receive s now d) a j).1.trans h
    rw [more_data_exists__read_some]
    split_ifs
    · exact h
    · exact h1
    · apply dispatch_fresh
      exact (markContact_fresh _ _ j).1.trans h1

/-- The drain loop clears no fresh-data flag. -/
theorem drain_fresh (queued : List (Nat × sockaddr_in × List Byte)) (now : Nat) (j : Nat) :
    ∀ s : UDPDeviceQuatServer, (s.trackers.getD j default).isNewDataAvailable = true →
      ((drain s queued now).trackers.getD j default).isNewDataAvailable = true := by
  induction queued with
  | nil => intro s h; exact h
  | cons q rest ih =>
    intro s h
    obtain ⟨t, a, d⟩ := q
    have h1 := read_fresh s t (some (a, d)) j h
    unfold drain
    simp only []
    split_ifs
    · exact ih _ h1
    · exact h1

/-- The sweep leaves the fresh-data flags. -/
theorem checkDeadConnections_fresh (s : UDPDeviceQuatServer) (j : Nat) :
    ((checkDeadConnections s).trackers.getD j default).isNewDataAvailable
      = (s.trackers.getD j default).isNewDataAvailable := by
  unfold checkDeadConnections
  refine foldl_range_induction
    (fun _ t => (t.trackers.getD j default).isNewDataAvailable
      = (s.trackers.getD j default).isNewDataAvailable)
    checkDeadConnection s _ rfl ?_
  intro k t _ ht
  rw [checkDeadConnection_eq]
  split_ifs
  · simp only []
    rw [getD_updateAt]
    split_ifs with hc
    · rw [← hc.1]; exact ht
    · exact ht
  · exact ht

/-- Only `isDataAvailable(i)` clears the fresh-data flag of slot `i`. -/
theorem step_fresh (s : UDPDeviceQuatServer) (x : Action) (i : Int)
    (hx : x ≠ Action.isDataAvailable i)
    (h : (s.trackers.getD i.toNat default).isNewDataAvailable = true)
    (hi : 0 ≤ i) :
    ((step s x).trackers.getD i.toNat default).isNewDataAvailable = true := by
  cases x with
  | send_heartbeat =>
    simp only [step]
    rw [(send_heartbeat_frame s).1]
    exact h
  | more_data_exists__read now recv => exact read_fresh s now recv _ h
  | checkDeadConnections =>
    simp only [step]
    rw [checkDeadConnections_fresh]
    exact h
  | tick queued now =>
    simp only [step, tick]
    rw [checkDeadConnections_fresh]
    apply drain_fresh
    rw [(send_heartbeat_frame s).1]
    exact h
  | isDataAvailable id =>
    have hne : id ≠ i := fun hc => hx (by rw [hc])
    simp only [step]
    unfold isDataAvailable
    split_ifs with hr
    · exact h
    · simp only []
      rw [getD_updateAt_other _ _ _ _ (by omega)]
      exact h
  | buzz id d f a =>
    simp only [step]
    rw [buzz_frame]
    exact h

/-- A run without `isDataAvailable(i)` keeps the fresh-data flag of slot `i` set. -/
theorem run_fresh (actions : List Action) (i : Int) (hi : 0 ≤ i)
    (hx : ∀ x ∈ actions, x ≠ Action.isDataAvailable i) :
    ∀ s : UDPDeviceQuatServer, (s.trackers.getD i.toNat default).isNewDataAvailable = true →
      ((run s actions).trackers.getD i.toNat default).isNewDataAvailable = true := by
  induction actions with
  | nil => intro s h; exact h
  | cons x rest ih =>
    intro s h
    have h1 := step_fresh s x i (hx x (List.mem_cons_self _ _)) h hi
    exact ih (fun y hy => hx y (List.mem_cons_of_mem _ hy)) _ h1

/-- The guard accepts a higher or a low sequence number. -/
theorem receive_packet_id_accepts (t : TrackerData) (n : Nat)
    (h : n > t.current_packet_id ∨ n < 5) : (t.receive_packet_id n).1 = true := by
  unfold TrackerData.receive_packet_id
  rw [if_pos h]

/-- The method `isDataAvailable` for an id in range. -/
theorem isDataAvailable_in_range (s : UDPDeviceQuatServer) (i : Int)
    (h : ¬ (i < 0 ∨ i ≥ MAX_TRACKERS)) :
    isDataAvailable s i =
      ((s.trackers.getD i.toNat default).isNewDataAvailable,
        { s with
          trackers := updateAt s.trackers i.toNat
            (fun t => { t with isNewDataAvailable := false }) }) := by
  unfold isDataAvailable
  rw [if_neg h]

/-- The method `isDataAvailable` for an id out of range. -/
theorem isDataAvailable_out_of_range (s : UDPDeviceQuatServer) (i : Int)
    (h : i < 0 ∨ i ≥ MAX_TRACKERS) : isDataAvailable s i = (false, s) := by
  unfold isDataAvailable
  rw [if_pos h]

/-- The method `getOrAssignTrackerId` leaves the buffer, the clock, the socket and
`hb_accum`. -/
theorem getOrAssign_buffer (s : UDPDeviceQuatServer) (a : sockaddr_in) :
    (getOrAssignTrackerId s a).2.buffer = s.buffer ∧
      (getOrAssignTrackerId s a).2.curr_time = s.curr_time ∧
      (getOrAssignTrackerId s a).2.sent = s.sent ∧
      (getOrAssignTrackerId s a).2.hb_accum = s.hb_accum := by
  rcases getOrAssign_cases s a with ⟨i, _, _, _, h4⟩ | ⟨_, _, h3⟩ | ⟨_, _, h3⟩
  · rw [h4]; exact ⟨rfl, rfl, rfl, rfl⟩
  · rw [h3]; exact ⟨rfl, rfl, rfl, rfl⟩
  · rw [h3]; exact ⟨rfl, rfl, rfl, rfl⟩

/-- For a sensor message the `switch` applies `handle_doubles_packet` to the slot of the id.
-/
theorem dispatch_sensor (s : UDPDeviceQuatServer) (ty : Nat) (id : Int)
    (hty : ty = MSG_ROTATION ∨ ty = MSG_GYRO ∨ ty = MSG_ACCELEROMETER)
    (h0 : 0 ≤ id) (hlt : id.toNat < s.trackers.length) (hmax : id < MAX_TRACKERS) :
    ∃ (into : SampleBuffer) (n : Nat),
      (dispatch s ty id).trackers.getD id.toNat default
        = handle_doubles_packet s.buffer into n (s.trackers.getD id.toNat default) := by
  have hr : ¬ (id < 0 ∨ id ≥ MAX_TRACKERS) := by
    intro hc
    rcases hc with hc | hc
    · omega
    · exact absurd hmax (not_lt.2 hc)
  unfold dispatch handle_rotation_packet handle_gyro_packet handle_accel_packet
  simp only [hr, if_false]
  rcases hty with h | h | h
  · subst h
    refine ⟨.quat, 4, ?_⟩
    simp only [MSG_ROTATION, MSG_HEARTBEAT, one_ne_zero, if_false, if_true]
    exact getD_updateAt_self _ _ _ hlt
  · subst h
    refine ⟨.gyro, 3, ?_⟩
    simp only [MSG_GYRO, MSG_ROTATION, MSG_HEARTBEAT, OfNat.ofNat_ne_zero, OfNat.ofNat_ne_one,
      if_false, if_true]
    exact getD_updateAt_self _ _ _ hlt
  · subst h
    refine ⟨.accel, 3, ?_⟩
    simp only [MSG_ACCELEROMETER, MSG_GYRO, MSG_ROTATION, MSG_HEARTBEAT, OfNat.ofNat_ne_zero,
      OfNat.ofNat_ne_one, if_false, if_true]
    simp only [show ¬ ((4 : Nat) = 2) by decide, if_false]
    exact getD_updateAt_self _ _ _ hlt

/-- A sensor datagram accepted by the guard sets the fresh-data flag of its slot. -/
theorem read_accepts (s : UDPDeviceQuatServer) (hv : Valid s) (now : Nat) (a : sockaddr_in)
    (d : List Byte)
    (hty : convert_chars 4 (receive s now d).buffer = MSG_ROTATION ∨
      convert_chars 4 (receive s now d).buffer = MSG_GYRO ∨
      convert_chars 4 (receive s now d).buffer = MSG_ACCELEROMETER)
    (hid : 0 ≤ (getOrAssignTrackerId (receive s now d) a).1)
    (hseq : convert_chars 8 ((receive s now d).buffer.drop 4)
        > (s.trackers.getD (getOrAssignTrackerId (receive s now d) a).1.toNat
            default).current_packet_id ∨
      convert_chars 8 ((receive s now d).buffer.drop 4) < 5) :
    ((more_data_exists__read s now (some (a, d))).2.trackers.getD
      (getOrAssignTrackerId (receive s now d) a).1.toNat default).isNewDataAvailable
      = true := by
  have hnh : convert_chars 4 (receive s now d).buffer ≠ MSG_HANDSHAKE := by
    rcases hty with h | h | h <;> rw [h] <;> decide
  obtain ⟨g1, g2⟩ := Valid_getOrAssign (receive s now d) a (Valid_receive s now d hv)
  have g3 : (getOrAssignTrackerId (receive s now d) a).1.toNat
      < (getOrAssignTrackerId (receive s now d) a).2.activeTrackerCount.toNat := by
    rcases g2 with g2 | g2
    · omega
    · exact g2.2
  have hm := Valid_markContact _ _ g1 g3
  have hle := hm.count_le
  have hcnt : (markContact (getOrAssignTrackerId (receive s now d) a).2
      (getOrAssignTrackerId (receive s now d) a).1.toNat).activeTrackerCount
      = (getOrAssignTrackerId (receive s now d) a).2.activeTrackerCount := rfl
  rw [read_not_handshake s now a d hnh, if_neg (not_lt.2 hid)]
  obtain ⟨into, n, he⟩ := dispatch_sensor
    (markContact (getOrAssignTrackerId (receive s now d) a).2
      (getOrAssignTrackerId (receive s now d) a).1.toNat)
    (convert_chars 4 (receive s now d).buffer) (getOrAssignTrackerId (receive s now d) a).1
    hty hid
    (by rw [hm.trackers_length]; simp only [MAX_TRACKERS] at hle ⊢; omega)
    (by simp only [MAX_TRACKERS] at hle ⊢; omega)
  rw [he]
  apply (handle_doubles_packet_fresh _ _ _ _).2
  have hbuf : (markContact (getOrAssignTrackerId (receive s now d) a).2
      (getOrAssignTrackerId (receive s now d) a).1.toNat).buffer = (receive s now d).buffer :=
    (getOrAssign_buffer (receive s now d) a).1
  have hcpi := ((markContact_fresh (getOrAssignTrackerId (receive s now d) a).2
      (getOrAssignTrackerId (receive s now d) a).1.toNat
      (getOrAssignTrackerId (receive s now d) a).1.toNat).2).trans
    (getOrAssign_fresh (receive s now d) a
      (getOrAssignTrackerId (receive s now d) a).1.toNat).2
  rw [hbuf]
  apply receive_packet_id_accepts
  rw [hcpi]
  exact hseq

/-- C5: after a rotation, gyroscope or accelerometer datagram has been accepted by the
sequencing guard for slot `i` in a reachable state, the next call `isDataAvailable(i)`,
whatever other operations come in between, returns true, and the call right after it
returns false. A call `isDataAvailable(i)` in any state changes nothing but the
fresh-data flag of slot `i`. -/
theorem isDataAvailable_edge_triggered :
    (∀ (s : UDPDeviceQuatServer) (now : Nat) (a : sockaddr_in) (d : List Byte)
        (actions : List Action),
      Reachable s →
      (convert_chars 4 (receive s now d).buffer = MSG_ROTATION ∨
        convert_chars 4 (receive s now d).buffer = MSG_GYRO ∨
        convert_chars 4 (receive s now d).buffer = MSG_ACCELEROMETER) →
      0 ≤ (getOrAssignTrackerId (receive s now d) a).1 →
      (convert_chars 8 ((receive s now d).buffer.drop 4)
          > (s.trackers.getD (getOrAssignTrackerId (receive s now d) a).1.toNat
              default).current_packet_id ∨
        convert_chars 8 ((receive s now d).buffer.drop 4) < 5) →
      (∀ x ∈ actions,
        x ≠ Action.isDataAvailable (getOrAssignTrackerId (receive s now d) a).1) →
      (isDataAvailable (run (more_data_exists__read s now (some (a, d))).2 actions)
          (getOrAssignTrackerId (receive s now d) a).1).1 = true ∧
        (isDataAvailable
          (isDataAvailable (run (more_data_exists__read s now (some (a, d))).2 actions)
            (getOrAssignTrackerId (receive s now d) a).1).2
          (getOrAssignTrackerId (receive s now d) a).1).1 = false) ∧
    (∀ (s : UDPDeviceQuatServer) (i : Int),
      (isDataAvailable s i).2 = { s with trackers := (isDataAvailable s i).2.trackers } ∧
        (isDataAvailable s i).2.trackers.length = s.trackers.length ∧
        (∀ j, j ≠ i.toNat →
          (isDataAvailable s i).2.trackers.getD j default = s.trackers.getD j default) ∧
        { (isDataAvailable s i).2.trackers.getD i.toNat default with
            isNewDataAvailable := (s.trackers.getD i.toNat default).isNewDataAvailable }
          = s.trackers.getD i.toNat default) := by
  constructor
  · intro s now a d actions hs hty hid hseq hx
    have hv := Reachable_valid s hs
    have hv1 : Valid (more_data_exists__read s now (some (a, d))).2 := Valid_read s now _ hv
    have hv2 := Valid_run actions _ hv1
    have hfresh := run_fresh actions _ hid hx _ (read_accepts s hv now a d hty hid hseq)
    obtain ⟨_, g2⟩ := Valid_getOrAssign (receive s now d) a (Valid_receive s now d hv)
    have hle := (Valid_getOrAssign (receive s now d) a (Valid_receive s now d hv)).1.count_le
    have hr : ¬ ((getOrAssignTrackerId (receive s now d) a).1 < 0 ∨
        (getOrAssignTrackerId (receive s now d) a).1 ≥ MAX_TRACKERS) := by
      simp only [MAX_TRACKERS] at hle ⊢
      omega
    have hlen : (getOrAssignTrackerId (receive s now d) a).1.toNat
        < (run (more_data_exists__read s now (some (a, d))).2 actions).trackers.length := by
      rw [hv2.trackers_length]
      simp only [MAX_TRACKERS] at hr ⊢
      omega
    constructor
    · rw [isDataAvailable_in_range _ _ hr]
      exact hfresh
    · rw [isDataAvailable_in_range _ _ hr, isDataAvailable_in_range _ _ hr]
      simp only []
      rw [getD_updateAt_self _ _ _ hlen]
  · intro s i
    by_cases hr : i < 0 ∨ i ≥ MAX_TRACKERS
    · rw [isDataAvailable_out_of_range s i hr]
      exact ⟨rfl, rfl, fun _ _ => rfl, rfl⟩
    · rw [isDataAvailable_in_range s i hr]
      dsimp only
      refine ⟨rfl, length_updateAt _ _ _,
        fun j hj => getD_updateAt_other _ _ _ _ (Ne.symm hj), ?_⟩
      rw [getD_updateAt]
      split_ifs <;> rfl

/-- C5 on the example server: a rotation datagram with sequence number 9 from
`exampleClient` is accepted for slot 0; after a further tick the call
`isDataAvailable(0)` returns true and the next one false. -/
theorem isDataAvailable_edge_triggered_witness :
    (isDataAvailable
        (run (more_data_exists__read exampleServer 101
          (some (exampleClient, exampleRotation))).2 [Action.tick [] 102]) 0).1 = true ∧
      (isDataAvailable
        (isDataAvailable
          (run (more_data_exists__read exampleServer 101
            (some (exampleClient, exampleRotation))).2 [Action.tick [] 102]) 0).2 0).1
        = false :=
  isDataAvailable_edge_triggered.1 exampleServer 101 exampleClient exampleRotation
    [Action.tick [] 102] exampleServer_reachable (by decide) (by decide) (by decide)
    (by decide)

/-! ## Timeout sweep -/

/-- Disconnect notifications of different slots are different records. -/
theorem disconnectedRecord_injective :
    Function.Injective (fun (k : Nat) => disconnectedRecord (k : Int)) := by
  intro a b h
  simp only [disconnectedRecord, LogRecord.mk.injEq, Nat.cast_inj, and_true, true_and] at h
  exact h

/-- Counting the notifications of a slot among those of a list of slots. -/
theorem count_disconnected_map (l : List Nat) (i : Nat) :
    (l.map (fun (k : Nat) => disconnectedRecord (k : Int))).count (disconnectedRecord (i : Int))
      = l.count i :=
  List.count_map_of_injective l _ disconnectedRecord_injective i

/-- An index occurs once among the selected indices of a loop if it is selected, and not at
all otherwise. -/
theorem count_filter_range (p : Nat → Bool) (n i : Nat) :
    ((List.range n).filter p).count i = if i < n ∧ p i = true then 1 else 0 := by
  split_ifs with h
  · apply List.count_eq_one_of_mem ((List.nodup_range n).filter _)
    simp [h.1, h.2]
  · apply List.count_eq_zero_of_not_mem
    intro hc
    simp only [List.mem_filter, List.mem_range] at hc
    exact h hc

/-- The sweep logs one notification for a slot that times out and none for any other. -/
theorem checkDeadConnections_notifications (s : UDPDeviceQuatServer) (hv : Valid s) (i : Nat) :
    disconnectNotifications (checkDeadConnections s).logged i
      = disconnectNotifications s.logged i
        + if i < s.activeTrackerCount.toNat ∧ timedOut s i = true then 1 else 0 := by
  have hle := hv.count_le
  have hn : s.activeTrackerCount.toNat ≤ s.trackers.length := by
    rw [hv.trackers_length]
    simp only [MAX_TRACKERS] at hle ⊢
    omega
  obtain ⟨_, _, _, _, _, _, _, _, _, _, _, h12⟩ :=
    checkDead_loop s s.activeTrackerCount.toNat hn
  unfold checkDeadConnections disconnectNotifications
  rw [h12, List.count_append, count_disconnected_map, count_filter_range]

/-- The sweep, slot by slot. -/
theorem checkDeadConnections_slot (s : UDPDeviceQuatServer) (hv : Valid s) (i : Nat) :
    (checkDeadConnections s).connectionIsDead.getD i true
        = (if i < s.activeTrackerCount.toNat ∧ timedOut s i = true then true
          else s.connectionIsDead.getD i true) ∧
      (checkDeadConnections s).trackers.getD i default
        = (if i < s.activeTrackerCount.toNat ∧ timedOut s i = true then
            { s.trackers.getD i default with isConnected := false }
          else s.trackers.getD i default) ∧
      (checkDeadConnections s).lastContactTime = s.lastContactTime ∧
      (checkDeadConnections s).clients = s.clients ∧
      (checkDeadConnections s).activeTrackerCount = s.activeTrackerCount ∧
      (checkDeadConnections s).sent = s.sent ∧
      (checkDeadConnections s).curr_time = s.curr_time ∧
      (checkDeadConnections s).hb_accum = s.hb_accum := by
  have hle := hv.count_le
  have hn : s.activeTrackerCount.toNat ≤ s.trackers.length := by
    rw [hv.trackers_length]
    simp only [MAX_TRACKERS] at hle ⊢
    omega
  obtain ⟨h1, h2, h3, h4, _, h6, h7, _, _, h10, h11, _⟩ :=
    checkDead_loop s s.activeTrackerCount.toNat hn
  unfold checkDeadConnections
  exact ⟨h10 i, h11 i, h3, h2, h1, h7, h4, h6⟩

/-- A connect notification is no disconnect notification. -/
theorem count_connected_ne (log : List LogRecord) (k : Int) (i : Nat) :
    disconnectNotifications (log ++ [connectedRecord k]) i = disconnectNotifications log i := by
  unfold disconnectNotifications
  rw [List.count_append]
  have : ([connectedRecord k]).count (disconnectedRecord (i : Int)) = 0 := by
    apply List.count_eq_zero_of_not_mem
    simp [connectedRecord, disconnectedRecord]
  rw [this]
  rfl

/-- The method `getOrAssignTrackerId`, for an address that is not the client of slot `i`,
returns another id and leaves slot `i`. -/
theorem getOrAssign_other_slot (s : UDPDeviceQuatServer) (hv : Valid s) (a : sockaddr_in)
    (i : Nat) (hi : i < s.activeTrackerCount.toNat)
    (hne : isSameClient (s.clients.getD i default) a = false) :
    (getOrAssignTrackerId s a).1.toNat ≠ i ∧
      (getOrAssignTrackerId s a).2.connectionIsDead.getD i true
        = s.connectionIsDead.getD i true ∧
      (getOrAssignTrackerId s a).2.trackers.getD i default = s.trackers.getD i default ∧
      (getOrAssignTrackerId s a).2.lastContactTime.getD i 0 = s.lastContactTime.getD i 0 ∧
      disconnectNotifications (getOrAssignTrackerId s a).2.logged i
        = disconnectNotifications s.logged i ∨
    (getOrAssignTrackerId s a) = (-1, s) := by
  have h0 := hv.count_nonneg
  rcases getOrAssign_cases s a with ⟨j, _, h2, _, h4⟩ | ⟨_, _, h3⟩ | ⟨_, _, h3⟩
  · left
    rw [h4]
    refine ⟨?_, rfl, rfl, rfl, rfl⟩
    intro hc
    simp only [Int.toNat_ofNat] at hc
    subst hc
    rw [hne] at h2
    exact absurd h2 (by simp)
  · left
    rw [h3]
    have hci : s.activeTrackerCount.toNat ≠ i := by omega
    refine ⟨hci, ?_, ?_, ?_, ?_⟩
    · simp only [assignSlot]
      rw [getD_set_other _ _ _ _ _ hci]
    · simp only [assignSlot]
      rw [getD_updateAt_other _ _ _ _ hci]
    · simp only [assignSlot]
      rw [getD_set_other _ _ _ _ _ hci]
    · simp only [assignSlot]
      exact count_connected_ne _ _ _
  · right
    exact h3

/-- A datagram from another client leaves slot `i`. -/
theorem read_other_slot (s : UDPDeviceQuatServer) (hv : Valid s) (now : Nat) (a : sockaddr_in)
    (d : List Byte) (i : Nat) (hi : i < s.activeTrackerCount.toNat)
    (hne : isSameClient (s.clients.getD i default) a = false) :
    (more_data_exists__read s now (some (a, d))).2.connectionIsDead.getD i true
        = s.connectionIsDead.getD i true ∧
      (more_data_exists__read s now (some (a, d))).2.trackers.getD i default
        = s.trackers.getD i default ∧
      (more_data_exists__read s now (some (a, d))).2.lastContactTime.getD i 0
        = s.lastContactTime.getD i 0 ∧
      disconnectNotifications (more_data_exists__read s now (some (a, d))).2.logged i
        = disconnectNotifications s.logged i := by
  rw [more_data_exists__read_some]
  have hg := getOrAssign_other_slot (receive s now d) (Valid_receive s now d hv) a i hi hne
  split_ifs with h1 h2
  · exact ⟨rfl, rfl, rfl, rfl⟩
  · rcases hg with ⟨_, g2, g3, g4, g5⟩ | hg
    · exact ⟨g2, g3, g4, g5⟩
    · rw [hg]; exact ⟨rfl, rfl, rfl, rfl⟩
  · rcases hg with ⟨g1, g2, g3, g4, g5⟩ | hg
    · obtain ⟨_, _, e3, e4, _, e6, _⟩ := dispatch_table
        (markContact (getOrAssignTrackerId (receive s now d) a).2
          (getOrAssignTrackerId (receive s now d) a).1.toNat)
        (convert_chars 4 (receive s now d).buffer) (getOrAssignTrackerId (receive s now d) a).1
      obtain ⟨_, _, _, e9⟩ := dispatch_frame
        (markContact (getOrAssignTrackerId (receive s now d) a).2
          (getOrAssignTrackerId (receive s now d) a).1.toNat)
        (convert_chars 4 (receive s now d).buffer) (getOrAssignTrackerId (receive s now d) a).1
      rw [e3, e4, e6, e9 i (Ne.symm g1)]
      simp only [markContact]
      rw [getD_set_other _ _ _ _ _ g1, getD_set_other _ _ _ _ _ g1,
        getD_updateAt_other _ _ _ _ g1]
      exact ⟨g2, g3, g4, g5⟩
    · rw [hg] at h2
      simp at h2

/-- A dead slot does not time out again. -/
theorem timedOut_of_dead (s : UDPDeviceQuatServer) (i : Nat)
    (h : s.connectionIsDead.getD i true = true) : timedOut s i = false := by
  unfold timedOut
  rw [h]
  rfl

/-- A dead slot stays dead through `send_heartbeat`. -/
theorem send_heartbeat_dead (s : UDPDeviceQuatServer) (c : sockaddr_in) (i n : Nat)
    (h : Valid s ∧ i < s.activeTrackerCount.toNat ∧ s.clients.getD i default = c ∧
      s.connectionIsDead.getD i true = true ∧ disconnectNotifications s.logged i = n) :
    Valid (send_heartbeat s) ∧ i < (send_heartbeat s).activeTrackerCount.toNat ∧
      (send_heartbeat s).clients.getD i default = c ∧
      (send_heartbeat s).connectionIsDead.getD i true = true ∧
      disconnectNotifications (send_heartbeat s).logged i = n := by
  obtain ⟨_, e2, e3, _, e5, _, _, e8⟩ := send_heartbeat_frame s
  rw [e2, e3, e5, e8]
  exact ⟨Valid_send_heartbeat s h.1, h.2⟩

/-- A dead slot stays dead while no datagram arrives from its client. -/
theorem read_dead (s : UDPDeviceQuatServer) (c : sockaddr_in) (i n : Nat) (now : Nat)
    (recv : Option (sockaddr_in × List Byte))
    (hx : (Action.more_data_exists__read now recv).noDatagramFrom c = true)
    (h : Valid s ∧ i < s.activeTrackerCount.toNat ∧ s.clients.getD i default = c ∧
      s.connectionIsDead.getD i true = true ∧ disconnectNotifications s.logged i = n) :
    Valid (more_data_exists__read s now recv).2 ∧
      i < (more_data_exists__read s now recv).2.activeTrackerCount.toNat ∧
      (more_data_exists__read s now recv).2.clients.getD i default = c ∧
      (more_data_exists__read s now recv).2.connectionIsDead.getD i true = true ∧
      disconnectNotifications (more_data_exists__read s now recv).2.logged i = n := by
  obtain ⟨hv, hi, hc, hd, hn⟩ := h
  have he := read_extends s now recv
  refine ⟨Valid_read s now recv hv, by omega, (he.2 i hi).trans hc, ?_, ?_⟩
  · cases recv with
    | none => exact hd
    | some r =>
      obtain ⟨a, d⟩ := r
      simp only [Action.noDatagramFrom, Bool.not_eq_true'] at hx
      rw [← hc] at hx
      exact (read_other_slot s hv now a d i hi hx).1.trans hd
  · cases recv with
    | none => exact hn
    | some r =>
      obtain ⟨a, d⟩ := r
      simp only [Action.noDatagramFrom, Bool.not_eq_true'] at hx
      rw [← hc] at hx
      exact (read_other_slot s hv now a d i hi hx).2.2.2.trans hn

/-- A dead slot stays dead through a drain without a datagram from its client. -/
theorem drain_dead (c : sockaddr_in) (i n : Nat) (queued : List (Nat × sockaddr_in × List Byte))
    (now : Nat) (hx : queued.all (fun q => !isSameClient c q.2.1) = true) :
    ∀ s : UDPDeviceQuatServer,
      (Valid s ∧ i < s.activeTrackerCount.toNat ∧ s.clients.getD i default = c ∧
        s.connectionIsDead.getD i true = true ∧ disconnectNotifications s.logged i = n) →
      Valid (drain s queued now) ∧ i < (drain s queued now).activeTrackerCount.toNat ∧
        (drain s queued now).clients.getD i default = c ∧
        (drain s queued now).connectionIsDead.getD i true = true ∧
        disconnectNotifications (drain s queued now).logged i = n := by
  induction queued with
  | nil =>
    intro s h
    exact read_dead s c i n now none rfl h
  | cons q rest ih =>
    intro s h
    obtain ⟨t, a, d⟩ := q
    simp only [List.all_cons, Bool.and_eq_true] at hx
    have h1 := read_dead s c i n t (some (a, d)) hx.1 h
    unfold drain
    simp only []
    split_ifs
    · exact ih hx.2 _ h1
    · exact h1

/-- A dead slot stays dead through the sweep, which logs nothing for it. -/
theorem checkDeadConnections_dead (s : UDPDeviceQuatServer) (c : sockaddr_in) (i n : Nat)
    (h : Valid s ∧ i < s.activeTrackerCount.toNat ∧ s.clients.getD i default = c ∧
      s.connectionIsDead.getD i true = true ∧ disconnectNotifications s.logged i = n) :
    Valid (checkDeadConnections s) ∧ i < (checkDeadConnections s).activeTrackerCount.toNat ∧
      (checkDeadConnections s).clients.getD i default = c ∧
      (checkDeadConnections s).connectionIsDead.getD i true = true ∧
      disconnectNotifications (checkDeadConnections s).logged i = n := by
  obtain ⟨hv, hi, hc, hd, hn⟩ := h
  obtain ⟨e1, _, _, e4, e5, _⟩ := checkDeadConnections_slot s hv i
  have hto := timedOut_of_dead s i hd
  refine ⟨Valid_checkDeadConnections s hv, by rw [e5]; exact hi, by rw [e4]; exact hc, ?_, ?_⟩
  · rw [e1]
    split_ifs
    · rfl
    · exact hd
  · rw [checkDeadConnections_notifications s hv i, hto]
    simpa using hn

/-- A dead slot stays dead through every operation without a datagram from its client. -/
theorem step_dead (s : UDPDeviceQuatServer) (c : sockaddr_in) (i n : Nat) (x : Action)
    (hx : x.noDatagramFrom c = true)
    (h : Valid s ∧ i < s.activeTrackerCount.toNat ∧ s.clients.getD i default = c ∧
      s.connectionIsDead.getD i true = true ∧ disconnectNotifications s.logged i = n) :
    Valid (step s x) ∧ i < (step s x).activeTrackerCount.toNat ∧
      (step s x).clients.getD i default = c ∧
      (step s x).connectionIsDead.getD i true = true ∧
      disconnectNotifications (step s x).logged i = n := by
  cases x with
  | send_heartbeat => exact send_heartbeat_dead s c i n h
  | more_data_exists__read now recv => exact read_dead s c i n now recv hx h
  | checkDeadConnections => exact checkDeadConnections_dead s c i n h
  | tick queued now =>
    exact checkDeadConnections_dead _ c i n
      (drain_dead c i n queued now hx _ (send_heartbeat_dead s c i n h))
  | isDataAvailable id =>
    refine ⟨Valid_isDataAvailable s id h.1, ?_⟩
    simp only [step]
    rw [isDataAvailable_frame]
    exact h.2
  | buzz id d f a =>
    refine ⟨Valid_buzz s id d f a h.1, ?_⟩
    simp only [step]
    rw [buzz_frame]
    exact h.2

/-- A dead slot stays dead through every run without a datagram from its client. -/
theorem run_dead (c : sockaddr_in) (i n : Nat) (actions : List Action)
    (hx : ∀ x ∈ actions, x.noDatagramFrom c = true) :
    ∀ s : UDPDeviceQuatServer,
      (Valid s ∧ i < s.activeTrackerCount.toNat ∧ s.clients.getD i default = c ∧
        s.connectionIsDead.getD i true = true ∧ disconnectNotifications s.logged i = n) →
      Valid (run s actions) ∧ i < (run s actions).activeTrackerCount.toNat ∧
        (run s actions).clients.getD i default = c ∧
        (run s actions).connectionIsDead.getD i true = true ∧
        disconnectNotifications (run s actions).logged i = n := by
  induction actions with
  | nil => intro s h; exact h
  | cons x rest ih =>
    intro s h
    exact ih (fun y hy => hx y (List.mem_cons_of_mem _ hy)) _
      (step_dead s c i n x (hx x (List.mem_cons_self _ _)) h)

/-- Both liveness queries are false for an assigned slot that is dead. -/
theorem liveness_of_dead (s : UDPDeviceQuatServer) (hv : Valid s) (i : Nat)
    (hi : i < s.activeTrackerCount.toNat) (hd : s.connectionIsDead.getD i true = true) :
    isTrackerConnected s (i : Int) = false ∧ isConnectionAlive s (i : Int) = false := by
  have hle := hv.count_le
  have hlt : i < MAX_TRACKERS := by
    simp only [MAX_TRACKERS] at hle ⊢
    omega
  have hr : ¬ ((i : Int) < 0 ∨ (i : Int) ≥ MAX_TRACKERS) := by
    simp only [MAX_TRACKERS] at hlt ⊢
    omega
  unfold isTrackerConnected isConnectionAlive
  rw [if_neg hr, if_neg hr, Int.toNat_ofNat, hv.connected_iff i hlt, hd]
  exact ⟨rfl, rfl⟩

/-- C6: in a reachable state, for an assigned slot `i` that is alive and whose
`(curr_time - lastContactTime[i])`, computed on 64 bits, exceeds 2, the sweep of `tick`
makes `isTrackerConnected(i)` and `isConnectionAlive(i)` false and logs exactly one
disconnect notification for `i`; after any further operations during which no
datagram arrives from the address of slot `i`, the slot is still disconnected and no
further disconnect notification for `i` has been logged. When the difference is at
most 2 the sweep leaves the slot as it is and logs no notification for it. -/
theorem one_shot_timeout (s : UDPDeviceQuatServer) (hs : Reachable s) (i : Nat)
    (hi : (i : Int) < s.activeTrackerCount) :
    (isConnectionAlive s (i : Int) = true →
      sub64 s.curr_time (s.lastContactTime.getD i 0) > 2 →
        isTrackerConnected (checkDeadConnections s) (i : Int) = false ∧
        isConnectionAlive (checkDeadConnections s) (i : Int) = false ∧
        disconnectNotifications (checkDeadConnections s).logged i
          = disconnectNotifications s.logged i + 1 ∧
        ∀ actions : List Action,
          (∀ x ∈ actions, x.noDatagramFrom (s.clients.getD i default) = true) →
            isTrackerConnected (run (checkDeadConnections s) actions) (i : Int) = false ∧
            isConnectionAlive (run (checkDeadConnections s) actions) (i : Int) = false ∧
            disconnectNotifications (run (checkDeadConnections s) actions).logged i
              = disconnectNotifications (checkDeadConnections s).logged i) ∧
    (sub64 s.curr_time (s.lastContactTime.getD i 0) ≤ 2 →
      (checkDeadConnections s).connectionIsDead.getD i true
          = s.connectionIsDead.getD i true ∧
        (checkDeadConnections s).trackers.getD i default = s.trackers.getD i default ∧
        (checkDeadConnections s).lastContactTime.getD i 0 = s.lastContactTime.getD i 0 ∧
        (checkDeadConnections s).clients.getD i default = s.clients.getD i default ∧
        disconnectNotifications (checkDeadConnections s).logged i
          = disconnectNotifications s.logged i) := by
  have hv := Reachable_valid s hs
  have hi2 : i < s.activeTrackerCount.toNat := by omega
  obtain ⟨e1, e2, e3, e4, e5, _⟩ := checkDeadConnections_slot s hv i
  have hnot := checkDeadConnections_notifications s hv i
  constructor
  · intro halive hdiff
    have hto : timedOut s i = true := by
      unfold isConnectionAlive at halive
      split_ifs at halive with hr
      rw [Int.toNat_ofNat] at halive
      simp only [timedOut, halive, Bool.true_and, decide_eq_true_eq]
      exact hdiff
    have hJ : Valid (checkDeadConnections s) ∧
        i < (checkDeadConnections s).activeTrackerCount.toNat ∧
        (checkDeadConnections s).clients.getD i default = s.clients.getD i default ∧
        (checkDeadConnections s).connectionIsDead.getD i true = true ∧
        disconnectNotifications (checkDeadConnections s).logged i
          = disconnectNotifications (checkDeadConnections s).logged i := by
      refine ⟨Valid_checkDeadConnections s hv, by rw [e5]; exact hi2, by rw [e4], ?_, rfl⟩
      rw [e1, if_pos ⟨hi2, hto⟩]
    obtain ⟨g1, g2⟩ := liveness_of_dead _ hJ.1 i hJ.2.1 hJ.2.2.2.1
    refine ⟨g1, g2, ?_, ?_⟩
    · rw [hnot, if_pos ⟨hi2, hto⟩]
    · intro actions hx
      obtain ⟨k1, k2, _, k4, k5⟩ := run_dead _ i _ actions hx _ hJ
      obtain ⟨m1, m2⟩ := liveness_of_dead _ k1 i k2 k4
      exact ⟨m1, m2, k5⟩
  · intro hdiff
    have hto : timedOut s i = false := by
      simp only [timedOut, Bool.and_eq_false_iff, decide_eq_false_iff_not]
      right
      omega
    rw [e1, e2, e3, e4, hnot, hto]
    simp

/-- C6 on the stale example server: the sweep disconnects slot 0 and logs one
notification; two further ticks with traffic from `otherClient` only log no other
notification for slot 0 and leave it disconnected. On the example server itself, where
the contact is recent, the sweep leaves slot 0 alive. -/
theorem one_shot_timeout_witness :
    (isTrackerConnected (checkDeadConnections staleServer) ((0 : Nat) : Int) = false ∧
      disconnectNotifications (checkDeadConnections staleServer).logged 0
        = disconnectNotifications staleServer.logged 0 + 1 ∧
      disconnectNotifications
          (run (checkDeadConnections staleServer)
            [Action.tick [(111, otherClient, exampleRotation)] 111, Action.tick [] 120]).logged 0
        = disconnectNotifications (checkDeadConnections staleServer).logged 0) ∧
      (checkDeadConnections exampleServer).connectionIsDead.getD 0 true
        = exampleServer.connectionIsDead.getD 0 true :=
  ⟨⟨((one_shot_timeout staleServer (Reachable_run _ _ exampleServer_reachable) 0
        (by decide)).1 (by decide) (by decide)).1,
      ((one_shot_timeout staleServer (Reachable_run _ _ exampleServer_reachable) 0
        (by decide)).1 (by decide) (by decide)).2.2.1,
      (((one_shot_timeout staleServer (Reachable_run _ _ exampleServer_reachable) 0
        (by decide)).1 (by decide) (by decide)).2.2.2
          [Action.tick [(111, otherClient, exampleRotation)] 111, Action.tick [] 120]
          (by decide)).2.2⟩,
    ((one_shot_timeout exampleServer exampleServer_reachable 0 (by decide)).2
      (by decide)).1⟩

/-! ## Heartbeat cadence -/

/-- A tick that finds the socket empty. -/
theorem tick_quiet_eq (s : UDPDeviceQuatServer) (now : Nat) :
    tick s [] now = checkDeadConnections { send_heartbeat s with curr_time := now % U64 } := rfl

/-- Quiet ticks, one at a time. -/
theorem quietTicks_cons (s : UDPDeviceQuatServer) (now : Nat) (nows : List Nat) :
    quietTicks s (now :: nows) = quietTicks (tick s [] now) nows := rfl

/-- Quiet ticks, in two runs. -/
theorem quietTicks_append (s : UDPDeviceQuatServer) (l1 l2 : List Nat) :
    quietTicks s (l1 ++ l2) = quietTicks (quietTicks s l1) l2 := by
  simp [quietTicks, List.foldl_append]

/-- Quiet ticks keep the structural facts. -/
theorem Valid_quietTicks (nows : List Nat) :
    ∀ s : UDPDeviceQuatServer, Valid s → Valid (quietTicks s nows) := by
  induction nows with
  | nil => intro s hv; exact hv
  | cons now rest ih => intro s hv; exact ih _ (Valid_tick s [] now hv)

/-- A quiet tick below the threshold increments the accumulator and sends nothing. -/
theorem tick_quiet_below (s : UDPDeviceQuatServer) (hv : Valid s) (now : Nat)
    (h0 : 0 ≤ s.hb_accum) (h1 : s.hb_accum < 200) :
    (tick s [] now).hb_accum = s.hb_accum + 1 ∧ (tick s [] now).sent = s.sent ∧
      (tick s [] now).clients = s.clients ∧
      (tick s [] now).activeTrackerCount = s.activeTrackerCount := by
  have hw : wrapInt32 (s.hb_accum + 1) = s.hb_accum + 1 := by
    unfold wrapInt32
    omega
  have hs : send_heartbeat s = { s with hb_accum := s.hb_accum + 1 } := by
    rw [send_heartbeat_eq, hw, if_neg (by omega)]
  have hv2 : Valid { send_heartbeat s with curr_time := now % U64 } :=
    Valid_read (send_heartbeat s) now none (Valid_send_heartbeat s hv)
  obtain ⟨_, _, _, e4, e5, e6, _, e8⟩ := checkDeadConnections_slot _ hv2 0
  rw [tick_quiet_eq, e4, e5, e6, e8, hs]
  exact ⟨rfl, rfl, rfl, rfl⟩

/-- Quiet ticks below the threshold send nothing. -/
theorem quietTicks_below (nows : List Nat) :
    ∀ s : UDPDeviceQuatServer, Valid s → 0 ≤ s.hb_accum →
      s.hb_accum + nows.length ≤ 200 →
      (quietTicks s nows).hb_accum = s.hb_accum + nows.length ∧
        (quietTicks s nows).sent = s.sent ∧ (quietTicks s nows).clients = s.clients ∧
        (quietTicks s nows).activeTrackerCount = s.activeTrackerCount := by
  induction nows with
  | nil => intro s _ _ _; simp [quietTicks]
  | cons now rest ih =>
    intro s hv h0 h1
    simp only [List.length_cons, Nat.cast_add, Nat.cast_one] at h1
    obtain ⟨e1, e2, e3, e4⟩ := tick_quiet_below s hv now h0 (by omega)
    obtain ⟨g1, g2, g3, g4⟩ := ih (tick s [] now) (Valid_tick s [] now hv) (by omega) (by omega)
    rw [quietTicks_cons, g1, g2, g3, g4, e1, e2, e3, e4]
    refine ⟨?_, rfl, rfl, rfl⟩
    simp only [List.length_cons, Nat.cast_add, Nat.cast_one]
    omega

/-- The quiet tick that crosses the threshold sends the broadcast and nothing else. -/
theorem tick_quiet_fire (s : UDPDeviceQuatServer) (hv : Valid s) (now : Nat)
    (h : s.hb_accum = 200) :
    (tick s [] now).sent = s.sent ++ heartbeatTargets s := by
  have hw : wrapInt32 (s.hb_accum + 1) = 201 := by
    unfold wrapInt32
    omega
  have hs : send_heartbeat s = { s with hb_accum := 0, sent := s.sent ++ heartbeatTargets s } := by
    rw [send_heartbeat_eq, hw, if_pos (by decide)]
  have hv2 : Valid { send_heartbeat s with curr_time := now % U64 } :=
    Valid_read (send_heartbeat s) now none (Valid_send_heartbeat s hv)
  obtain ⟨_, _, _, _, _, e6, _⟩ := checkDeadConnections_slot _ hv2 0
  rw [tick_quiet_eq, e6, hs]

/-- Counting through a map that is injective on the list. -/
theorem countP_map_of_injOn {α β : Type} [DecidableEq α] [DecidableEq β] (f : α → β)
    (l : List α) (i : α) (h : ∀ j ∈ l, f j = f i → j = i) :
    (l.map f).countP (fun e => decide (e = f i)) = l.count i := by
  induction l with
  | nil => rfl
  | cons x rest ih =>
    have ih2 := ih (fun j hj => h j (List.mem_cons_of_mem _ hj))
    rw [List.map_cons, List.countP_cons, List.count_cons, ih2]
    by_cases hx : x = i
    · subst hx; simp
    · have hfx : f x ≠ f i := fun hc => hx (h x (List.mem_cons_self _ _) hc)
      simp [hx, hfx]

/-- A broadcast sends exactly one command to the address of an alive assigned slot. -/
theorem heartbeatTargets_count (s : UDPDeviceQuatServer) (hv : Valid s) (i : Nat)
    (hi : i < s.activeTrackerCount.toNat) (ha : isConnectionAlive s (i : Int) = true) :
    (heartbeatTargets s).countP
      (fun e => decide (e = (s.clients.getD i default, Payload.byteBuffer heartbeatCommand)))
      = 1 := by
  unfold heartbeatTargets
  rw [countP_map_of_injOn
    (fun j => (s.clients.getD j default, Payload.byteBuffer heartbeatCommand)) _ i]
  · rw [count_filter_range, if_pos ⟨hi, ha⟩]
  · intro j hj hjc
    simp only [List.mem_filter, List.mem_range] at hj
    simp only [Prod.mk.injEq, and_true] at hjc
    by_contra hne
    rcases Nat.lt_or_gt_of_ne hne with hlt | hgt
    · have := hv.distinct j i hlt hi
      rw [hjc, isSameClient_self] at this
      exact absurd this (by simp)
    · have := hv.distinct i j hgt hj.1
      rw [hjc, isSameClient_self] at this
      exact absurd this (by simp)

/-- C7: from a reachable state whose heartbeat accumulator is 0 and in which slot `i`
is assigned, 201 calls of `tick` with no inbound datagram send no heartbeat command to
the address of slot `i` during the first 200 calls and, the slot being still alive when
the 201st call begins, exactly one during the 201st. -/
theorem heartbeat_cadence (s : UDPDeviceQuatServer) (hs : Reachable s) (i : Nat)
    (nows : List Nat) (hacc : s.hb_accum = 0) (hi : (i : Int) < s.activeTrackerCount)
    (hlen : nows.length = 201)
    (halive : isConnectionAlive (quietTicks s (nows.take 200)) (i : Int) = true) :
    (∀ k, k ≤ 200 →
      heartbeatsSentTo (quietTicks s (nows.take k)) (s.clients.getD i default)
        = heartbeatsSentTo s (s.clients.getD i default)) ∧
      heartbeatsSentTo (quietTicks s nows) (s.clients.getD i default)
        = heartbeatsSentTo s (s.clients.getD i default) + 1 := by
  have hv := Reachable_valid s hs
  have hbelow : ∀ k, k ≤ 200 →
      (quietTicks s (nows.take k)).hb_accum = k ∧
        (quietTicks s (nows.take k)).sent = s.sent ∧
        (quietTicks s (nows.take k)).clients = s.clients ∧
        (quietTicks s (nows.take k)).activeTrackerCount = s.activeTrackerCount := by
    intro k hk
    have hl : (nows.take k).length = k := by
      rw [List.length_take, hlen]
      omega
    obtain ⟨e1, e2, e3, e4⟩ := quietTicks_below (nows.take k) s hv (by omega)
      (by rw [hacc, hl]; omega)
    rw [hacc, hl] at e1
    exact ⟨by rw [e1]; simp, e2, e3, e4⟩
  constructor
  · intro k hk
    unfold heartbeatsSentTo
    rw [(hbelow k hk).2.1]
  · obtain ⟨e1, e2, e3, e4⟩ := hbelow 200 le_rfl
    have hsplit : nows = nows.take 200 ++ [nows.getD 200 0] := by
      apply List.ext_getElem
      · simp [hlen]
      · intro n h1 h2
        by_cases hn : n < 200
        · rw [List.getElem_append_left (by simp [hlen]; omega)]
          simp
        · have hn2 : n = 200 := by omega
          subst hn2
          rw [List.getElem_append_right (by simp [hlen])]
          simp [hlen, List.getD_eq_getElem?_getD, List.getElem?_eq_getElem h1]
    have hv200 := Valid_quietTicks (nows.take 200) s hv
    have hfire := tick_quiet_fire (quietTicks s (nows.take 200)) hv200 (nows.getD 200 0)
      (by rw [e1]; rfl)
    have hcount := heartbeatTargets_count (quietTicks s (nows.take 200)) hv200 i
      (by rw [e4]; omega) halive
    rw [hsplit, quietTicks_append]
    unfold heartbeatsSentTo
    have hq : quietTicks (quietTicks s (nows.take 200)) [nows.getD 200 0]
        = tick (quietTicks s (nows.take 200)) [] (nows.getD 200 0) := rfl
    rw [hq, hfire, List.countP_append, e2, ← e3, hcount]

/-- A quiet tick at most 2 seconds after the last contact leaves the slot alive. -/
theorem tick_quiet_alive (s : UDPDeviceQuatServer) (hv : Valid s) (i : Nat) (now : Nat)
    (hfresh : sub64 (now % U64) (s.lastContactTime.getD i 0) ≤ 2)
    (ha : s.connectionIsDead.getD i true = false) :
    (tick s [] now).connectionIsDead.getD i true = false ∧
      (tick s [] now).lastContactTime = s.lastContactTime := by
  have hv2 : Valid { send_heartbeat s with curr_time := now % U64 } :=
    Valid_read (send_heartbeat s) now none (Valid_send_heartbeat s hv)
  obtain ⟨e1, _, e3, _⟩ := checkDeadConnections_slot _ hv2 i
  obtain ⟨_, _, _, f4, f5, _⟩ := send_heartbeat_frame s
  have hto : timedOut { send_heartbeat s with curr_time := now % U64 } i = false := by
    simp only [timedOut, f4, Bool.and_eq_false_iff, decide_eq_false_iff_not]
    right
    omega
  rw [tick_quiet_eq, e1, e3, hto]
  simp only [Bool.false_eq_true, and_false, if_false]
  exact ⟨by rw [f5]; exact ha, f4⟩

/-- Quiet ticks at most 2 seconds after the last contact leave the slot alive. -/
theorem quietTicks_alive (i : Nat) (nows : List Nat) :
    ∀ s : UDPDeviceQuatServer, Valid s →
      (∀ now ∈ nows, sub64 (now % U64) (s.lastContactTime.getD i 0) ≤ 2) →
      s.connectionIsDead.getD i true = false →
      (quietTicks s nows).connectionIsDead.getD i true = false := by
  induction nows with
  | nil => intro s _ _ ha; exact ha
  | cons now rest ih =>
    intro s hv hfresh ha
    obtain ⟨e1, e2⟩ := tick_quiet_alive s hv i now (hfresh now (List.mem_cons_self _ _)) ha
    rw [quietTicks_cons]
    apply ih _ (Valid_tick s [] now hv) _ e1
    intro t ht
    rw [e2]
    exact hfresh t (List.mem_cons_of_mem _ ht)

/-- The server `cadenceServer` is reachable. -/
theorem cadenceServer_reachable : Reachable cadenceServer :=
  ⟨-1, exampleBuffer, _, by decide, by decide, List.length_replicate 256 0, rfl⟩

/-- Slot 0 of `cadenceServer` is alive after 200 quiet ticks at clock reading 100. -/
theorem cadenceServer_stays_alive :
    isConnectionAlive (quietTicks cadenceServer ((List.replicate 201 100).take 200))
      ((0 : Nat) : Int) = true := by
  have h := quietTicks_alive 0 ((List.replicate 201 100).take 200) cadenceServer
    (Reachable_valid _ cadenceServer_reachable)
    (by
      intro now hnow
      have := List.eq_of_mem_replicate (List.mem_of_mem_take hnow)
      subst this
      decide)
    (by decide)
  unfold isConnectionAlive
  rw [if_neg (by decide), Int.toNat_ofNat, h]
  rfl

/-- C7 on the example: the clock stays at 100, so slot 0 of `cadenceServer` stays alive;
201 quiet ticks send one heartbeat command to its address, the first 200 none. -/
theorem heartbeat_cadence_witness :
    heartbeatsSentTo (quietTicks cadenceServer ((List.replicate 201 100).take 200))
        (cadenceServer.clients.getD 0 default)
        = heartbeatsSentTo cadenceServer (cadenceServer.clients.getD 0 default) ∧
      heartbeatsSentTo (quietTicks cadenceServer (List.replicate 201 100))
        (cadenceServer.clients.getD 0 default)
        = heartbeatsSentTo cadenceServer (cadenceServer.clients.getD 0 default) + 1 :=
  ⟨(heartbeat_cadence cadenceServer cadenceServer_reachable 0 (List.replicate 201 100)
      (by decide) (by decide) (List.length_replicate 201 100) cadenceServer_stays_alive).1
      200 le_rfl,
    (heartbeat_cadence cadenceServer cadenceServer_reachable 0 (List.replicate 201 100)
      (by decide) (by decide) (List.length_replicate 201 100) cadenceServer_stays_alive).2⟩

/-! ## Discovery response -/

/-- A loop of `+=` on a string is the concatenation of the pieces. -/
theorem foldl_append_eq_join {α : Type} (g : α → String) (l : List α) :
    l.foldl (fun r x => r ++ g x) "" = String.join (l.map g) := by
  unfold String.join
  rw [List.foldl_map]

/-- The characters of a concatenation. -/
theorem join_toList (l : List String) :
    (String.join l).toList = (l.map String.toList).flatten := by
  have key : ∀ (l : List String) (acc : String),
      (l.foldl (fun r s => r ++ s) acc).toList = acc.toList ++ (l.map String.toList).flatten := by
    intro l
    induction l with
    | nil => intro acc; simp
    | cons x rest ih =>
      intro acc
      rw [List.foldl_cons, ih]
      simp [String.toList, String.data_append, List.append_assoc]
  have := key l ""
  simpa [String.join] using this

/-- A decimal digit is not a newline. -/
theorem digitChar_ne_newline (n : Nat) : Nat.digitChar (n % 10) ≠ Char.ofNat 10 := by
  have h : ∀ m, m < 10 → Nat.digitChar m ≠ Char.ofNat 10 := by decide
  exact h _ (Nat.mod_lt _ (by decide))

/-- The digits of a numeral contain no newline. -/
theorem toDigitsCore_no_newline (fuel : Nat) :
    ∀ (n : Nat) (ds : List Char), (∀ c ∈ ds, c ≠ Char.ofNat 10) →
      ∀ c ∈ Nat.toDigitsCore 10 fuel n ds, c ≠ Char.ofNat 10 := by
  induction fuel with
  | zero => intro n ds h; simpa [Nat.toDigitsCore] using h
  | succ fuel ih =>
    intro n ds h
    have hd : ∀ c ∈ Nat.digitChar (n % 10) :: ds, c ≠ Char.ofNat 10 := by
      intro c hc
      rcases List.mem_cons.1 hc with hc | hc
      · rw [hc]; exact digitChar_ne_newline _
      · exact h c hc
    unfold Nat.toDigitsCore
    simp only []
    split_ifs
    · exact hd
    · exact ih _ _ hd

/-- A decimal numeral contains no newline. -/
theorem repr_count_newline (n : Nat) : (toString n).toList.count (Char.ofNat 10) = 0 := by
  apply List.count_eq_zero_of_not_mem
  intro hc
  have h : (toString n).toList = Nat.toDigitsCore 10 (n + 1) n [] := rfl
  rw [h] at hc
  exact toDigitsCore_no_newline (n + 1) n [] (by simp) _ hc rfl

/-- A line of the response contains one newline. -/
theorem line_count_newline (p i : Nat) :
    (toString p ++ ":Tracker " ++ toString i ++ "\n").toList.count (Char.ofNat 10) = 1 := by
  simp only [String.toList, String.data_append, List.count_append]
  have h1 := repr_count_newline p
  have h2 := repr_count_newline i
  simp only [String.toList] at h1 h2
  rw [h1, h2]
  decide

/-- The response for `n` trackers contains `n` newlines. -/
theorem discoveryLines_lineCount (p n : Nat) :
    lineCount (String.join (discoveryLines p n)) = n := by
  unfold lineCount discoveryLines
  rw [join_toList]
  induction n with
  | zero => rfl
  | succ n ih =>
    rw [List.range_succ, List.map_append, List.map_append, List.flatten_append,
      List.count_append, ih]
    simp only [List.map_cons, List.map_nil, List.flatten_cons, List.flatten_nil,
      List.append_nil]
    rw [line_count_newline]

/-- C8: for every data port `p` and every advertised tracker count `n >= 0`, after
`set_port_no(p)` and `set_tracker_count(n)` in either order the response is the
concatenation, for `index = 0 .. n-1` in increasing order, of the decimal numeral of
`p`, `":Tracker "`, the decimal numeral of `index` and a newline; it has exactly `n`
newlines; for `p = 7000` and `n = 3` it is the string of the specification. -/
theorem discovery_response_format (s : InfoServer) (p : Nat) (n : Int) (hn : 0 ≤ n) :
    ((s.set_port_no p).set_tracker_count n).response_info
        = String.join (discoveryLines p n.toNat) ∧
      ((s.set_tracker_count n).set_port_no p).response_info
        = String.join (discoveryLines p n.toNat) ∧
      (lineCount ((s.set_port_no p).set_tracker_count n).response_info : Int) = n ∧
      ((s.set_port_no 7000).set_tracker_count 3).response_info
        = "7000:Tracker 0\n7000:Tracker 1\n7000:Tracker 2\n" := by
  have h1 : ((s.set_port_no p).set_tracker_count n).response_info
      = String.join (discoveryLines p n.toNat) := by
    simp only [InfoServer.set_tracker_count, InfoServer.set_port_no,
      InfoServer.update_response_info, discoveryLines]
    exact foldl_append_eq_join _ _
  have h2 : ((s.set_tracker_count n).set_port_no p).response_info
      = String.join (discoveryLines p n.toNat) := by
    simp only [InfoServer.set_tracker_count, InfoServer.set_port_no,
      InfoServer.update_response_info, discoveryLines]
    exact foldl_append_eq_join _ _
  refine ⟨h1, h2, ?_, ?_⟩
  · rw [h1, discoveryLines_lineCount p n.toNat]
    exact Int.toNat_of_nonneg hn
  · simp only [InfoServer.set_tracker_count, InfoServer.set_port_no,
      InfoServer.update_response_info]
    decide

/-- C8 for the data port 7000 and three advertised trackers, on a responder that has
just been constructed. -/
theorem discovery_response_format_witness :
    ((exampleInfoServer.set_port_no 7000).set_tracker_count 3).response_info
      = "7000:Tracker 0\n7000:Tracker 1\n7000:Tracker 2\n" :=
  (discovery_response_format exampleInfoServer 7000 3 (by decide)).2.2.2

/-! ## Unique identity per slot -/

/-- C17: in every reachable state the stored client addresses of two different assigned
slots differ in IP or in port, so an address is the client of at most one assigned
slot, and `activeTrackerCount` does not exceed `MAX_TRACKERS`. -/
theorem unique_identity_per_slot (s : UDPDeviceQuatServer) (hs : Reachable s) :
    (∀ i j : Nat, (i : Int) < s.activeTrackerCount → (j : Int) < s.activeTrackerCount →
        i ≠ j →
        ((s.clients.getD i default).sin_addr, (s.clients.getD i default).sin_port)
          ≠ ((s.clients.getD j default).sin_addr, (s.clients.getD j default).sin_port)) ∧
      (∀ (a : sockaddr_in) (i j : Nat),
        (i : Int) < s.activeTrackerCount → (j : Int) < s.activeTrackerCount →
        isSameClient (s.clients.getD i default) a = true →
        isSameClient (s.clients.getD j default) a = true → i = j) ∧
      s.activeTrackerCount ≤ MAX_TRACKERS := by
  have hv := Reachable_valid s hs
  have hpair : ∀ i j : Nat, (i : Int) < s.activeTrackerCount →
      (j : Int) < s.activeTrackerCount → i ≠ j →
      isSameClient (s.clients.getD i default) (s.clients.getD j default) = false := by
    intro i j hi hj hne
    rcases Nat.lt_or_gt_of_ne hne with h | h
    · exact hv.distinct i j h (by omega)
    · have := hv.distinct j i h (by omega)
      rw [isSameClient_eq_false] at this ⊢
      rcases this with h1 | h1
      · exact Or.inl (Ne.symm h1)
      · exact Or.inr (Ne.symm h1)
  refine ⟨?_, ?_, hv.count_le⟩
  · intro i j hi hj hne hc
    have h := (isSameClient_eq_false _ _).1 (hpair i j hi hj hne)
    simp only [Prod.mk.injEq] at hc
    rcases h with h | h
    · exact h hc.1
    · exact h hc.2
  · intro a i j hi hj h1 h2
    by_contra hne
    have h := (isSameClient_eq_false _ _).1 (hpair i j hi hj hne)
    simp only [isSameClient, Bool.and_eq_true, beq_iff_eq] at h1 h2
    rcases h with h | h
    · exact h (h1.1.trans h2.1.symm)
    · exact h (h1.2.trans h2.2.symm)

/-- The server `twoClientServer` is reachable. -/
theorem twoClientServer_reachable : Reachable twoClientServer :=
  Reachable_run _ _ exampleServer_reachable

/-- C17 on the example server with two clients: the addresses of slots 0 and 1 differ,
and the number of assigned slots is at most 20. -/
theorem unique_identity_per_slot_witness :
    ((twoClientServer.clients.getD 0 default).sin_addr,
        (twoClientServer.clients.getD 0 default).sin_port)
        ≠ ((twoClientServer.clients.getD 1 default).sin_addr,
          (twoClientServer.clients.getD 1 default).sin_port) ∧
      twoClientServer.activeTrackerCount ≤ MAX_TRACKERS :=
  ⟨(unique_identity_per_slot twoClientServer twoClientServer_reachable).1 0 1
      (by decide) (by decide) (by decide),
    (unique_identity_per_slot twoClientServer twoClientServer_reachable).2.2⟩

/-! ## Haptic command -/

/-- The haptic command `buzz` builds:
`putInt(2); putFloat(duration_s); putFloat(frequency); putFloat(amplitude)`. -/
theorem buzz_eq (s : UDPDeviceQuatServer) (hv : Valid s) (id : Int) (d f a : Nat) :
    buzz s id d f a =
      if 0 ≤ id ∧ id < s.activeTrackerCount ∧ isConnectionAlive s id = true then
        { s with
          sent := s.sent ++ [(s.clients.getD id.toNat default,
            Payload.byteBuffer [Field.putInt 2, Field.putFloat d, Field.putFloat f,
              Field.putFloat a])] }
      else s := by
  have hle := hv.count_le
  unfold buzz send_bytebuffer
  by_cases h1 : id < 0 ∨ id ≥ s.activeTrackerCount
  · rw [if_pos h1, if_neg (by omega)]
  · rw [if_neg h1]
    cases ha : isConnectionAlive s id with
    | false =>
      simp only [Bool.not_false, if_true]
      rw [if_neg (by simp)]
    | true =>
      have h2 : ¬ (id < 0 ∨ id ≥ MAX_TRACKERS) := by
        simp only [MAX_TRACKERS] at hle ⊢
        omega
      simp only [Bool.not_true, Bool.false_eq_true, if_false]
      rw [if_neg h2, if_pos ⟨by omega, by omega, trivial⟩]

/-- C12: in a reachable state `buzz(id, duration, frequency, amplitude)` sends exactly
one datagram, the haptic command, to the stored client address of slot `id` when
`0 <= id < getActiveTrackerCount()` and `isConnectionAlive(id)` holds, and sends nothing
otherwise; in both cases nothing but the socket is touched. -/
theorem buzz_sends_iff_valid_and_alive (s : UDPDeviceQuatServer) (hs : Reachable s) (id : Int)
    (duration_s frequency amplitude : Nat) :
    ((0 ≤ id ∧ id < getActiveTrackerCount s ∧ isConnectionAlive s id = true) →
        (buzz s id duration_s frequency amplitude).sent
          = s.sent ++ [(s.clients.getD id.toNat default,
              Payload.byteBuffer [Field.putInt 2, Field.putFloat duration_s,
                Field.putFloat frequency, Field.putFloat amplitude])]) ∧
      (¬ (0 ≤ id ∧ id < getActiveTrackerCount s ∧ isConnectionAlive s id = true) →
        (buzz s id duration_s frequency amplitude).sent = s.sent) ∧
      buzz s id duration_s frequency amplitude
        = { s with sent := (buzz s id duration_s frequency amplitude).sent } := by
  have he := buzz_eq s (Reachable_valid s hs) id duration_s frequency amplitude
  unfold getActiveTrackerCount
  refine ⟨fun h => ?_, fun h => ?_, ?_⟩
  · rw [he, if_pos h]
  · rw [he, if_neg h]
  · rw [he]
    split_ifs <;> rfl

/-- C12 on the example server: a buzz for slot 0 sends one haptic command to
`exampleClient`, a buzz for the id 1, which is not assigned, sends nothing. -/
theorem buzz_sends_iff_valid_and_alive_witness :
    (buzz exampleServer 0 0x3F000000 0x43160000 0x3F800000).sent
        = exampleServer.sent ++ [(exampleServer.clients.getD 0 default,
            Payload.byteBuffer [Field.putInt 2, Field.putFloat 0x3F000000,
              Field.putFloat 0x43160000, Field.putFloat 0x3F800000])] ∧
      (buzz exampleServer 1 0x3F000000 0x43160000 0x3F800000).sent = exampleServer.sent :=
  ⟨(buzz_sends_iff_valid_and_alive exampleServer exampleServer_reachable 0
      0x3F000000 0x43160000 0x3F800000).1 (by decide),
    (buzz_sends_iff_valid_and_alive exampleServer exampleServer_reachable 1
      0x3F000000 0x43160000 0x3F800000).2.1 (by decide)⟩

/-! ## Sample getters -/

/-- An update of slot `k` keeps the slots that are not assigned as they are when it
does not concern them or does not change a freshly constructed tracker. -/
theorem Pristine_updateAt (s t : UDPDeviceQuatServer) (k : Nat)
    (f : TrackerData → TrackerData) (hp : Pristine s)
    (hc : s.activeTrackerCount ≤ t.activeTrackerCount)
    (ht : t.trackers = updateAt s.trackers k f)
    (hk : k < t.activeTrackerCount.toNat ∨ f {} = {}) : Pristine t := by
  intro i hi
  rw [ht, getD_updateAt]
  have hsi : s.trackers.getD i default = {} := hp i (by omega)
  split_ifs with h
  · rcases hk with hk | hk
    · omega
    · rw [← h.1, hsi, hk]
  · exact hsi

/-- A state with the same trackers and the same number of assigned slots. -/
theorem Pristine_congr (s t : UDPDeviceQuatServer) (hp : Pristine s)
    (hc : t.activeTrackerCount = s.activeTrackerCount) (ht : t.trackers = s.trackers) :
    Pristine t := by
  intro i hi
  rw [ht]
  rw [hc] at hi
  exact hp i hi

/-- The method `getOrAssignTrackerId` keeps the slots that are not assigned as they
are. -/
theorem Pristine_getOrAssign (s : UDPDeviceQuatServer) (a : sockaddr_in) (hv : Valid s)
    (hp : Pristine s) : Pristine (getOrAssignTrackerId s a).2 := by
  have h0 := hv.count_nonneg
  rcases getOrAssign_cases s a with ⟨i, _, _, _, h4⟩ | ⟨_, _, h3⟩ | ⟨_, _, h3⟩
  · rw [h4]; exact hp
  · rw [h3]
    refine Pristine_updateAt s (assignSlot s a) s.activeTrackerCount.toNat
      (fun t => { t with isConnected := true, lastContactTime := s.curr_time }) hp ?_ rfl
      (Or.inl ?_)
    · simp only [assignSlot]; omega
    · simp only [assignSlot]; omega
  · rw [h3]; exact hp

/-- The `switch` keeps the slots that are not assigned as they are. -/
theorem Pristine_dispatch (s : UDPDeviceQuatServer) (ty : Nat) (id : Int)
    (hid : 0 ≤ id ∧ id.toNat < s.activeTrackerCount.toNat) (hp : Pristine s) :
    Pristine (dispatch s ty id) := by
  obtain ⟨_, _, _, h4⟩ := dispatch_frame s ty id
  obtain ⟨e1, _⟩ := dispatch_table s ty id
  intro i hi
  rw [e1] at hi
  rw [h4 i (by omega)]
  exact hp i hi

/-- The method `more_data_exists__read` keeps the slots that are not assigned as they
are. -/
theorem Pristine_read (s : UDPDeviceQuatServer) (now : Nat)
    (recv : Option (sockaddr_in × List Byte)) (hv : Valid s) (hp : Pristine s) :
    Pristine (more_data_exists__read s now recv).2 := by
  cases recv with
  | none => exact hp
  | some r =>
    obtain ⟨a, d⟩ := r
    rw [more_data_exists__read_some]
    have hr := Valid_receive s now d hv
    have hpr : Pristine (receive s now d) := Pristine_congr s _ hp rfl rfl
    have hg := Pristine_getOrAssign _ a hr hpr
    obtain ⟨g1, g2⟩ := Valid_getOrAssign (receive s now d) a hr
    generalize getOrAssignTrackerId (receive s now d) a = r at hg g1 g2 ⊢
    split_ifs with h1 h2
    · exact Pristine_congr s _ hp rfl rfl
    · exact hg
    · have g3 : 0 ≤ r.1 ∧ r.1.toNat < r.2.activeTrackerCount.toNat := by
        rcases g2 with g2 | g2
        · omega
        · exact g2
      have hm : Pristine (markContact r.2 r.1.toNat) :=
        Pristine_updateAt r.2 (markContact r.2 r.1.toNat) r.1.toNat
          (fun t => { t with isConnected := true, lastContactTime := r.2.curr_time })
          hg le_rfl rfl (Or.inl g3.2)
      exact Pristine_dispatch (markContact r.2 r.1.toNat) _ r.1 g3 hm

/-- The sweep keeps the slots that are not assigned as they are. -/
theorem Pristine_checkDeadConnections (s : UDPDeviceQuatServer) (hv : Valid s)
    (hp : Pristine s) : Pristine (checkDeadConnections s) := by
  intro i hi
  obtain ⟨_, e2, _, _, e5, _⟩ := checkDeadConnections_slot s hv i
  rw [e5] at hi
  rw [e2, if_neg (by omega)]
  exact hp i hi

/-- The drain loop keeps the slots that are not assigned as they are. -/
theorem Pristine_drain (queued : List (Nat × sockaddr_in × List Byte)) (now : Nat) :
    ∀ s : UDPDeviceQuatServer, Valid s → Pristine s → Pristine (drain s queued now) := by
  induction queued with
  | nil => intro s hv hp; exact Pristine_read s now none hv hp
  | cons q rest ih =>
    intro s hv hp
    obtain ⟨t, a, d⟩ := q
    unfold drain
    simp only []
    split_ifs
    · exact ih _ (Valid_read s t _ hv) (Pristine_read s t _ hv hp)
    · exact Pristine_read s t _ hv hp

/-- Every operation keeps the slots that are not assigned as they are. -/
theorem Pristine_step (s : UDPDeviceQuatServer) (x : Action) (hv : Valid s) (hp : Pristine s) :
    Pristine (step s x) := by
  cases x with
  | send_heartbeat =>
    obtain ⟨e1, e2, _⟩ := send_heartbeat_frame s
    exact Pristine_congr s _ hp e2 e1
  | more_data_exists__read now recv => exact Pristine_read s now recv hv hp
  | checkDeadConnections => exact Pristine_checkDeadConnections s hv hp
  | tick queued now =>
    obtain ⟨e1, e2, _⟩ := send_heartbeat_frame s
    exact Pristine_checkDeadConnections _
      (Valid_drain queued now _ (Valid_send_heartbeat s hv))
      (Pristine_drain queued now _ (Valid_send_heartbeat s hv) (Pristine_congr s _ hp e2 e1))
  | isDataAvailable id =>
    simp only [step]
    by_cases hr : id < 0 ∨ id ≥ MAX_TRACKERS
    · rw [isDataAvailable_out_of_range s id hr]
      exact hp
    · rw [isDataAvailable_in_range s id hr]
      exact Pristine_updateAt s _ id.toNat (fun t => { t with isNewDataAvailable := false })
        hp le_rfl rfl (Or.inr rfl)
  | buzz id d f a =>
    simp only [step]
    rw [buzz_frame]
    exact Pristine_congr s _ hp rfl rfl

/-- In every reachable state the slots that are not assigned hold the tracker data they
were constructed with. -/
theorem Reachable_pristine (s : UDPDeviceQuatServer) (hs : Reachable s) : Pristine s := by
  obtain ⟨hb, buf, actions, h1, h2, h3, h4⟩ := hs
  have key : ∀ (acts : List Action) (t : UDPDeviceQuatServer), Valid t → Pristine t →
      Pristine (run t acts) := by
    intro acts
    induction acts with
    | nil => intro t _ hp; exact hp
    | cons x rest ih =>
      intro t hv hp
      exact ih _ (Valid_step t x hv) (Pristine_step t x hv hp)
  rw [h4]
  apply key actions _ (Valid_new hb buf h1 h2 h3)
  intro i _
  simp only [UDPDeviceQuatServer.new]
  rw [List.getD_eq_getElem?_getD]
  simp only [List.getElem?_replicate]
  split_ifs <;> rfl

/-- C11 fails as stated: on a freshly constructed server no slot is assigned, yet the
three getters return the buffers of slot 0, not a null result. -/
theorem sample_getters_counterexample :
    (0 : Int) ≥ getActiveTrackerCount (UDPDeviceQuatServer.new 0 exampleBuffer) ∧
      getRotationQuaternion (UDPDeviceQuatServer.new 0 exampleBuffer) 0
        = some [0, 0, 0, 0x3F800000] ∧
      getGyroscope (UDPDeviceQuatServer.new 0 exampleBuffer) 0 = some [0, 0, 0] ∧
      getAccel (UDPDeviceQuatServer.new 0 exampleBuffer) 0 = some [0, 0, 0] := by
  decide

/-- C11, amended: `getRotationQuaternion(id)`, `getGyroscope(id)` and `getAccel(id)`
return a null result exactly when `id` is out of range (`id < 0` or
`id >= MAX_TRACKERS`), and return the orientation, angular-velocity and
linear-acceleration buffer of slot `id` for every `id` in range, assigned or not; in a
reachable state the buffers of a slot in range that is not assigned
(`id >= getActiveTrackerCount()`) hold their initial values, the identity quaternion
and two zero vectors. -/
theorem sample_getters_in_range (s : UDPDeviceQuatServer) (id : Int) :
    ((id < 0 ∨ id ≥ MAX_TRACKERS) →
        getRotationQuaternion s id = none ∧ getGyroscope s id = none ∧
          getAccel s id = none) ∧
      ((0 ≤ id ∧ id < MAX_TRACKERS) →
        getRotationQuaternion s id = some (s.trackers.getD id.toNat default).quat_buffer ∧
          getGyroscope s id = some (s.trackers.getD id.toNat default).gyro_buffer ∧
          getAccel s id = some (s.trackers.getD id.toNat default).accel_buffer) ∧
      (Reachable s → getActiveTrackerCount s ≤ id → id < MAX_TRACKERS →
        getRotationQuaternion s id = some [0, 0, 0, 0x3F800000] ∧
          getGyroscope s id = some [0, 0, 0] ∧ getAccel s id = some [0, 0, 0]) := by
  unfold getRotationQuaternion getGyroscope getAccel
  refine ⟨fun h => ?_, fun h => ?_, fun hs h1 h2 => ?_⟩
  · rw [if_pos h, if_pos h, if_pos h]
    exact ⟨rfl, rfl, rfl⟩
  · have hr : ¬ (id < 0 ∨ id ≥ MAX_TRACKERS) := by omega
    rw [if_neg hr, if_neg hr, if_neg hr]
    exact ⟨rfl, rfl, rfl⟩
  · have h0 := (Reachable_valid s hs).count_nonneg
    unfold getActiveTrackerCount at h1
    have hr : ¬ (id < 0 ∨ id ≥ MAX_TRACKERS) := by omega
    rw [if_neg hr, if_neg hr, if_neg hr, Reachable_pristine s hs id.toNat (by omega)]
    exact ⟨rfl, rfl, rfl⟩

/-- C11, amended, on the example server: the ids -1 and 20 get a null result, the id 0
gets the buffers of slot 0, and the id 5, in range but not assigned, gets the initial
buffers. -/
theorem sample_getters_in_range_witness :
    getRotationQuaternion exampleServer (-1) = none ∧
      getAccel exampleServer 20 = none ∧
      getGyroscope exampleServer 0
        = some (exampleServer.trackers.getD 0 default).gyro_buffer ∧
      getRotationQuaternion exampleServer 5 = some [0, 0, 0, 0x3F800000] :=
  ⟨((sample_getters_in_range exampleServer (-1)).1 (Or.inl (by decide))).1,
    ((sample_getters_in_range exampleServer 20).1 (Or.inr (by decide))).2.2,
    ((sample_getters_in_range exampleServer 0).2.1 ⟨by decide, by decide⟩).2.1,
    ((sample_getters_in_range exampleServer 5).2.2 exampleServer_reachable (by decide)
      (by decide)).1⟩

/-! ## Reconnection -/

/-- The `switch` leaves a tracker as it is or applies `handle_doubles_packet` to it, and
the latter to the slot of the id only. -/
theorem dispatch_slot (s : UDPDeviceQuatServer) (ty : Nat) (id : Int) (j : Nat) :
    (dispatch s ty id).trackers.getD j default = s.trackers.getD j default ∨
      (j = id.toNat ∧ ∃ (into : SampleBuffer) (n : Nat),
        (dispatch s ty id).trackers.getD j default
          = handle_doubles_packet s.buffer into n (s.trackers.getD j default)) := by
  unfold dispatch handle_rotation_packet handle_gyro_packet handle_accel_packet
  split_ifs <;>
    first
    | exact Or.inl rfl
    | (simp only []
       rw [getD_updateAt]
       split_ifs with h
       · right
         refine ⟨h.1, ?_⟩
         rw [h.1]
         exact ⟨_, _, rfl⟩
       · exact Or.inl rfl)

/-- The `switch` leaves the contact time held in every tracker. -/
theorem dispatch_contact (s : UDPDeviceQuatServer) (ty : Nat) (id : Int) (j : Nat) :
    ((dispatch s ty id).trackers.getD j default).lastContactTime
      = (s.trackers.getD j default).lastContactTime := by
  rcases dispatch_slot s ty id j with h | ⟨_, into, n, h⟩
  · rw [h]
  · rw [h]
    exact (handle_doubles_packet_liveness _ _ _ _).2

/-- The client of an assigned slot resolves to that slot. -/
theorem resolvesTo_of_same (s : UDPDeviceQuatServer) (hv : Valid s) (a : sockaddr_in) (i : Nat)
    (hi : i < s.activeTrackerCount.toNat)
    (ha : isSameClient (s.clients.getD i default) a = true) : resolvesTo s a i := by
  refine ⟨hi, ha, ?_⟩
  intro j hj
  have hd := (isSameClient_eq_false _ _).1 (hv.distinct j i hj hi)
  simp only [isSameClient, Bool.and_eq_true, beq_iff_eq] at ha
  rw [isSameClient_eq_false, ← ha.1, ← ha.2]
  exact hd

/-- A datagram that is not a handshake, from the client of the assigned slot `i`, is
dispatched to slot `i` after its connection status has been updated. -/
theorem read_resolved (s : UDPDeviceQuatServer) (now : Nat) (a : sockaddr_in)
    (d : List Byte) (i : Nat) (hr : resolvesTo s a i)
    (hty : convert_chars 4 (receive s now d).buffer ≠ MSG_HANDSHAKE) :
    getOrAssignTrackerId (receive s now d) a = ((i : Int), receive s now d) ∧
      more_data_exists__read s now (some (a, d))
        = (true, dispatch (markContact (receive s now d) i)
            (convert_chars 4 (receive s now d).buffer) (i : Int)) := by
  have hg : getOrAssignTrackerId (receive s now d) a = ((i : Int), receive s now d) :=
    resolvesTo_getOrAssign _ a i (resolvesTo_congr s _ a i rfl rfl hr)
  refine ⟨hg, ?_⟩
  rw [read_not_handshake s now a d hty, hg]
  simp only [Int.toNat_ofNat]
  rw [if_neg (by omega)]

/-- A datagram that is not a handshake, from the client of the assigned slot `i`: the
slot is marked connected and alive with the current time as contact time, the slot table
and the liveness and tracker data of every other slot are unchanged. -/
theorem read_known_slot (s : UDPDeviceQuatServer) (hv : Valid s) (i : Nat)
    (now : Nat) (a : sockaddr_in) (d : List Byte)
    (hi2 : i < s.activeTrackerCount.toNat)
    (ha : isSameClient (s.clients.getD i default) a = true)
    (hnh : convert_chars 4 (receive s now d).buffer ≠ MSG_HANDSHAKE) :
    (getOrAssignTrackerId (receive s now d) a).1 = (i : Int) ∧
      isTrackerConnected (more_data_exists__read s now (some (a, d))).2 (i : Int) = true ∧
      isConnectionAlive (more_data_exists__read s now (some (a, d))).2 (i : Int) = true ∧
      (more_data_exists__read s now (some (a, d))).2.curr_time = now % U64 ∧
      (more_data_exists__read s now (some (a, d))).2.lastContactTime.getD i 0 = now % U64 ∧
      ((more_data_exists__read s now (some (a, d))).2.trackers.getD i
        default).lastContactTime = now % U64 ∧
      (more_data_exists__read s now (some (a, d))).2.activeTrackerCount
        = s.activeTrackerCount ∧
      (more_data_exists__read s now (some (a, d))).2.clients = s.clients ∧
      (∀ j, j ≠ i →
        (more_data_exists__read s now (some (a, d))).2.trackers.getD j default
            = s.trackers.getD j default ∧
          (more_data_exists__read s now (some (a, d))).2.connectionIsDead.getD j true
            = s.connectionIsDead.getD j true ∧
          (more_data_exists__read s now (some (a, d))).2.lastContactTime.getD j 0
            = s.lastContactTime.getD j 0) := by
  have hle := hv.count_le
  have hlt : i < MAX_TRACKERS := by
    simp only [MAX_TRACKERS] at hle ⊢
    omega
  obtain ⟨hg, hread⟩ := read_resolved s now a d i (resolvesTo_of_same s hv a i hi2 ha) hnh
  have hv2 : Valid (more_data_exists__read s now (some (a, d))).2 := Valid_read s now _ hv
  rw [hread] at hv2 ⊢
  obtain ⟨e1, e2, e3, e4, _, _, e7, _⟩ := dispatch_table (markContact (receive s now d) i)
    (convert_chars 4 (receive s now d).buffer) (i : Int)
  obtain ⟨_, _, _, f4⟩ := dispatch_frame (markContact (receive s now d) i)
    (convert_chars 4 (receive s now d).buffer) (i : Int)
  have hr : ¬ ((i : Int) < 0 ∨ (i : Int) ≥ MAX_TRACKERS) := by
    simp only [MAX_TRACKERS] at hlt ⊢
    omega
  have hdead : (dispatch (markContact (receive s now d) i)
      (convert_chars 4 (receive s now d).buffer) (i : Int)).connectionIsDead.getD i true
      = false := by
    rw [e4]
    simp only [markContact, receive]
    exact getD_set_self _ _ _ _ (by rw [hv.connectionIsDead_length]; exact hlt)
  have halive : isConnectionAlive (dispatch (markContact (receive s now d) i)
      (convert_chars 4 (receive s now d).buffer) (i : Int)) (i : Int) = true := by
    unfold isConnectionAlive
    rw [if_neg hr, Int.toNat_ofNat, hdead]
    rfl
  have hconn : isTrackerConnected (dispatch (markContact (receive s now d) i)
      (convert_chars 4 (receive s now d).buffer) (i : Int)) (i : Int) = true := by
    unfold isTrackerConnected
    rw [if_neg hr, Int.toNat_ofNat, hv2.connected_iff i hlt, hdead]
    rfl
  refine ⟨by rw [hg], hconn, halive, by rw [e7]; rfl, ?_, ?_, by rw [e1]; rfl,
    by rw [e2]; rfl, ?_⟩
  · rw [e3]
    simp only [markContact, receive]
    exact getD_set_self _ _ _ _ (by rw [hv.lastContactTime_length]; exact hlt)
  · rw [dispatch_contact]
    simp only [markContact, receive]
    rw [getD_updateAt_self _ _ _ (by rw [hv.trackers_length]; exact hlt)]
  · intro j hj
    rw [e3, e4, f4 j (by rw [Int.toNat_ofNat]; exact hj)]
    simp only [markContact, receive]
    rw [getD_updateAt_other _ _ _ _ (Ne.symm hj), getD_set_other _ _ _ _ _ (Ne.symm hj),
      getD_set_other _ _ _ _ _ (Ne.symm hj)]
    exact ⟨rfl, rfl, rfl⟩

/-- C18: in a reachable state, a heartbeat or sensor datagram from the stored address
of an assigned slot `i` (in particular one that the sweep has marked disconnected) is
dispatched to slot `i`; afterwards `isTrackerConnected(i)` and `isConnectionAlive(i)`
are true and the contact time of the slot is the current time, while
`activeTrackerCount`, the stored addresses and every other slot are unchanged. -/
theorem reconnection_resumes_slot (s : UDPDeviceQuatServer) (hs : Reachable s) (i : Nat)
    (now : Nat) (a : sockaddr_in) (d : List Byte)
    (hi : (i : Int) < s.activeTrackerCount)
    (ha : isSameClient (s.clients.getD i default) a = true)
    (hty : convert_chars 4 (receive s now d).buffer = MSG_HEARTBEAT ∨
      convert_chars 4 (receive s now d).buffer = MSG_ROTATION ∨
      convert_chars 4 (receive s now d).buffer = MSG_GYRO ∨
      convert_chars 4 (receive s now d).buffer = MSG_ACCELEROMETER) :
    (getOrAssignTrackerId (receive s now d) a).1 = (i : Int) ∧
      isTrackerConnected (more_data_exists__read s now (some (a, d))).2 (i : Int) = true ∧
      isConnectionAlive (more_data_exists__read s now (some (a, d))).2 (i : Int) = true ∧
      (more_data_exists__read s now (some (a, d))).2.curr_time = now % U64 ∧
      (more_data_exists__read s now (some (a, d))).2.lastContactTime.getD i 0 = now % U64 ∧
      ((more_data_exists__read s now (some (a, d))).2.trackers.getD i
        default).lastContactTime = now % U64 ∧
      (more_data_exists__read s now (some (a, d))).2.activeTrackerCount
        = s.activeTrackerCount ∧
      (more_data_exists__read s now (some (a, d))).2.clients = s.clients ∧
      (∀ j, j ≠ i →
        (more_data_exists__read s now (some (a, d))).2.trackers.getD j default
            = s.trackers.getD j default ∧
          (more_data_exists__read s now (some (a, d))).2.connectionIsDead.getD j true
            = s.connectionIsDead.getD j true ∧
          (more_data_exists__read s now (some (a, d))).2.lastContactTime.getD j 0
            = s.lastContactTime.getD j 0) := by
  have hnh : convert_chars 4 (receive s now d).buffer ≠ MSG_HANDSHAKE := by
    rcases hty with h | h | h | h <;> rw [h] <;> decide
  exact read_known_slot s (Reachable_valid s hs) i now a d (by omega) ha hnh

/-- The server `timedOutServer` is reachable. -/
theorem timedOutServer_reachable : Reachable timedOutServer :=
  Reachable_step _ Action.checkDeadConnections (Reachable_run _ _ exampleServer_reachable)

/-- C18 on the example server whose slot 0 has timed out: it is disconnected, and a
heartbeat from `exampleClient` at clock reading 120 goes to slot 0 and makes it
connected and alive again, with contact time 120 and still one assigned slot. -/
theorem reconnection_resumes_slot_witness :
    isConnectionAlive timedOutServer 0 = false ∧
      (getOrAssignTrackerId (receive timedOutServer 120 exampleHeartbeat) exampleClient).1
        = ((0 : Nat) : Int) ∧
      isTrackerConnected (more_data_exists__read timedOutServer 120
        (some (exampleClient, exampleHeartbeat))).2 ((0 : Nat) : Int) = true ∧
      isConnectionAlive (more_data_exists__read timedOutServer 120
        (some (exampleClient, exampleHeartbeat))).2 ((0 : Nat) : Int) = true ∧
      (more_data_exists__read timedOutServer 120
        (some (exampleClient, exampleHeartbeat))).2.lastContactTime.getD 0 0 = 120 % U64 ∧
      (more_data_exists__read timedOutServer 120
        (some (exampleClient, exampleHeartbeat))).2.activeTrackerCount
        = timedOutServer.activeTrackerCount :=
  ⟨by decide,
    (reconnection_resumes_slot timedOutServer timedOutServer_reachable 0 120 exampleClient
      exampleHeartbeat (by decide) (by decide) (Or.inl (by decide))).1,
    (reconnection_resumes_slot timedOutServer timedOutServer_reachable 0 120 exampleClient
      exampleHeartbeat (by decide) (by decide) (Or.inl (by decide))).2.1,
    (reconnection_resumes_slot timedOutServer timedOutServer_reachable 0 120 exampleClient
      exampleHeartbeat (by decide) (by decide) (Or.inl (by decide))).2.2.1,
    (reconnection_resumes_slot timedOutServer timedOutServer_reachable 0 120 exampleClient
      exampleHeartbeat (by decide) (by decide) (Or.inl (by decide))).2.2.2.2.1,
    (reconnection_resumes_slot timedOutServer timedOutServer_reachable 0 120 exampleClient
      exampleHeartbeat (by decide) (by decide) (Or.inl (by decide))).2.2.2.2.2.2.1⟩

/-! ## Sensor packets -/

/-- A member kept by the update is kept in every slot. -/
theorem updateAt_proj {α β : Type} [Inhabited α] (g : α → β) (l : List α) (i j : Nat)
    (f : α → α) (hf : ∀ t, g (f t) = g t) :
    g ((updateAt l i f).getD j default) = g (l.getD j default) := by
  rw [getD_updateAt]
  split_ifs with h
  · rw [hf, h.1]
  · rfl

/-- Assigning a slot leaves the sensor data of every tracker. -/
theorem assignSlot_sample (s : UDPDeviceQuatServer) (a : sockaddr_in) (j : Nat) :
    ((assignSlot s a).trackers.getD j default).sample = (s.trackers.getD j default).sample :=
  updateAt_proj TrackerData.sample s.trackers s.activeTrackerCount.toNat j
    (fun t => { t with isConnected := true, lastContactTime := s.curr_time }) (fun _ => rfl)

/-- The method `getOrAssignTrackerId` leaves the sensor data of every tracker. -/
theorem getOrAssign_sample (s : UDPDeviceQuatServer) (a : sockaddr_in) (j : Nat) :
    ((getOrAssignTrackerId s a).2.trackers.getD j default).sample
      = (s.trackers.getD j default).sample := by
  rcases getOrAssign_cases s a with ⟨i, _, _, _, h4⟩ | ⟨_, _, h3⟩ | ⟨_, _, h3⟩
  · rw [h4]
  · rw [h3]; exact assignSlot_sample s a j
  · rw [h3]

/-- Updating the connection status leaves the sensor data of every tracker. -/
theorem markContact_sample (s : UDPDeviceQuatServer) (i j : Nat) :
    ((markContact s i).trackers.getD j default).sample = (s.trackers.getD j default).sample :=
  updateAt_proj TrackerData.sample s.trackers i j
    (fun t => { t with isConnected := true, lastContactTime := s.curr_time }) (fun _ => rfl)

/-- A sensor packet that the guard rejects leaves the tracker. -/
theorem handle_doubles_packet_rejected (packet : List Byte) (into : SampleBuffer) (n : Nat)
    (t : TrackerData)
    (h : convert_chars 8 (packet.drop 4) ≤ t.current_packet_id ∧
      5 ≤ convert_chars 8 (packet.drop 4)) :
    handle_doubles_packet packet into n t = t := by
  have hg : ¬ (convert_chars 8 (packet.drop 4) > t.current_packet_id ∨
      convert_chars 8 (packet.drop 4) < 5) := by omega
  unfold handle_doubles_packet TrackerData.receive_packet_id
  simp only [hg, if_false]
  rfl

/-- A sensor packet that the guard accepts: the sequence number is stored, the samples
are decoded into the buffer and the fresh-data flag is set. -/
theorem handle_doubles_packet_accepted (packet : List Byte) (into : SampleBuffer) (n : Nat)
    (t : TrackerData)
    (h : convert_chars 8 (packet.drop 4) > t.current_packet_id ∨
      convert_chars 8 (packet.drop 4) < 5) :
    handle_doubles_packet packet into n t =
      { (List.range n).foldl
          (fun t i => t.store into i (convert_chars 4 ((packet.drop 4).drop 8 |>.drop (4 * i))))
          { t with current_packet_id := convert_chars 8 (packet.drop 4) } with
        isNewDataAvailable := true } := by
  unfold handle_doubles_packet TrackerData.receive_packet_id
  simp only [h, if_true]
  rfl

/-- Four writes fill an array of four elements. -/
theorem set4 (l : List Nat) (h : l.length = 4) (a b c d : Nat) :
    (((l.set 0 a).set 1 b).set 2 c).set 3 d = [a, b, c, d] := by
  match l, h with
  | [_, _, _, _], _ => rfl

/-- Three writes fill an array of three elements. -/
theorem set3 (l : List Nat) (h : l.length = 3) (a b c : Nat) :
    ((l.set 0 a).set 1 b).set 2 c = [a, b, c] := by
  match l, h with
  | [_, _, _], _ => rfl

/-- An accepted rotation packet, member by member. -/
theorem handle_rotation_accepted (packet : List Byte) (t : TrackerData)
    (hs : t.quat_buffer.length = 4)
    (h : convert_chars 8 (packet.drop 4) > t.current_packet_id ∨
      convert_chars 8 (packet.drop 4) < 5) :
    handle_doubles_packet packet .quat 4 t =
      { t with
        current_packet_id := convert_chars 8 (packet.drop 4)
        quat_buffer := [convert_chars 4 (packet.drop 12), convert_chars 4 (packet.drop 16),
          convert_chars 4 (packet.drop 20), convert_chars 4 (packet.drop 24)]
        isNewDataAvailable := true } := by
  rw [handle_doubles_packet_accepted packet .quat 4 t h]
  simp only [List.range, List.range.loop, List.foldl, TrackerData.store, List.drop_drop]
  rw [set4 _ hs]

/-- An accepted gyroscope packet, member by member. -/
theorem handle_gyro_accepted (packet : List Byte) (t : TrackerData)
    (hs : t.gyro_buffer.length = 3)
    (h : convert_chars 8 (packet.drop 4) > t.current_packet_id ∨
      convert_chars 8 (packet.drop 4) < 5) :
    handle_doubles_packet packet .gyro 3 t =
      { t with
        current_packet_id := convert_chars 8 (packet.drop 4)
        gyro_buffer := [convert_chars 4 (packet.drop 12), convert_chars 4 (packet.drop 16),
          convert_chars 4 (packet.drop 20)]
        isNewDataAvailable := true } := by
  rw [handle_doubles_packet_accepted packet .gyro 3 t h]
  simp only [List.range, List.range.loop, List.foldl, TrackerData.store, List.drop_drop]
  rw [set3 _ hs]

/-- An accepted accelerometer packet, member by member. -/
theorem handle_accel_accepted (packet : List Byte) (t : TrackerData)
    (hs : t.accel_buffer.length = 3)
    (h : convert_chars 8 (packet.drop 4) > t.current_packet_id ∨
      convert_chars 8 (packet.drop 4) < 5) :
    handle_doubles_packet packet .accel 3 t =
      { t with
        current_packet_id := convert_chars 8 (packet.drop 4)
        accel_buffer := [convert_chars 4 (packet.drop 12), convert_chars 4 (packet.drop 16),
          convert_chars 4 (packet.drop 20)]
        isNewDataAvailable := true } := by
  rw [handle_doubles_packet_accepted packet .accel 3 t h]
  simp only [List.range, List.range.loop, List.foldl, TrackerData.store, List.drop_drop]
  rw [set3 _ hs]

/-- A property of trackers that every elementary write keeps is kept, in every slot, by
every operation of the server. -/
theorem step_trackers_pred (P : TrackerData → Prop)
    (h1 : ∀ t c, P t → P { t with isConnected := true, lastContactTime := c })
    (h2 : ∀ t, P t → P { t with isConnected := false })
    (h3 : ∀ t, P t → P { t with isNewDataAvailable := false })
    (h4 : ∀ p into n t, P t → P (handle_doubles_packet p into n t))
    (s : UDPDeviceQuatServer) (x : Action) (hs : ∀ j, P (s.trackers.getD j default)) :
    ∀ j, P ((step s x).trackers.getD j default) := by
  have hassign : ∀ (t : UDPDeviceQuatServer) (a : sockaddr_in),
      (∀ j, P (t.trackers.getD j default)) →
      ∀ j, P ((getOrAssignTrackerId t a).2.trackers.getD j default) := by
    intro t a ht j
    rcases getOrAssign_cases t a with ⟨i, _, _, _, g4⟩ | ⟨_, _, g3⟩ | ⟨_, _, g3⟩
    · rw [g4]; exact ht j
    · rw [g3]
      exact updateAt_pred P t.trackers t.activeTrackerCount.toNat j
        (fun u => { u with isConnected := true, lastContactTime := t.curr_time })
        (fun u hu => h1 u _ hu) (ht j)
    · rw [g3]; exact ht j
  have hmark : ∀ (t : UDPDeviceQuatServer) (i : Nat),
      (∀ j, P (t.trackers.getD j default)) →
      ∀ j, P ((markContact t i).trackers.getD j default) := by
    intro t i ht j
    exact updateAt_pred P t.trackers i j
      (fun u => { u with isConnected := true, lastContactTime := t.curr_time })
      (fun u hu => h1 u _ hu) (ht j)
  have hdisp : ∀ (t : UDPDeviceQuatServer) (ty : Nat) (id : Int),
      (∀ j, P (t.trackers.getD j default)) →
      ∀ j, P ((dispatch t ty id).trackers.getD j default) := by
    intro t ty id ht j
    rcases dispatch_slot t ty id j with h | ⟨_, into, n, h⟩
    · rw [h]; exact ht j
    · rw [h]; exact h4 _ _ _ _ (ht j)
  have hread : ∀ (t : UDPDeviceQuatServer) (now : Nat)
      (recv : Option (sockaddr_in × List Byte)),
      (∀ j, P (t.trackers.getD j default)) →
      ∀ j, P ((more_data_exists__read t now recv).2.trackers.getD j default) := by
    intro t now recv ht
    cases recv with
    | none => exact ht
    | some r =>
      obtain ⟨a, d⟩ := r
      rw [more_data_exists__read_some]
      have hg := hassign (receive t now d) a ht
      generalize getOrAssignTrackerId (receive t now d) a = g at hg ⊢
      split_ifs
      · exact ht
      · exact hg
      · exact hdisp _ _ _ (hmark _ _ hg)
  have hdrain : ∀ (queued : List (Nat × sockaddr_in × List Byte)) (now : Nat)
      (t : UDPDeviceQuatServer), (∀ j, P (t.trackers.getD j default)) →
      ∀ j, P ((drain t queued now).trackers.getD j default) := by
    intro queued now
    induction queued with
    | nil => intro t ht; exact hread t now none ht
    | cons q rest ih =>
      intro t ht
      obtain ⟨c, a, d⟩ := q
      unfold drain
      simp only []
      split_ifs
      · exact ih _ (hread t c _ ht)
      · exact hread t c _ ht
  have hsweep : ∀ (t : UDPDeviceQuatServer), (∀ j, P (t.trackers.getD j default)) →
      ∀ j, P ((checkDeadConnections t).trackers.getD j default) := by
    intro t ht
    unfold checkDeadConnections
    refine foldl_range_induction (fun _ u => ∀ j, P (u.trackers.getD j default))
      checkDeadConnection t _ ht ?_
    intro k u _ hu j
    rw [checkDeadConnection_eq]
    split_ifs
    · exact updateAt_pred P u.trackers k j (fun v => { v with isConnected := false })
        (fun v hv => h2 v hv) (hu j)
    · exact hu j
  cases x with
  | send_heartbeat =>
    simp only [step]
    rw [(send_heartbeat_frame s).1]
    exact hs
  | more_data_exists__read now recv => exact hread s now recv hs
  | checkDeadConnections => exact hsweep s hs
  | tick queued now =>
    apply hsweep
    apply hdrain
    rw [(send_heartbeat_frame s).1]
    exact hs
  | isDataAvailable id =>
    intro j
    simp only [step]
    by_cases hr : id < 0 ∨ id ≥ MAX_TRACKERS
    · rw [isDataAvailable_out_of_range s id hr]
      exact hs j
    · rw [isDataAvailable_in_range s id hr]
      exact updateAt_pred P s.trackers id.toNat j
        (fun v => { v with isNewDataAvailable := false }) (fun v hv => h3 v hv) (hs j)
  | buzz id d f a =>
    simp only [step]
    rw [buzz_frame]
    exact hs

/-- A store into a sample buffer keeps the sizes of the buffers. -/
theorem Sized_store (t : TrackerData) (into : SampleBuffer) (i v : Nat) (h : t.Sized) :
    (t.store into i v).Sized := by
  obtain ⟨h1, h2, h3⟩ := h
  cases into <;> simp [TrackerData.store, TrackerData.Sized, h1, h2, h3]

/-- The decoding loop keeps the sizes of the buffers. -/
theorem Sized_store_loop (f : Nat → Nat) (into : SampleBuffer) (n : Nat) (t : TrackerData)
    (h : t.Sized) :
    ((List.range n).foldl (fun (u : TrackerData) i => u.store into i (f i)) t).Sized := by
  refine foldl_range_induction (fun _ (u : TrackerData) => u.Sized)
    (fun (u : TrackerData) i => u.store into i (f i)) t n h ?_
  intro k u _ hu
  exact Sized_store u into k _ hu

/-- A sensor packet keeps the sizes of the buffers. -/
theorem Sized_handle_doubles_packet (packet : List Byte) (into : SampleBuffer) (n : Nat)
    (t : TrackerData) (h : t.Sized) : (handle_doubles_packet packet into n t).Sized := by
  by_cases hg : convert_chars 8 (packet.drop 4) > t.current_packet_id ∨
      convert_chars 8 (packet.drop 4) < 5
  · rw [handle_doubles_packet_accepted packet into n t hg]
    have hflag : ∀ u : TrackerData, u.Sized →
        ({ u with isNewDataAvailable := true } : TrackerData).Sized := fun _ hu => hu
    have hseq : ∀ (u : TrackerData) (x : Nat), u.Sized →
        ({ u with current_packet_id := x } : TrackerData).Sized := fun _ _ hu => hu
    apply hflag
    exact Sized_store_loop
      (fun i => convert_chars 4 ((packet.drop 4).drop 8 |>.drop (4 * i))) into n _
      (hseq t _ h)
  · rw [handle_doubles_packet_rejected packet into n t (by omega)]
    exact h

/-- In every reachable state the sample buffers of every tracker have the sizes of the
arrays. -/
theorem Reachable_sized (s : UDPDeviceQuatServer) (hs : Reachable s) :
    ∀ j, (s.trackers.getD j default).Sized := by
  obtain ⟨hb, buf, actions, _, _, _, h4⟩ := hs
  have key : ∀ (acts : List Action) (t : UDPDeviceQuatServer),
      (∀ j, (t.trackers.getD j default).Sized) →
      ∀ j, ((run t acts).trackers.getD j default).Sized := by
    intro acts
    induction acts with
    | nil => intro t ht; exact ht
    | cons x rest ih =>
      intro t ht
      exact ih _ (step_trackers_pred TrackerData.Sized (fun _ _ h => h) (fun _ h => h)
        (fun _ h => h) Sized_handle_doubles_packet t x ht)
  rw [h4]
  apply key
  intro j
  simp only [UDPDeviceQuatServer.new]
  rw [List.getD_eq_getElem?_getD]
  simp only [List.getElem?_replicate]
  split_ifs <;> exact ⟨rfl, rfl, rfl⟩

/-- The `switch` does nothing for a heartbeat and for a type it does not know. -/
theorem dispatch_inert (s : UDPDeviceQuatServer) (ty : Nat) (id : Int)
    (h : ty ≠ MSG_ROTATION ∧ ty ≠ MSG_GYRO ∧ ty ≠ MSG_ACCELEROMETER) :
    dispatch s ty id = s := by
  unfold dispatch
  simp only [h.1, h.2.1, h.2.2, if_false, ite_self]

/-- The `switch` for a sensor message and an id in range: `handle_doubles_packet` on the
slot of the id, with the buffer and the number of samples of the message type. -/
theorem dispatch_sensor_slot (s : UDPDeviceQuatServer) (id : Int) (h0 : 0 ≤ id)
    (hlt : id.toNat < s.trackers.length) (hmax : id < MAX_TRACKERS) :
    (dispatch s MSG_ROTATION id).trackers.getD id.toNat default
        = handle_doubles_packet s.buffer .quat 4 (s.trackers.getD id.toNat default) ∧
      (dispatch s MSG_GYRO id).trackers.getD id.toNat default
        = handle_doubles_packet s.buffer .gyro 3 (s.trackers.getD id.toNat default) ∧
      (dispatch s MSG_ACCELEROMETER id).trackers.getD id.toNat default
        = handle_doubles_packet s.buffer .accel 3 (s.trackers.getD id.toNat default) := by
  have hr : ¬ (id < 0 ∨ id ≥ MAX_TRACKERS) := by
    intro hc
    rcases hc with hc | hc
    · omega
    · exact absurd hmax (not_lt.2 hc)
  unfold dispatch handle_rotation_packet handle_gyro_packet handle_accel_packet
  simp only [hr, if_false]
  refine ⟨?_, ?_, ?_⟩
  · rw [if_neg (by decide), if_pos trivial]
    exact getD_updateAt_self _ _ _ hlt
  · rw [if_neg (by decide), if_neg (by decide), if_pos trivial]
    exact getD_updateAt_self _ _ _ hlt
  · rw [if_neg (by decide), if_neg (by decide), if_neg (by decide), if_pos trivial]
    exact getD_updateAt_self _ _ _ hlt

/-- The method `getOrAssignTrackerId`, when it returns an id, leaves every slot but the
one of that id. -/
theorem getOrAssign_others (s : UDPDeviceQuatServer) (a : sockaddr_in)
    (hid : 0 ≤ (getOrAssignTrackerId s a).1) (j : Nat)
    (hj : j ≠ (getOrAssignTrackerId s a).1.toNat) :
    (getOrAssignTrackerId s a).2.trackers.getD j default = s.trackers.getD j default ∧
      (getOrAssignTrackerId s a).2.connectionIsDead.getD j true
        = s.connectionIsDead.getD j true ∧
      (getOrAssignTrackerId s a).2.lastContactTime.getD j 0 = s.lastContactTime.getD j 0 ∧
      (getOrAssignTrackerId s a).2.clients.getD j default = s.clients.getD j default := by
  rcases getOrAssign_cases s a with ⟨i, _, _, _, h4⟩ | ⟨_, _, h3⟩ | ⟨_, _, h3⟩
  · rw [h4]; exact ⟨rfl, rfl, rfl, rfl⟩
  · rw [h3] at hj ⊢
    simp only [assignSlot] at hj ⊢
    rw [getD_updateAt_other _ _ _ _ (Ne.symm hj), getD_set_other _ _ _ _ _ (Ne.symm hj),
      getD_set_other _ _ _ _ _ (Ne.symm hj), getD_set_other _ _ _ _ _ (Ne.symm hj)]
    exact ⟨rfl, rfl, rfl, rfl⟩
  · rw [h3] at hid
    simp at hid

/-- Setting the liveness members of a tracker twice is setting them once. -/
theorem getOrAssign_then_mark (s : UDPDeviceQuatServer) (hv : Valid s) (a : sockaddr_in)
    (hid : 0 ≤ (getOrAssignTrackerId s a).1) :
    (markContact (getOrAssignTrackerId s a).2
        (getOrAssignTrackerId s a).1.toNat).trackers.getD
        (getOrAssignTrackerId s a).1.toNat default
      = { s.trackers.getD (getOrAssignTrackerId s a).1.toNat default with
          isConnected := true, lastContactTime := s.curr_time } := by
  obtain ⟨g1, g2⟩ := Valid_getOrAssign s a hv
  have hle := g1.count_le
  have hlen : (getOrAssignTrackerId s a).1.toNat
      < (getOrAssignTrackerId s a).2.trackers.length := by
    rw [g1.trackers_length]
    simp only [MAX_TRACKERS] at hle ⊢
    omega
  have hc := (getOrAssign_buffer s a).2.1
  simp only [markContact]
  rw [getD_updateAt_self _ _ _ hlen, hc]
  rcases getOrAssign_cases s a with ⟨i, _, _, _, h4⟩ | ⟨_, h2, h3⟩ | ⟨_, _, h3⟩
  · rw [h4]
  · rw [h3]
    simp only [assignSlot]
    rw [getD_updateAt_self _ _ _ (by
      rw [hv.trackers_length]
      have := hv.count_nonneg
      simp only [MAX_TRACKERS] at h2 ⊢
      omega)]
  · rw [h3] at hid
    simp at hid

/-- A datagram that is not a handshake and gets the id `i`: the state before the
`switch`. Slot `i` holds its old tracker data with the liveness members set, every
other slot is as before. -/
theorem read_before_dispatch (s : UDPDeviceQuatServer) (hv : Valid s) (now : Nat)
    (a : sockaddr_in) (d : List Byte)
    (hnh : convert_chars 4 (receive s now d).buffer ≠ MSG_HANDSHAKE)
    (hid : 0 ≤ (getOrAssignTrackerId (receive s now d) a).1) :
    ∃ m : UDPDeviceQuatServer,
      more_data_exists__read s now (some (a, d))
        = (true, dispatch m (convert_chars 4 (receive s now d).buffer)
            (getOrAssignTrackerId (receive s now d) a).1) ∧
      Valid m ∧
      m.buffer = (receive s now d).buffer ∧
      m.sent = s.sent ∧
      (getOrAssignTrackerId (receive s now d) a).1.toNat < m.activeTrackerCount.toNat ∧
      m.trackers.getD (getOrAssignTrackerId (receive s now d) a).1.toNat default
        = { s.trackers.getD (getOrAssignTrackerId (receive s now d) a).1.toNat default with
            isConnected := true, lastContactTime := now % U64 } ∧
      m.lastContactTime.getD (getOrAssignTrackerId (receive s now d) a).1.toNat 0
        = now % U64 ∧
      m.connectionIsDead.getD (getOrAssignTrackerId (receive s now d) a).1.toNat true
        = false ∧
      (∀ j, j ≠ (getOrAssignTrackerId (receive s now d) a).1.toNat →
        m.trackers.getD j default = s.trackers.getD j default ∧
          m.connectionIsDead.getD j true = s.connectionIsDead.getD j true ∧
          m.lastContactTime.getD j 0 = s.lastContactTime.getD j 0 ∧
          m.clients.getD j default = s.clients.getD j default) := by
  have hr := Valid_receive s now d hv
  obtain ⟨g1, g2⟩ := Valid_getOrAssign (receive s now d) a hr
  have g3 : (getOrAssignTrackerId (receive s now d) a).1.toNat
      < (getOrAssignTrackerId (receive s now d) a).2.activeTrackerCount.toNat := by
    rcases g2 with g2 | g2
    · omega
    · exact g2.2
  have hm := Valid_markContact _ _ g1 g3
  have hle := g1.count_le
  have hlt : (getOrAssignTrackerId (receive s now d) a).1.toNat < MAX_TRACKERS := by
    simp only [MAX_TRACKERS] at hle ⊢
    omega
  refine ⟨markContact (getOrAssignTrackerId (receive s now d) a).2
    (getOrAssignTrackerId (receive s now d) a).1.toNat, ?_, hm,
    (getOrAssign_buffer _ a).1, (getOrAssign_buffer _ a).2.2.1, g3,
    getOrAssign_then_mark _ hr a hid, ?_, ?_, ?_⟩
  · rw [read_not_handshake s now a d hnh, if_neg (not_lt.2 hid)]
  · simp only [markContact]
    rw [getD_set_self _ _ _ _ (by rw [g1.lastContactTime_length]; exact hlt),
      (getOrAssign_buffer _ a).2.1]
    rfl
  · simp only [markContact]
    exact getD_set_self _ _ _ _ (by rw [g1.connectionIsDead_length]; exact hlt)
  · intro j hj
    obtain ⟨k1, k2, k3, k4⟩ := getOrAssign_others (receive s now d) a hid j hj
    simp only [markContact]
    rw [getD_updateAt_other _ _ _ _ (Ne.symm hj), getD_set_other _ _ _ _ _ (Ne.symm hj),
      getD_set_other _ _ _ _ _ (Ne.symm hj)]
    exact ⟨k1, k2, k3, k4⟩

/-! ## Unrecognized message types -/

/-- A field that lies within the datagram is read from the buffer as it is in the
datagram. -/
theorem convert_chars_drop_RecvFrom (buffer datagram : List Byte) (k o : Nat)
    (h1 : o + k ≤ datagram.length) (h2 : o + k ≤ MAX_MSG_SIZE) :
    convert_chars k ((RecvFrom buffer MAX_MSG_SIZE datagram).drop o)
      = convert_chars k (datagram.drop o) := by
  rw [convert_chars_eq_sum, convert_chars_eq_sum]
  apply Finset.sum_congr rfl
  intro i hi
  have hi := Finset.mem_range.1 hi
  have e1 : ((RecvFrom buffer MAX_MSG_SIZE datagram).drop o).getD i 0
      = (RecvFrom buffer MAX_MSG_SIZE datagram).getD (o + i) 0 := by
    simp [List.getD_eq_getElem?_getD, List.getElem?_drop]
  have e2 : (datagram.drop o).getD i 0 = datagram.getD (o + i) 0 := by
    simp [List.getD_eq_getElem?_getD, List.getElem?_drop]
  rw [e1, e2, getD_RecvFrom buffer datagram MAX_MSG_SIZE (o + i) (by omega) (by omega)]

/-- The four bytes at an offset, read by `convert_chars`, are the big-endian `float`
at that offset. -/
theorem convert_chars_float32At (datagram : List Byte) (o : Nat) :
    convert_chars 4 (datagram.drop o) = float32At datagram o := by
  have e : ∀ i, (datagram.drop o).getD i 0 = datagram.getD (o + i) 0 := by
    intro i
    simp [List.getD_eq_getElem?_getD, List.getElem?_drop]
  rw [convert_chars_eq_sum]
  simp only [Finset.sum_range_succ, Finset.sum_range_zero, e, float32At]
  norm_num

/-- C13 fails as stated: a datagram of the undefined type 5 from a new address makes a
freshly constructed server assign slot 0 to that address and mark it connected. -/
theorem unrecognized_type_counterexample :
    convert_chars 4 exampleUnknown = 5 ∧
      (UDPDeviceQuatServer.new 0 exampleBuffer).activeTrackerCount = 0 ∧
      (more_data_exists__read (UDPDeviceQuatServer.new 0 exampleBuffer) 100
        (some (exampleClient, exampleUnknown))).2.activeTrackerCount = 1 ∧
      isTrackerConnected (UDPDeviceQuatServer.new 0 exampleBuffer) 0 = false ∧
      isTrackerConnected (more_data_exists__read (UDPDeviceQuatServer.new 0 exampleBuffer) 100
        (some (exampleClient, exampleUnknown))).2 0 = true := by
  decide

/-- C13, amended: in a reachable state a datagram whose type is none of 0 to 4 changes
no slot's buffers, sequence number or fresh-data flag and sends nothing, but it is
otherwise processed like a heartbeat: `getOrAssignTrackerId` resolves its source address
or assigns a slot to it, and that slot becomes connected and alive with the current time
as contact time, every other slot being unchanged; a new address that finds space thus
raises `activeTrackerCount` by one, and when `getOrAssignTrackerId` returns -1, no slot
being free for a new address, the slot store is unchanged. -/
theorem unrecognized_type_like_heartbeat (s : UDPDeviceQuatServer) (hs : Reachable s)
    (now : Nat) (a : sockaddr_in) (d : List Byte)
    (hty : convert_chars 4 (receive s now d).buffer ≠ MSG_HEARTBEAT ∧
      convert_chars 4 (receive s now d).buffer ≠ MSG_ROTATION ∧
      convert_chars 4 (receive s now d).buffer ≠ MSG_GYRO ∧
      convert_chars 4 (receive s now d).buffer ≠ MSG_HANDSHAKE ∧
      convert_chars 4 (receive s now d).buffer ≠ MSG_ACCELEROMETER) :
    (∀ j, ((more_data_exists__read s now (some (a, d))).2.trackers.getD j default).sample
        = (s.trackers.getD j default).sample) ∧
      (more_data_exists__read s now (some (a, d))).2.sent = s.sent ∧
      (more_data_exists__read s now (some (a, d))).2.activeTrackerCount
        = (getOrAssignTrackerId (receive s now d) a).2.activeTrackerCount ∧
      (0 ≤ (getOrAssignTrackerId (receive s now d) a).1 →
        isTrackerConnected (more_data_exists__read s now (some (a, d))).2
            (getOrAssignTrackerId (receive s now d) a).1 = true ∧
          isConnectionAlive (more_data_exists__read s now (some (a, d))).2
            (getOrAssignTrackerId (receive s now d) a).1 = true ∧
          (more_data_exists__read s now (some (a, d))).2.lastContactTime.getD
            (getOrAssignTrackerId (receive s now d) a).1.toNat 0 = now % U64 ∧
          (∀ j, j ≠ (getOrAssignTrackerId (receive s now d) a).1.toNat →
            (more_data_exists__read s now (some (a, d))).2.trackers.getD j default
                = s.trackers.getD j default ∧
              (more_data_exists__read s now (some (a, d))).2.connectionIsDead.getD j true
                = s.connectionIsDead.getD j true ∧
              (more_data_exists__read s now (some (a, d))).2.lastContactTime.getD j 0
                = s.lastContactTime.getD j 0 ∧
              (more_data_exists__read s now (some (a, d))).2.clients.getD j default
                = s.clients.getD j default)) ∧
      ((∀ j, j < s.activeTrackerCount.toNat →
          isSameClient (s.clients.getD j default) a = false) →
        s.activeTrackerCount < MAX_TRACKERS →
        (more_data_exists__read s now (some (a, d))).2.activeTrackerCount
            = s.activeTrackerCount + 1 ∧
          (more_data_exists__read s now (some (a, d))).2.clients.getD
            s.activeTrackerCount.toNat default = a) ∧
      ((getOrAssignTrackerId (receive s now d) a).1 < 0 →
        (more_data_exists__read s now (some (a, d))).2.trackers = s.trackers ∧
          (more_data_exists__read s now (some (a, d))).2.clients = s.clients ∧
          (more_data_exists__read s now (some (a, d))).2.connectionIsDead
            = s.connectionIsDead ∧
          (more_data_exists__read s now (some (a, d))).2.lastContactTime
            = s.lastContactTime ∧
          (more_data_exists__read s now (some (a, d))).2.activeTrackerCount
            = s.activeTrackerCount) := by
  have hv := Reachable_valid s hs
  have hnh := hty.2.2.2.1
  have hinert : ∀ (m : UDPDeviceQuatServer) (id : Int),
      dispatch m (convert_chars 4 (receive s now d).buffer) id = m :=
    fun m id => dispatch_inert m _ id ⟨hty.2.1, hty.2.2.1, hty.2.2.2.2⟩
  have hneg : (getOrAssignTrackerId (receive s now d) a).1 < 0 →
      more_data_exists__read s now (some (a, d)) = (true, receive s now d) := by
    intro h
    rw [read_not_handshake s now a d hnh, if_pos h]
    rcases getOrAssign_cases (receive s now d) a with ⟨i, _, _, _, g4⟩ | ⟨_, _, g3⟩ | ⟨_, _, g3⟩
    · rw [g4] at h
      exact absurd h (by simp)
    · rw [g3] at h
      exact absurd h (not_lt.2 hv.count_nonneg)
    · rw [g3]
  have hpos : 0 ≤ (getOrAssignTrackerId (receive s now d) a).1 →
      ∃ m : UDPDeviceQuatServer,
        more_data_exists__read s now (some (a, d)) = (true, m) ∧ Valid m ∧
        m.sent = s.sent ∧
        m.activeTrackerCount
          = (getOrAssignTrackerId (receive s now d) a).2.activeTrackerCount ∧
        m.clients = (getOrAssignTrackerId (receive s now d) a).2.clients ∧
        (getOrAssignTrackerId (receive s now d) a).1.toNat < m.activeTrackerCount.toNat ∧
        m.trackers.getD (getOrAssignTrackerId (receive s now d) a).1.toNat default
          = { s.trackers.getD (getOrAssignTrackerId (receive s now d) a).1.toNat default with
              isConnected := true, lastContactTime := now % U64 } ∧
        m.lastContactTime.getD (getOrAssignTrackerId (receive s now d) a).1.toNat 0
          = now % U64 ∧
        m.connectionIsDead.getD (getOrAssignTrackerId (receive s now d) a).1.toNat true
          = false ∧
        (∀ j, j ≠ (getOrAssignTrackerId (receive s now d) a).1.toNat →
          m.trackers.getD j default = s.trackers.getD j default ∧
            m.connectionIsDead.getD j true = s.connectionIsDead.getD j true ∧
            m.lastContactTime.getD j 0 = s.lastContactTime.getD j 0 ∧
            m.clients.getD j default = s.clients.getD j default) := by
    intro h
    have hm : more_data_exists__read s now (some (a, d))
        = (true, markContact (getOrAssignTrackerId (receive s now d) a).2
            (getOrAssignTrackerId (receive s now d) a).1.toNat) := by
      rw [read_not_handshake s now a d hnh, if_neg (not_lt.2 h), hinert]
    obtain ⟨m, k1, k2, _, k4, k5, k6, k7, k8, k9⟩ := read_before_dispatch s hv now a d hnh h
    rw [hinert] at k1
    have hmm : m = markContact (getOrAssignTrackerId (receive s now d) a).2
        (getOrAssignTrackerId (receive s now d) a).1.toNat := by
      have := k1.symm.trans hm
      exact (Prod.mk.inj this).2
    refine ⟨m, k1, k2, k4, ?_, ?_, k5, k6, k7, k8, k9⟩
    · rw [hmm]; rfl
    · rw [hmm]; rfl
  refine ⟨?_, ?_, ?_, ?_, ?_, ?_⟩
  · intro j
    by_cases h : 0 ≤ (getOrAssignTrackerId (receive s now d) a).1
    · obtain ⟨m, k1, _, _, _, _, _, k6, _, _, k9⟩ := hpos h
      rw [k1]
      by_cases hj : j = (getOrAssignTrackerId (receive s now d) a).1.toNat
      · rw [hj]
        simp only []
        rw [k6]
        rfl
      · simp only []
        rw [(k9 j hj).1]
    · rw [hneg (not_le.1 h)]
      rfl
  · by_cases h : 0 ≤ (getOrAssignTrackerId (receive s now d) a).1
    · obtain ⟨m, k1, _, k3, _⟩ := hpos h
      rw [k1]
      exact k3
    · rw [hneg (not_le.1 h)]
      rfl
  · by_cases h : 0 ≤ (getOrAssignTrackerId (receive s now d) a).1
    · obtain ⟨m, k1, _, _, k4, _⟩ := hpos h
      rw [k1]
      exact k4
    · rw [hneg (not_le.1 h)]
      rcases getOrAssign_cases (receive s now d) a with
        ⟨i, _, _, _, g4⟩ | ⟨_, _, g3⟩ | ⟨_, _, g3⟩
      · rw [g4]
      · rw [g3] at h
        exact absurd hv.count_nonneg h
      · rw [g3]
  · intro h
    obtain ⟨m, k1, k2, _, _, _, k5, _, k7, k8, k9⟩ := hpos h
    rw [k1]
    simp only []
    have hle := k2.count_le
    have hlt : (getOrAssignTrackerId (receive s now d) a).1.toNat < MAX_TRACKERS := by
      simp only [MAX_TRACKERS] at hle ⊢
      omega
    have hr : ¬ ((getOrAssignTrackerId (receive s now d) a).1 < 0 ∨
        (getOrAssignTrackerId (receive s now d) a).1 ≥ MAX_TRACKERS) := by
      simp only [MAX_TRACKERS] at hlt ⊢
      omega
    refine ⟨?_, ?_, k7, k9⟩
    · unfold isTrackerConnected
      rw [if_neg hr, k2.connected_iff _ hlt, k8]
      rfl
    · unfold isConnectionAlive
      rw [if_neg hr, k8]
      rfl
  · intro hnone hspace
    rcases getOrAssign_cases (receive s now d) a with
      ⟨i, g1, g2, _, _⟩ | ⟨_, _, g3⟩ | ⟨_, g2, _⟩
    · have := hnone i g1
      have g2' : isSameClient (s.clients.getD i default) a = true := g2
      rw [this] at g2'
      exact absurd g2' (by simp)
    · have h : 0 ≤ (getOrAssignTrackerId (receive s now d) a).1 := by
        rw [g3]
        exact hv.count_nonneg
      obtain ⟨m, k1, _, _, k4, k5, _⟩ := hpos h
      rw [k1]
      simp only []
      rw [k4, k5, g3]
      simp only [assignSlot, receive]
      refine ⟨trivial, ?_⟩
      have h0 := hv.count_nonneg
      exact getD_set_self _ _ _ _ (by
        rw [hv.clients_length]
        simp only [MAX_TRACKERS] at hspace ⊢
        omega)
    · exact absurd hspace g2
  · intro h
    rw [hneg h]
    exact ⟨rfl, rfl, rfl, rfl, rfl⟩

/-- C13, amended, on the example server: a datagram of type 5 from `otherClient`, a new
address, leaves the sensor data of slot 0 and raises the number of assigned slots from 1
to 2. -/
theorem unrecognized_type_like_heartbeat_witness :
    ((more_data_exists__read exampleServer 101
        (some (otherClient, exampleUnknown))).2.trackers.getD 0 default).sample
        = (exampleServer.trackers.getD 0 default).sample ∧
      (more_data_exists__read exampleServer 101
        (some (otherClient, exampleUnknown))).2.activeTrackerCount
        = exampleServer.activeTrackerCount + 1 :=
  ⟨(unrecognized_type_like_heartbeat exampleServer exampleServer_reachable 101 otherClient
      exampleUnknown (by decide)).1 0,
    ((unrecognized_type_like_heartbeat exampleServer exampleServer_reachable 101 otherClient
      exampleUnknown (by decide)).2.2.2.2.1 (by decide) (by decide)).1⟩

/-! ## Rejected sequence numbers -/

/-- C14 fails as stated: slot 0 of `sequencedServer` has the sequence number 9 and was
last heard of at 100; a rotation datagram with sequence number 7 from its address at
clock reading 105 is rejected by the guard, yet the contact time of the slot becomes
105. -/
theorem guard_rejected_counterexample :
    sequenceOf staleRotation = 7 ∧
      (sequencedServer.trackers.getD 0 default).current_packet_id = 9 ∧
      sequencedServer.lastContactTime.getD 0 0 = 100 ∧
      (more_data_exists__read sequencedServer 105
        (some (exampleClient, staleRotation))).2.lastContactTime.getD 0 0 = 105 ∧
      ((more_data_exists__read sequencedServer 105
        (some (exampleClient, staleRotation))).2.trackers.getD 0 default).lastContactTime
        = 105 := by
  decide

/-- C14, amended: in a reachable state, a heartbeat, rotation, gyroscope or
accelerometer datagram of at least 12 bytes from the address of an assigned slot `i`
whose sequence number is rejected by the guard (`seq <= lastSequence` and `seq >= 5`)
leaves the buffers, the sequence number and the fresh-data flag of slot `i` and every
other slot unchanged, but it does refresh the liveness of slot `i`: both contact times
become the current time and `isTrackerConnected(i)` and `isConnectionAlive(i)` become
true. -/
theorem guard_rejected_keeps_samples (s : UDPDeviceQuatServer) (hs : Reachable s) (i : Nat)
    (now : Nat) (a : sockaddr_in) (d : List Byte)
    (hi : (i : Int) < s.activeTrackerCount)
    (ha : isSameClient (s.clients.getD i default) a = true)
    (hlen : 12 ≤ d.length)
    (hty : convert_chars 4 d = MSG_HEARTBEAT ∨ convert_chars 4 d = MSG_ROTATION ∨
      convert_chars 4 d = MSG_GYRO ∨ convert_chars 4 d = MSG_ACCELEROMETER)
    (hrej : sequenceOf d ≤ (s.trackers.getD i default).current_packet_id ∧
      5 ≤ sequenceOf d) :
    ((more_data_exists__read s now (some (a, d))).2.trackers.getD i default).sample
        = (s.trackers.getD i default).sample ∧
      (more_data_exists__read s now (some (a, d))).2.lastContactTime.getD i 0 = now % U64 ∧
      ((more_data_exists__read s now (some (a, d))).2.trackers.getD i
        default).lastContactTime = now % U64 ∧
      isTrackerConnected (more_data_exists__read s now (some (a, d))).2 (i : Int) = true ∧
      isConnectionAlive (more_data_exists__read s now (some (a, d))).2 (i : Int) = true ∧
      (∀ j, j ≠ i →
        (more_data_exists__read s now (some (a, d))).2.trackers.getD j default
            = s.trackers.getD j default ∧
          (more_data_exists__read s now (some (a, d))).2.connectionIsDead.getD j true
            = s.connectionIsDead.getD j true ∧
          (more_data_exists__read s now (some (a, d))).2.lastContactTime.getD j 0
            = s.lastContactTime.getD j 0) := by
  have hv := Reachable_valid s hs
  have hi2 : i < s.activeTrackerCount.toNat := by omega
  have hbuf : convert_chars 4 (receive s now d).buffer = convert_chars 4 d :=
    convert_chars_RecvFrom s.buffer d (by omega)
  have hseq : convert_chars 8 ((receive s now d).buffer.drop 4) = sequenceOf d :=
    convert_chars_drop_RecvFrom s.buffer d 8 4 (by omega) (by decide)
  have hnh : convert_chars 4 (receive s now d).buffer ≠ MSG_HANDSHAKE := by
    rw [hbuf]
    rcases hty with h | h | h | h <;> rw [h] <;> decide
  obtain ⟨k1, k2, k3, _, k5, k6, _, _, k9⟩ := read_known_slot s hv i now a d hi2 ha hnh
  refine ⟨?_, k5, k6, k2, k3, k9⟩
  have hid : 0 ≤ (getOrAssignTrackerId (receive s now d) a).1 := by
    rw [k1]
    exact Int.ofNat_nonneg i
  obtain ⟨m, r1, r2, r3, _, r5, r6, _⟩ := read_before_dispatch s hv now a d hnh hid
  rw [k1, Int.toNat_ofNat] at r5 r6
  rw [k1] at r1
  rw [r1, hbuf]
  simp only []
  have hle := r2.count_le
  have hmsample : (m.trackers.getD i default).sample = (s.trackers.getD i default).sample := by
    rw [r6]
    rfl
  rcases hty with h | h | h | h
  · rw [h, dispatch_inert m _ _ ⟨by decide, by decide, by decide⟩]
    exact hmsample
  all_goals
    obtain ⟨q1, q2, q3⟩ := dispatch_sensor_slot m (i : Int) (Int.ofNat_nonneg i)
      (by rw [Int.toNat_ofNat, r2.trackers_length]; simp only [MAX_TRACKERS] at hle ⊢; omega)
      (by simp only [MAX_TRACKERS] at hle ⊢; omega)
    rw [Int.toNat_ofNat] at q1 q2 q3
    have hrej2 : convert_chars 8 (m.buffer.drop 4) ≤ (m.trackers.getD i default).current_packet_id ∧
        5 ≤ convert_chars 8 (m.buffer.drop 4) := by
      rw [r3, hseq, r6]
      exact hrej
    rw [h]
    first
    | rw [q1, handle_doubles_packet_rejected _ _ _ _ hrej2]
    | rw [q2, handle_doubles_packet_rejected _ _ _ _ hrej2]
    | rw [q3, handle_doubles_packet_rejected _ _ _ _ hrej2]
    exact hmsample

/-- The server `sequencedServer` is reachable. -/
theorem sequencedServer_reachable : Reachable sequencedServer :=
  Reachable_run _ _ exampleServer_reachable

/-- C14, amended, on `sequencedServer`: the rotation datagram with sequence number 7 is
rejected for slot 0, whose sensor data stay as they are while its contact time becomes
105. -/
theorem guard_rejected_keeps_samples_witness :
    ((more_data_exists__read sequencedServer 105
        (some (exampleClient, staleRotation))).2.trackers.getD 0 default).sample
        = (sequencedServer.trackers.getD 0 default).sample ∧
      (more_data_exists__read sequencedServer 105
        (some (exampleClient, staleRotation))).2.lastContactTime.getD 0 0 = 105 % U64 :=
  ⟨(guard_rejected_keeps_samples sequencedServer sequencedServer_reachable 0 105
      exampleClient staleRotation (by decide) (by decide) (by decide)
      (Or.inr (Or.inl (by decide))) (by decide)).1,
    (guard_rejected_keeps_samples sequencedServer sequencedServer_reachable 0 105
      exampleClient staleRotation (by decide) (by decide) (by decide)
      (Or.inr (Or.inl (by decide))) (by decide)).2.1⟩

/-! ## Sensor packets and the matching buffer -/

/-- A datagram that is not a handshake and resolves to slot `i`: the slot is marked as
heard of and handed to the `switch`, and no other slot is touched. -/
theorem read_sensor (s : UDPDeviceQuatServer) (hv : Valid s) (now : Nat) (a : sockaddr_in)
    (d : List Byte) (i : Nat)
    (hid : (getOrAssignTrackerId (receive s now d) a).1 = (i : Int))
    (hnh : convert_chars 4 (receive s now d).buffer ≠ MSG_HANDSHAKE) :
    (convert_chars 4 (receive s now d).buffer = MSG_ROTATION →
        (more_data_exists__read s now (some (a, d))).2.trackers.getD i default
          = handle_doubles_packet (receive s now d).buffer .quat 4
              { s.trackers.getD i default with
                isConnected := true, lastContactTime := now % U64 }) ∧
      (convert_chars 4 (receive s now d).buffer = MSG_GYRO →
        (more_data_exists__read s now (some (a, d))).2.trackers.getD i default
          = handle_doubles_packet (receive s now d).buffer .gyro 3
              { s.trackers.getD i default with
                isConnected := true, lastContactTime := now % U64 }) ∧
      (convert_chars 4 (receive s now d).buffer = MSG_ACCELEROMETER →
        (more_data_exists__read s now (some (a, d))).2.trackers.getD i default
          = handle_doubles_packet (receive s now d).buffer .accel 3
              { s.trackers.getD i default with
                isConnected := true, lastContactTime := now % U64 }) ∧
      (∀ j, j ≠ i →
        (more_data_exists__read s now (some (a, d))).2.trackers.getD j default
            = s.trackers.getD j default ∧
          (more_data_exists__read s now (some (a, d))).2.connectionIsDead.getD j true
            = s.connectionIsDead.getD j true ∧
          (more_data_exists__read s now (some (a, d))).2.lastContactTime.getD j 0
            = s.lastContactTime.getD j 0 ∧
          (more_data_exists__read s now (some (a, d))).2.clients.getD j default
            = s.clients.getD j default) := by
  have h0 : 0 ≤ (getOrAssignTrackerId (receive s now d) a).1 := by
    rw [hid]
    exact Int.ofNat_nonneg i
  obtain ⟨m, r1, r2, r3, _, r5, r6, _, _, r9⟩ := read_before_dispatch s hv now a d hnh h0
  rw [hid, Int.toNat_ofNat] at r5 r6 r9
  rw [hid] at r1
  rw [r1]
  simp only []
  have hle := r2.count_le
  obtain ⟨q1, q2, q3⟩ := dispatch_sensor_slot m (i : Int) (Int.ofNat_nonneg i)
    (by rw [Int.toNat_ofNat, r2.trackers_length]; simp only [MAX_TRACKERS] at hle ⊢; omega)
    (by simp only [MAX_TRACKERS] at hle ⊢; omega)
  rw [Int.toNat_ofNat, r3, r6] at q1 q2 q3
  refine ⟨fun h => ?_, fun h => ?_, fun h => ?_, fun j hj => ?_⟩
  · rw [h]
    exact q1
  · rw [h]
    exact q2
  · rw [h]
    exact q3
  · obtain ⟨f1, _, _, f4⟩ := dispatch_frame m (convert_chars 4 (receive s now d).buffer) (i : Int)
    rw [Int.toNat_ofNat] at f4
    rw [f4 j hj, f1]
    exact r9 j hj

/-- C20: in a reachable state, a rotation datagram (type 1, at least 28 bytes) that
resolves to slot `i` and whose sequence number the guard accepts leaves in orientation
component `k` of slot `i` the `float` whose big-endian bytes are at the offsets
`12 + 4 k` to `15 + 4 k` of the datagram, sets the fresh-data flag of slot `i` and leaves
its angular-velocity and linear-acceleration buffers and every member of every other slot
unchanged; an accepted gyroscope datagram (type 2, at least 24 bytes) changes only the
three angular-velocity components in the same way, an accepted accelerometer datagram
(type 4) only the three linear-acceleration components, and a heartbeat (type 0) changes
no buffer, sequence number or fresh-data flag of any slot. -/
theorem sensor_packet_updates_matching_buffer (s : UDPDeviceQuatServer) (hs : Reachable s)
    (now : Nat) (a : sockaddr_in) (d : List Byte) :
    (∀ i : Nat, (getOrAssignTrackerId (receive s now d) a).1 = (i : Int) →
        convert_chars 4 d = MSG_ROTATION → 28 ≤ d.length →
        (sequenceOf d > (s.trackers.getD i default).current_packet_id ∨ sequenceOf d < 5) →
        ((more_data_exists__read s now (some (a, d))).2.trackers.getD i default).quat_buffer
            = [float32At d 12, float32At d 16, float32At d 20, float32At d 24] ∧
          ((more_data_exists__read s now (some (a, d))).2.trackers.getD i default).isNewDataAvailable = true ∧
          ((more_data_exists__read s now (some (a, d))).2.trackers.getD i default).current_packet_id = sequenceOf d ∧
          ((more_data_exists__read s now (some (a, d))).2.trackers.getD i default).gyro_buffer
            = (s.trackers.getD i default).gyro_buffer ∧
          ((more_data_exists__read s now (some (a, d))).2.trackers.getD i default).accel_buffer
            = (s.trackers.getD i default).accel_buffer ∧
          (∀ j, j ≠ i →
            (more_data_exists__read s now (some (a, d))).2.trackers.getD j default = s.trackers.getD j default ∧
              (more_data_exists__read s now (some (a, d))).2.connectionIsDead.getD j true
                = s.connectionIsDead.getD j true ∧
              (more_data_exists__read s now (some (a, d))).2.lastContactTime.getD j 0
                = s.lastContactTime.getD j 0 ∧
              (more_data_exists__read s now (some (a, d))).2.clients.getD j default
                = s.clients.getD j default)) ∧
      (∀ i : Nat, (getOrAssignTrackerId (receive s now d) a).1 = (i : Int) →
        convert_chars 4 d = MSG_GYRO → 24 ≤ d.length →
        (sequenceOf d > (s.trackers.getD i default).current_packet_id ∨ sequenceOf d < 5) →
        ((more_data_exists__read s now (some (a, d))).2.trackers.getD i default).gyro_buffer
            = [float32At d 12, float32At d 16, float32At d 20] ∧
          ((more_data_exists__read s now (some (a, d))).2.trackers.getD i default).isNewDataAvailable = true ∧
          ((more_data_exists__read s now (some (a, d))).2.trackers.getD i default).current_packet_id = sequenceOf d ∧
          ((more_data_exists__read s now (some (a, d))).2.trackers.getD i default).quat_buffer
            = (s.trackers.getD i default).quat_buffer ∧
          ((more_data_exists__read s now (some (a, d))).2.trackers.getD i default).accel_buffer
            = (s.trackers.getD i default).accel_buffer ∧
          (∀ j, j ≠ i →
            (more_data_exists__read s now (some (a, d))).2.trackers.getD j default = s.trackers.getD j default ∧
              (more_data_exists__read s now (some (a, d))).2.connectionIsDead.getD j true
                = s.connectionIsDead.getD j true ∧
              (more_data_exists__read s now (some (a, d))).2.lastContactTime.getD j 0
                = s.lastContactTime.getD j 0 ∧
              (more_data_exists__read s now (some (a, d))).2.clients.getD j default
                = s.clients.getD j default)) ∧
      (∀ i : Nat, (getOrAssignTrackerId (receive s now d) a).1 = (i : Int) →
        convert_chars 4 d = MSG_ACCELEROMETER → 24 ≤ d.length →
        (sequenceOf d > (s.trackers.getD i default).current_packet_id ∨ sequenceOf d < 5) →
        ((more_data_exists__read s now (some (a, d))).2.trackers.getD i default).accel_buffer
            = [float32At d 12, float32At d 16, float32At d 20] ∧
          ((more_data_exists__read s now (some (a, d))).2.trackers.getD i default).isNewDataAvailable = true ∧
          ((more_data_exists__read s now (some (a, d))).2.trackers.getD i default).current_packet_id = sequenceOf d ∧
          ((more_data_exists__read s now (some (a, d))).2.trackers.getD i default).quat_buffer
            = (s.trackers.getD i default).quat_buffer ∧
          ((more_data_exists__read s now (some (a, d))).2.trackers.getD i default).gyro_buffer
            = (s.trackers.getD i default).gyro_buffer ∧
          (∀ j, j ≠ i →
            (more_data_exists__read s now (some (a, d))).2.trackers.getD j default = s.trackers.getD j default ∧
              (more_data_exists__read s now (some (a, d))).2.connectionIsDead.getD j true
                = s.connectionIsDead.getD j true ∧
              (more_data_exists__read s now (some (a, d))).2.lastContactTime.getD j 0
                = s.lastContactTime.getD j 0 ∧
              (more_data_exists__read s now (some (a, d))).2.clients.getD j default
                = s.clients.getD j default)) ∧
      (convert_chars 4 d = MSG_HEARTBEAT → 4 ≤ d.length →
        ∀ j, ((more_data_exists__read s now (some (a, d))).2.trackers.getD j default).sample
          = (s.trackers.getD j default).sample) := by
  have hv := Reachable_valid s hs
  have hsz := Reachable_sized s hs
  have hbuf : 4 ≤ d.length → convert_chars 4 (receive s now d).buffer = convert_chars 4 d :=
    fun h => convert_chars_RecvFrom s.buffer d h
  have hfield : ∀ k o, o + k ≤ d.length → o + k ≤ MAX_MSG_SIZE →
      convert_chars k ((receive s now d).buffer.drop o) = convert_chars k (d.drop o) :=
    fun k o h1 h2 => convert_chars_drop_RecvFrom s.buffer d k o h1 h2
  refine ⟨?_, ?_, ?_, ?_⟩
  · intro i hid hty hlen hacc
    have hty2 : convert_chars 4 (receive s now d).buffer = MSG_ROTATION := by
      rw [hbuf (by omega), hty]
    obtain ⟨k1, _, _, k4⟩ := read_sensor s hv now a d i hid (by rw [hty2]; decide)
    have hacc2 : convert_chars 8 ((receive s now d).buffer.drop 4)
          > ({ s.trackers.getD i default with
              isConnected := true, lastContactTime := now % U64 } : TrackerData).current_packet_id ∨
        convert_chars 8 ((receive s now d).buffer.drop 4) < 5 := by
      rw [hfield 8 4 (by omega) (by decide)]
      exact hacc
    have hq := handle_rotation_accepted (receive s now d).buffer
      { s.trackers.getD i default with isConnected := true, lastContactTime := now % U64 }
      (hsz i).1 hacc2
    rw [hfield 8 4 (by omega) (by decide), hfield 4 12 (by omega) (by decide),
      hfield 4 16 (by omega) (by decide), hfield 4 20 (by omega) (by decide), hfield 4 24 (by omega) (by decide)] at hq
    simp only [convert_chars_float32At] at hq
    rw [k1 hty2, hq]
    exact ⟨rfl, rfl, rfl, rfl, rfl, k4⟩
  · intro i hid hty hlen hacc
    have hty2 : convert_chars 4 (receive s now d).buffer = MSG_GYRO := by
      rw [hbuf (by omega), hty]
    obtain ⟨_, k1, _, k4⟩ := read_sensor s hv now a d i hid (by rw [hty2]; decide)
    have hacc2 : convert_chars 8 ((receive s now d).buffer.drop 4)
          > ({ s.trackers.getD i default with
              isConnected := true, lastContactTime := now % U64 } : TrackerData).current_packet_id ∨
        convert_chars 8 ((receive s now d).buffer.drop 4) < 5 := by
      rw [hfield 8 4 (by omega) (by decide)]
      exact hacc
    have hq := handle_gyro_accepted (receive s now d).buffer
      { s.trackers.getD i default with isConnected := true, lastContactTime := now % U64 }
      (hsz i).2.1 hacc2
    rw [hfield 8 4 (by omega) (by decide), hfield 4 12 (by omega) (by decide),
      hfield 4 16 (by omega) (by decide), hfield 4 20 (by omega) (by decide)] at hq
    simp only [convert_chars_float32At] at hq
    rw [k1 hty2, hq]
    exact ⟨rfl, rfl, rfl, rfl, rfl, k4⟩
  · intro i hid hty hlen hacc
    have hty2 : convert_chars 4 (receive s now d).buffer = MSG_ACCELEROMETER := by
      rw [hbuf (by omega), hty]
    obtain ⟨_, _, k1, k4⟩ := read_sensor s hv now a d i hid (by rw [hty2]; decide)
    have hacc2 : convert_chars 8 ((receive s now d).buffer.drop 4)
          > ({ s.trackers.getD i default with
              isConnected := true, lastContactTime := now % U64 } : TrackerData).current_packet_id ∨
        convert_chars 8 ((receive s now d).buffer.drop 4) < 5 := by
      rw [hfield 8 4 (by omega) (by decide)]
      exact hacc
    have hq := handle_accel_accepted (receive s now d).buffer
      { s.trackers.getD i default with isConnected := true, lastContactTime := now % U64 }
      (hsz i).2.2 hacc2
    rw [hfield 8 4 (by omega) (by decide), hfield 4 12 (by omega) (by decide),
      hfield 4 16 (by omega) (by decide), hfield 4 20 (by omega) (by decide)] at hq
    simp only [convert_chars_float32At] at hq
    rw [k1 hty2, hq]
    exact ⟨rfl, rfl, rfl, rfl, rfl, k4⟩
  · intro hty hlen j
    have hty2 : convert_chars 4 (receive s now d).buffer = MSG_HEARTBEAT := by
      rw [hbuf hlen, hty]
    have hnh : convert_chars 4 (receive s now d).buffer ≠ MSG_HANDSHAKE := by
      rw [hty2]
      decide
    by_cases h : 0 ≤ (getOrAssignTrackerId (receive s now d) a).1
    · obtain ⟨m, r1, _, _, _, _, r6, _, _, r9⟩ := read_before_dispatch s hv now a d hnh h
      rw [r1, hty2, dispatch_inert m _ _ ⟨by decide, by decide, by decide⟩]
      simp only []
      by_cases hj : j = (getOrAssignTrackerId (receive s now d) a).1.toNat
      · rw [hj, r6]
        rfl
      · rw [(r9 j hj).1]
    · have hneg := not_le.1 h
      rw [read_not_handshake s now a d hnh, if_pos hneg]
      rcases getOrAssign_cases (receive s now d) a with ⟨i, _, _, _, g4⟩ | ⟨_, _, g3⟩ | ⟨_, _, g3⟩
      · rw [g4] at hneg
        exact absurd hneg (by simp)
      · rw [g3] at hneg
        exact absurd hneg (not_lt.2 hv.count_nonneg)
      · rw [g3]
        rfl

/-- C20 on `exampleServer`: the rotation datagram with sequence number 9 and quaternion
`(0, 0, 0, 1)` from `exampleClient` is accepted for slot 0, whose orientation buffer then
holds the four components and whose fresh-data flag is set. -/
theorem sensor_packet_updates_matching_buffer_witness :
    ((more_data_exists__read exampleServer 100
        (some (exampleClient, exampleRotation))).2.trackers.getD 0 default).quat_buffer
        = [0, 0, 0, 0x3F800000] ∧
      ((more_data_exists__read exampleServer 100
        (some (exampleClient, exampleRotation))).2.trackers.getD 0 default).isNewDataAvailable
        = true :=
  ⟨((sensor_packet_updates_matching_buffer exampleServer exampleServer_reachable 100
      exampleClient exampleRotation).1 0 (by decide) (by decide) (by decide)
      (by decide)).1,
    ((sensor_packet_updates_matching_buffer exampleServer exampleServer_reachable 100
      exampleClient exampleRotation).1 0 (by decide) (by decide) (by decide)
      (by decide)).2.1⟩

/-! ## Discovery matching -/

/-- One step of `strcmp` against a character that is not the zero byte. -/
theorem strcmp_cons_nonzero (c1 c2 : Byte) (r1 r2 : List Byte) (h : c2.val ≠ 0) :
    strcmp (c1 :: r1) (c2 :: r2) = 0 ↔ c1 = c2 ∧ strcmp r1 r2 = 0 := by
  rw [strcmp]
  by_cases hc : c1 = c2
  · subst hc
    simp only [ne_eq, not_true_eq_false, if_false, if_neg h, true_and]
  · have hv : (c1.val : Int) - (c2.val : Int) ≠ 0 := by
      intro he
      apply hc
      apply Fin.ext
      omega
    simp only [ne_eq, hc, not_false_eq_true, if_true, hv, false_and]

/-- One step of `strcmp` against the zero byte. -/
theorem strcmp_cons_zero (c1 : Byte) (r1 r2 : List Byte) :
    strcmp (c1 :: r1) (0 :: r2) = 0 ↔ c1 = 0 := by
  rw [strcmp]
  by_cases hc : c1 = 0
  · subst hc
    simp
  · have hv : (c1.val : Int) - (((0 : Byte)).val : Int) ≠ 0 := by
      intro he
      apply hc
      apply Fin.ext
      have : ((0 : Byte)).val = 0 := rfl
      omega
    simp only [ne_eq, hc, not_false_eq_true, if_true, hv]

/-- The comparison with the literal succeeds exactly when the array starts with
`DISCOVERY` and a zero byte. -/
theorem strcmp_discoveryLiteral (b : List Byte) (h : 10 ≤ b.length) :
    strcmp b discoveryLiteral = 0 ↔ b.take 10 = discoveryRequest := by
  match b, h with
  | b0 :: b1 :: b2 :: b3 :: b4 :: b5 :: b6 :: b7 :: b8 :: b9 :: rest, _ =>
    simp only [discoveryLiteral, discoveryRequest, List.take_succ_cons, List.take_zero,
      List.cons.injEq, and_true]
    rw [strcmp_cons_nonzero b0 68 _ _ (by decide), strcmp_cons_nonzero b1 73 _ _ (by decide),
      strcmp_cons_nonzero b2 83 _ _ (by decide), strcmp_cons_nonzero b3 67 _ _ (by decide),
      strcmp_cons_nonzero b4 79 _ _ (by decide), strcmp_cons_nonzero b5 86 _ _ (by decide),
      strcmp_cons_nonzero b6 69 _ _ (by decide), strcmp_cons_nonzero b7 82 _ _ (by decide),
      strcmp_cons_nonzero b8 89 _ _ (by decide), strcmp_cons_zero b9 _ _]

/-- The first bytes of the buffer after a datagram that is at least as long. -/
theorem take_RecvFrom (buffer datagram : List Byte) (len k : Nat) (h1 : k ≤ datagram.length)
    (h2 : k ≤ len) : (RecvFrom buffer len datagram).take k = datagram.take k := by
  unfold RecvFrom
  rw [List.take_append_of_le_length (by rw [List.length_take]; omega), List.take_take]
  congr 1
  omega

/-- Every buffer of the right size that starts with the bytes of the datagram is what
`RecvFrom` yields from some previous content, namely from itself: a statement made for
every previous content of the buffer covers whatever lies behind the datagram after the
call. -/
theorem RecvFrom_covers (r datagram : List Byte) (len : Nat) (h1 : r.length = len)
    (h2 : r.take datagram.length = datagram.take len) : RecvFrom r len datagram = r := by
  unfold RecvFrom
  by_cases h : datagram.length ≤ len
  · rw [List.take_of_length_le h] at h2 ⊢
    nth_rewrite 1 [← h2]
    exact List.take_append_drop _ _
  · rw [List.take_of_length_le (by omega)] at h2
    rw [← h2, List.drop_of_length_le (le_refl _), List.append_nil]

/-- C16 fails as stated: the freshly constructed responder replies to a datagram of 13
bytes that holds `DISCOVERY`, a zero byte and the letters `abc`. -/
theorem discovery_matching_counterexample :
    paddedDiscovery.length = 13 ∧
      paddedDiscovery.take 10 = discoveryRequest ∧
      exampleInfoServer.sent = [] ∧
      (exampleInfoServer.respond_to_all_requests (some (exampleClient, paddedDiscovery))).2.sent
        = [(exampleClient, exampleInfoServer.response_info)] :=
  ⟨rfl, rfl, rfl, rfl⟩

/-- C16, amended: for every state of the discovery responder, whatever its 64-byte buffer
holds, and every received datagram, `respond_to_all_requests` returns true and sends
either nothing or one reply, the response string, to the requester; it replies if and
only if the buffer begins, after the call, with the nine letters `DISCOVERY` followed by
a zero byte. For a datagram of at least 10 bytes that is the case exactly when the
datagram begins with these ten bytes, whatever follows them; a shorter datagram whose
bytes are not the first bytes of these ten gets no reply. -/
theorem discovery_matching (s : InfoServer) (hb : s.buff.length = InfoServer.MAX_BUFF_SIZE)
    (addr : sockaddr_in) (d : List Byte) :
    (s.respond_to_all_requests (some (addr, d))).1 = true ∧
      ((s.respond_to_all_requests (some (addr, d))).2.sent = s.sent ∨
        (s.respond_to_all_requests (some (addr, d))).2.sent
          = s.sent ++ [(addr, s.response_info)]) ∧
      ((s.respond_to_all_requests (some (addr, d))).2.sent
          = s.sent ++ [(addr, s.response_info)] ↔
        (s.respond_to_all_requests (some (addr, d))).2.buff.take 10 = discoveryRequest) ∧
      (10 ≤ d.length →
        ((s.respond_to_all_requests (some (addr, d))).2.sent
            = s.sent ++ [(addr, s.response_info)] ↔
          d.take 10 = discoveryRequest)) ∧
      (d.length < 10 → d ≠ discoveryRequest.take d.length →
        (s.respond_to_all_requests (some (addr, d))).2.sent = s.sent) := by
  have hlen : 10 ≤ (RecvFrom s.buff InfoServer.MAX_BUFF_SIZE d).length := by
    rw [RecvFrom_length _ _ _ hb]
    decide
  have hcmp := strcmp_discoveryLiteral _ hlen
  have hbuff : (s.respond_to_all_requests (some (addr, d))).2.buff
      = RecvFrom s.buff InfoServer.MAX_BUFF_SIZE d := by
    unfold InfoServer.respond_to_all_requests
    simp only []
    split_ifs <;> rfl
  have hcases : (strcmp (RecvFrom s.buff InfoServer.MAX_BUFF_SIZE d) discoveryLiteral = 0 ∧
        (s.respond_to_all_requests (some (addr, d))).2.sent
          = s.sent ++ [(addr, s.response_info)]) ∨
      (¬ strcmp (RecvFrom s.buff InfoServer.MAX_BUFF_SIZE d) discoveryLiteral = 0 ∧
        (s.respond_to_all_requests (some (addr, d))).2.sent = s.sent) := by
    unfold InfoServer.respond_to_all_requests
    simp only []
    split_ifs with h
    · exact Or.inl ⟨h, rfl⟩
    · exact Or.inr ⟨h, rfl⟩
  have hne : s.sent ≠ s.sent ++ [(addr, s.response_info)] := by
    intro hc
    have := congrArg List.length hc
    simp at this
  have key : (s.respond_to_all_requests (some (addr, d))).2.sent
        = s.sent ++ [(addr, s.response_info)] ↔
      (RecvFrom s.buff InfoServer.MAX_BUFF_SIZE d).take 10 = discoveryRequest := by
    rw [← hcmp]
    rcases hcases with ⟨h, hs⟩ | ⟨h, hs⟩
    · exact ⟨fun _ => h, fun _ => hs⟩
    · rw [hs]
      exact ⟨fun hc => absurd hc hne, fun hc => absurd hc h⟩
  refine ⟨?_, ?_, ?_, ?_, ?_⟩
  · unfold InfoServer.respond_to_all_requests
    simp only []
    split_ifs <;> rfl
  · rcases hcases with ⟨_, hs⟩ | ⟨_, hs⟩
    · exact Or.inr hs
    · exact Or.inl hs
  · rw [hbuff]
    exact key
  · intro h10
    rw [key, take_RecvFrom _ _ _ _ h10 (by decide)]
  · intro h10 hd
    rcases hcases with ⟨h, _⟩ | ⟨_, hs⟩
    · exfalso
      apply hd
      have h1 := hcmp.1 h
      have h2 := take_RecvFrom s.buff d InfoServer.MAX_BUFF_SIZE d.length le_rfl
        (by simp only [InfoServer.MAX_BUFF_SIZE]; omega)
      rw [List.take_of_length_le (le_refl d.length)] at h2
      calc d = (RecvFrom s.buff InfoServer.MAX_BUFF_SIZE d).take d.length := h2.symm
        _ = ((RecvFrom s.buff InfoServer.MAX_BUFF_SIZE d).take 10).take d.length := by
          rw [List.take_take, Nat.min_eq_left (by omega)]
        _ = discoveryRequest.take d.length := by rw [h1]
    · exact hs

/-- C16, amended, on the example: the freshly constructed responder replies to
`paddedDiscovery`, whose first ten bytes are `DISCOVERY` and a zero byte. -/
theorem discovery_matching_witness :
    (exampleInfoServer.respond_to_all_requests (some (exampleClient, paddedDiscovery))).2.sent
      = exampleInfoServer.sent ++ [(exampleClient, exampleInfoServer.response_info)] :=
  ((discovery_matching exampleInfoServer (List.length_replicate 64 0) exampleClient
    paddedDiscovery).2.2.2.1 (by decide)).2 (by decide)

/-! ## Truncated datagrams -/

/-- A datagram that is not a handshake, from an address no assigned slot holds, while a
slot is free: the next slot is assigned to the address, connected and alive, with the
clock reading as contact time. -/
theorem read_new_address (s : UDPDeviceQuatServer) (hv : Valid s) (now : Nat)
    (a : sockaddr_in) (d : List Byte)
    (hnone : ∀ j, j < s.activeTrackerCount.toNat →
      isSameClient (s.clients.getD j default) a = false)
    (hspace : s.activeTrackerCount < MAX_TRACKERS)
    (hnh : convert_chars 4 (receive s now d).buffer ≠ MSG_HANDSHAKE) :
    (getOrAssignTrackerId (receive s now d) a).1 = s.activeTrackerCount ∧
      (more_data_exists__read s now (some (a, d))).2.activeTrackerCount
        = s.activeTrackerCount + 1 ∧
      (more_data_exists__read s now (some (a, d))).2.clients.getD
        s.activeTrackerCount.toNat default = a ∧
      isTrackerConnected (more_data_exists__read s now (some (a, d))).2
        s.activeTrackerCount = true ∧
      isConnectionAlive (more_data_exists__read s now (some (a, d))).2
        s.activeTrackerCount = true ∧
      (more_data_exists__read s now (some (a, d))).2.lastContactTime.getD
        s.activeTrackerCount.toNat 0 = now % U64 := by
  have h0 := hv.count_nonneg
  have hlt : s.activeTrackerCount.toNat < MAX_TRACKERS := by
    simp only [MAX_TRACKERS] at hspace ⊢
    omega
  have hr : ¬ (s.activeTrackerCount < 0 ∨ s.activeTrackerCount ≥ MAX_TRACKERS) := by
    simp only [MAX_TRACKERS] at hspace ⊢
    omega
  have hg : getOrAssignTrackerId (receive s now d) a
      = (s.activeTrackerCount, assignSlot (receive s now d) a) := by
    rcases getOrAssign_cases (receive s now d) a with ⟨i, g1, g2, _, _⟩ | ⟨_, _, g3⟩ | ⟨_, g2, _⟩
    · have hf : isSameClient ((receive s now d).clients.getD i default) a = false :=
        hnone i g1
      rw [hf] at g2
      exact absurd g2 (by simp)
    · exact g3
    · exact absurd hspace g2
  have hread : more_data_exists__read s now (some (a, d))
      = (true, dispatch (markContact (assignSlot (receive s now d) a)
          s.activeTrackerCount.toNat) (convert_chars 4 (receive s now d).buffer)
          s.activeTrackerCount) := by
    rw [read_not_handshake s now a d hnh, hg]
    simp only []
    rw [if_neg (not_lt.2 h0)]
  have hvf := Valid_read s now (some (a, d)) hv
  rw [hread] at hvf ⊢
  simp only [] at hvf ⊢
  obtain ⟨d1, d2, d3, d4, _⟩ := dispatch_table
    (markContact (assignSlot (receive s now d) a) s.activeTrackerCount.toNat)
    (convert_chars 4 (receive s now d).buffer) s.activeTrackerCount
  have hdead : (dispatch (markContact (assignSlot (receive s now d) a)
      s.activeTrackerCount.toNat) (convert_chars 4 (receive s now d).buffer)
      s.activeTrackerCount).connectionIsDead.getD s.activeTrackerCount.toNat true = false := by
    rw [d4]
    simp only [markContact, assignSlot, receive]
    exact getD_set_self _ _ _ _ (by
      rw [List.length_set, hv.connectionIsDead_length]
      exact hlt)
  refine ⟨by rw [hg], ?_, ?_, ?_, ?_, ?_⟩
  · rw [d1]
    rfl
  · rw [d2]
    simp only [markContact, assignSlot, receive]
    exact getD_set_self _ _ _ _ (by rw [hv.clients_length]; exact hlt)
  · unfold isTrackerConnected
    rw [if_neg hr, hvf.connected_iff _ hlt, hdead]
    rfl
  · unfold isConnectionAlive
    rw [if_neg hr, hdead]
    rfl
  · rw [d3]
    simp only [markContact, assignSlot, receive]
    exact getD_set_self _ _ _ _ (by
      rw [List.length_set, hv.lastContactTime_length]
      exact hlt)

/-- C15 fails as stated: a datagram of four bytes that holds the type field of a rotation
message and nothing else makes a freshly constructed server assign slot 0 to its source
and mark the slot connected and alive. -/
theorem truncated_datagram_counterexample :
    truncatedRotation.length = 4 ∧
      (UDPDeviceQuatServer.new 0 exampleBuffer).activeTrackerCount = 0 ∧
      (more_data_exists__read (UDPDeviceQuatServer.new 0 exampleBuffer) 100
        (some (exampleClient, truncatedRotation))).2.activeTrackerCount = 1 ∧
      isTrackerConnected (UDPDeviceQuatServer.new 0 exampleBuffer) 0 = false ∧
      isTrackerConnected (more_data_exists__read (UDPDeviceQuatServer.new 0 exampleBuffer) 100
        (some (exampleClient, truncatedRotation))).2 0 = true ∧
      isConnectionAlive (UDPDeviceQuatServer.new 0 exampleBuffer) 0 = false ∧
      isConnectionAlive (more_data_exists__read (UDPDeviceQuatServer.new 0 exampleBuffer) 100
        (some (exampleClient, truncatedRotation))).2 0 = true := by
  decide

/-- C15, amended: the length of a datagram is never examined. In every reachable state,
whatever the 256-byte receive buffer holds, a datagram of at least 4 bytes that is not a
handshake is processed whatever its length: a datagram from the address of an assigned
slot makes that slot connected and alive with the clock reading as contact time; a
datagram from a new address, while a slot is free, is assigned the next slot, connected
and alive; and when the datagram has its 12 bytes of header, resolves to slot `i`, is of
a sensor type and the guard accepts its sequence number, the sequence number of slot `i`
is replaced, its fresh-data flag is set, and every component that lies within the
datagram is decoded from it into the buffer of the message type. -/
theorem truncated_datagram_processed (s : UDPDeviceQuatServer) (hs : Reachable s)
    (b : List Byte) (hb : b.length = MAX_MSG_SIZE) (now : Nat) (a : sockaddr_in)
    (d : List Byte) (hlen : 4 ≤ d.length) (hty : convert_chars 4 d ≠ MSG_HANDSHAKE) :
    (∀ i : Nat, (i : Int) < s.activeTrackerCount →
        isSameClient (s.clients.getD i default) a = true →
        isTrackerConnected (more_data_exists__read { s with buffer := b } now (some (a, d))).2 (i : Int) = true ∧
          isConnectionAlive (more_data_exists__read { s with buffer := b } now (some (a, d))).2 (i : Int) = true ∧
          (more_data_exists__read { s with buffer := b } now (some (a, d))).2.lastContactTime.getD i 0
            = now % U64 ∧
          (more_data_exists__read { s with buffer := b } now (some (a, d))).2.activeTrackerCount
            = s.activeTrackerCount ∧
          (more_data_exists__read { s with buffer := b } now (some (a, d))).2.clients = s.clients) ∧
      ((∀ j, j < s.activeTrackerCount.toNat →
          isSameClient (s.clients.getD j default) a = false) →
        s.activeTrackerCount < MAX_TRACKERS →
        (more_data_exists__read { s with buffer := b } now (some (a, d))).2.activeTrackerCount
            = s.activeTrackerCount + 1 ∧
          (more_data_exists__read { s with buffer := b } now (some (a, d))).2.clients.getD
            s.activeTrackerCount.toNat default = a ∧
          isTrackerConnected (more_data_exists__read { s with buffer := b } now (some (a, d))).2
            s.activeTrackerCount = true ∧
          isConnectionAlive (more_data_exists__read { s with buffer := b } now (some (a, d))).2
            s.activeTrackerCount = true ∧
          (more_data_exists__read { s with buffer := b } now (some (a, d))).2.lastContactTime.getD
            s.activeTrackerCount.toNat 0 = now % U64) ∧
      (∀ i : Nat,
        (getOrAssignTrackerId (receive { s with buffer := b } now d) a).1 = (i : Int) →
        12 ≤ d.length →
        (sequenceOf d > (s.trackers.getD i default).current_packet_id ∨ sequenceOf d < 5) →
        (convert_chars 4 d = MSG_ROTATION →
          ((more_data_exists__read { s with buffer := b } now (some (a, d))).2.trackers.getD i
              default).current_packet_id = sequenceOf d ∧
            ((more_data_exists__read { s with buffer := b } now (some (a, d))).2.trackers.getD i
              default).isNewDataAvailable = true ∧
            ∀ k, k < 4 → 16 + 4 * k ≤ d.length →
              ((more_data_exists__read { s with buffer := b } now (some (a, d))).2.trackers.getD i
                default).quat_buffer.getD k 0 = float32At d (12 + 4 * k)) ∧
        (convert_chars 4 d = MSG_GYRO →
          ((more_data_exists__read { s with buffer := b } now (some (a, d))).2.trackers.getD i
              default).current_packet_id = sequenceOf d ∧
            ((more_data_exists__read { s with buffer := b } now (some (a, d))).2.trackers.getD i
              default).isNewDataAvailable = true ∧
            ∀ k, k < 3 → 16 + 4 * k ≤ d.length →
              ((more_data_exists__read { s with buffer := b } now (some (a, d))).2.trackers.getD i
                default).gyro_buffer.getD k 0 = float32At d (12 + 4 * k)) ∧
        (convert_chars 4 d = MSG_ACCELEROMETER →
          ((more_data_exists__read { s with buffer := b } now (some (a, d))).2.trackers.getD i
              default).current_packet_id = sequenceOf d ∧
            ((more_data_exists__read { s with buffer := b } now (some (a, d))).2.trackers.getD i
              default).isNewDataAvailable = true ∧
            ∀ k, k < 3 → 16 + 4 * k ≤ d.length →
              ((more_data_exists__read { s with buffer := b } now (some (a, d))).2.trackers.getD i
                default).accel_buffer.getD k 0 = float32At d (12 + 4 * k))) := by
  have hv := Reachable_valid s hs
  have hsz := Reachable_sized s hs
  have hvt : Valid ({ s with buffer := b } : UDPDeviceQuatServer) :=
    Valid_congr s _ hv rfl rfl rfl rfl (hb.trans hv.buffer_length.symm) rfl
      ⟨hv.hb_lower, hv.hb_upper⟩ (fun _ => rfl)
  have hbuf : convert_chars 4 (receive { s with buffer := b } now d).buffer = convert_chars 4 d :=
    convert_chars_RecvFrom b d hlen
  have hnh : convert_chars 4 (receive { s with buffer := b } now d).buffer ≠ MSG_HANDSHAKE := by
    rw [hbuf]
    exact hty
  have hfield : ∀ k o, o + k ≤ d.length → o + k ≤ MAX_MSG_SIZE →
      convert_chars k ((receive { s with buffer := b } now d).buffer.drop o)
        = convert_chars k (d.drop o) :=
    fun k o h1 h2 => convert_chars_drop_RecvFrom b d k o h1 h2
  refine ⟨?_, ?_, ?_⟩
  · intro i hi ha
    obtain ⟨_, k2, k3, _, k5, _, k7, k8, _⟩ :=
      read_known_slot { s with buffer := b } hvt i now a d (by
        show i < s.activeTrackerCount.toNat
        omega) ha hnh
    exact ⟨k2, k3, k5, k7, k8⟩
  · intro hnone hspace
    obtain ⟨_, n2, n3, n4, n5, n6⟩ :=
      read_new_address { s with buffer := b } hvt now a d hnone hspace hnh
    exact ⟨n2, n3, n4, n5, n6⟩
  · intro i hid h12 hacc
    obtain ⟨k1, k2, k3, _⟩ := read_sensor { s with buffer := b } hvt now a d i hid hnh
    have hacc2 : convert_chars 8 ((receive { s with buffer := b } now d).buffer.drop 4)
          > ({ s.trackers.getD i default with
              isConnected := true, lastContactTime := now % U64 } : TrackerData).current_packet_id ∨
        convert_chars 8 ((receive { s with buffer := b } now d).buffer.drop 4) < 5 := by
      rw [hfield 8 4 (by omega) (by decide)]
      exact hacc
    refine ⟨?_, ?_, ?_⟩
    · intro hm
      have hty2 : convert_chars 4 (receive { s with buffer := b } now d).buffer = MSG_ROTATION := by
        rw [hbuf, hm]
      have hq := handle_rotation_accepted (receive { s with buffer := b } now d).buffer
        { s.trackers.getD i default with isConnected := true, lastContactTime := now % U64 }
        (hsz i).1 hacc2
      rw [hfield 8 4 (by omega) (by decide)] at hq
      rw [k1 hty2, hq]
      refine ⟨rfl, rfl, ?_⟩
      intro k hk hlenk
      have hcase : k = 0 ∨ k = 1 ∨ k = 2 ∨ k = 3 := by omega
      rcases hcase with rfl | rfl | rfl | rfl
      · show convert_chars 4 ((receive { s with buffer := b } now d).buffer.drop 12) = float32At d 12
        rw [hfield 4 12 (by omega) (by decide), convert_chars_float32At]
      · show convert_chars 4 ((receive { s with buffer := b } now d).buffer.drop 16) = float32At d 16
        rw [hfield 4 16 (by omega) (by decide), convert_chars_float32At]
      · show convert_chars 4 ((receive { s with buffer := b } now d).buffer.drop 20) = float32At d 20
        rw [hfield 4 20 (by omega) (by decide), convert_chars_float32At]
      · show convert_chars 4 ((receive { s with buffer := b } now d).buffer.drop 24) = float32At d 24
        rw [hfield 4 24 (by omega) (by decide), convert_chars_float32At]
    · intro hm
      have hty2 : convert_chars 4 (receive { s with buffer := b } now d).buffer = MSG_GYRO := by
        rw [hbuf, hm]
      have hq := handle_gyro_accepted (receive { s with buffer := b } now d).buffer
        { s.trackers.getD i default with isConnected := true, lastContactTime := now % U64 }
        (hsz i).2.1 hacc2
      rw [hfield 8 4 (by omega) (by decide)] at hq
      rw [k2 hty2, hq]
      refine ⟨rfl, rfl, ?_⟩
      intro k hk hlenk
      have hcase : k = 0 ∨ k = 1 ∨ k = 2 := by omega
      rcases hcase with rfl | rfl | rfl
      · show convert_chars 4 ((receive { s with buffer := b } now d).buffer.drop 12) = float32At d 12
        rw [hfield 4 12 (by omega) (by decide), convert_chars_float32At]
      · show convert_chars 4 ((receive { s with buffer := b } now d).buffer.drop 16) = float32At d 16
        rw [hfield 4 16 (by omega) (by decide), convert_chars_float32At]
      · show convert_chars 4 ((receive { s with buffer := b } now d).buffer.drop 20) = float32At d 20
        rw [hfield 4 20 (by omega) (by decide), convert_chars_float32At]
    · intro hm
      have hty2 : convert_chars 4 (receive { s with buffer := b } now d).buffer = MSG_ACCELEROMETER := by
        rw [hbuf, hm]
      have hq := handle_accel_accepted (receive { s with buffer := b } now d).buffer
        { s.trackers.getD i default with isConnected := true, lastContactTime := now % U64 }
        (hsz i).2.2 hacc2
      rw [hfield 8 4 (by omega) (by decide)] at hq
      rw [k3 hty2, hq]
      refine ⟨rfl, rfl, ?_⟩
      intro k hk hlenk
      have hcase : k = 0 ∨ k = 1 ∨ k = 2 := by omega
      rcases hcase with rfl | rfl | rfl
      · show convert_chars 4 ((receive { s with buffer := b } now d).buffer.drop 12) = float32At d 12
        rw [hfield 4 12 (by omega) (by decide), convert_chars_float32At]
      · show convert_chars 4 ((receive { s with buffer := b } now d).buffer.drop 16) = float32At d 16
        rw [hfield 4 16 (by omega) (by decide), convert_chars_float32At]
      · show convert_chars 4 ((receive { s with buffer := b } now d).buffer.drop 20) = float32At d 20
        rw [hfield 4 20 (by omega) (by decide), convert_chars_float32At]

/-- C15, amended, on the example: a rotation datagram cut off after its first component,
from `otherClient`, a new address, makes `exampleServer` assign slot 1 to it, store the
sequence number 9 and the component there and set the fresh-data flag. -/
theorem truncated_datagram_processed_witness :
    shortRotation.length = 16 ∧
      (more_data_exists__read { exampleServer with buffer := exampleBuffer } 101
        (some (otherClient, shortRotation))).2.activeTrackerCount
        = exampleServer.activeTrackerCount + 1 ∧
      ((more_data_exists__read { exampleServer with buffer := exampleBuffer } 101
        (some (otherClient, shortRotation))).2.trackers.getD 1 default).current_packet_id
        = sequenceOf shortRotation ∧
      ((more_data_exists__read { exampleServer with buffer := exampleBuffer } 101
        (some (otherClient, shortRotation))).2.trackers.getD 1
          default).isNewDataAvailable = true ∧
      ((more_data_exists__read { exampleServer with buffer := exampleBuffer } 101
        (some (otherClient, shortRotation))).2.trackers.getD 1 default).quat_buffer.getD 0 0
        = float32At shortRotation (12 + 4 * 0) :=
  ⟨rfl,
    ((truncated_datagram_processed exampleServer exampleServer_reachable exampleBuffer
      (List.length_replicate 256 0) 101 otherClient shortRotation (by decide)
      (by decide)).2.1 (by decide) (by decide)).1,
    (((truncated_datagram_processed exampleServer exampleServer_reachable exampleBuffer
      (List.length_replicate 256 0) 101 otherClient shortRotation (by decide)
      (by decide)).2.2 1 (by decide) (by decide) (by decide)).1 (by decide)).1,
    (((truncated_datagram_processed exampleServer exampleServer_reachable exampleBuffer
      (List.length_replicate 256 0) 101 otherClient shortRotation (by decide)
      (by decide)).2.2 1 (by decide) (by decide) (by decide)).1 (by decide)).2.1,
    (((truncated_datagram_processed exampleServer exampleServer_reachable exampleBuffer
      (List.length_replicate 256 0) 101 otherClient shortRotation (by decide)
      (by decide)).2.2 1 (by decide) (by decide) (by decide)).1 (by decide)).2.2 0
      (by decide) (by decide)⟩

/-! ## Heartbeat period -/

/-- A call of `more_data_exists__read` leaves `hb_accum` and sends no heartbeat command. -/
theorem read_heartbeats (s : UDPDeviceQuatServer) (now : Nat)
    (recv : Option (sockaddr_in × List Byte)) :
    (more_data_exists__read s now recv).2.hb_accum = s.hb_accum ∧
      ∀ c, heartbeatsSentTo (more_data_exists__read s now recv).2 c = heartbeatsSentTo s c := by
  cases recv with
  | none => exact ⟨rfl, fun _ => rfl⟩
  | some r =>
    obtain ⟨a, d⟩ := r
    rw [more_data_exists__read_some]
    obtain ⟨_, _, g3, g4⟩ := getOrAssign_buffer (receive s now d) a
    obtain ⟨_, _, _, _, d5, _, _, d8⟩ := dispatch_table
      (markContact (getOrAssignTrackerId (receive s now d) a).2
        (getOrAssignTrackerId (receive s now d) a).1.toNat)
      (convert_chars 4 (receive s now d).buffer) (getOrAssignTrackerId (receive s now d) a).1
    split_ifs
    · refine ⟨rfl, fun c => ?_⟩
      unfold heartbeatsSentTo
      simp only []
      rw [List.countP_append]
      simp [List.countP_cons]
    · refine ⟨g4, fun c => ?_⟩
      unfold heartbeatsSentTo
      simp only []
      rw [g3]
      rfl
    · refine ⟨d8.trans g4, fun c => ?_⟩
      unfold heartbeatsSentTo
      simp only []
      rw [d5]
      show List.countP _ (getOrAssignTrackerId (receive s now d) a).2.sent = _
      rw [g3]
      rfl

/-- The drain loop leaves `hb_accum` and sends no heartbeat command. -/
theorem drain_heartbeats (queued : List (Nat × sockaddr_in × List Byte)) (now : Nat) :
    ∀ s : UDPDeviceQuatServer,
      (drain s queued now).hb_accum = s.hb_accum ∧
        ∀ c, heartbeatsSentTo (drain s queued now) c = heartbeatsSentTo s c := by
  induction queued with
  | nil => intro s; exact read_heartbeats s now none
  | cons q rest ih =>
    intro s
    obtain ⟨t, a, d⟩ := q
    have h1 := read_heartbeats s t (some (a, d))
    unfold drain
    simp only []
    split_ifs
    · have h2 := ih (more_data_exists__read s t (some (a, d))).2
      exact ⟨h2.1.trans h1.1, fun c => (h2.2 c).trans (h1.2 c)⟩
    · exact h1

/-- Of a whole tick, only `send_heartbeat` writes to `hb_accum` and sends heartbeat
commands. -/
theorem tick_heartbeats (s : UDPDeviceQuatServer) (hv : Valid s)
    (queued : List (Nat × sockaddr_in × List Byte)) (now : Nat) :
    (tick s queued now).hb_accum = (send_heartbeat s).hb_accum ∧
      ∀ c, heartbeatsSentTo (tick s queued now) c = heartbeatsSentTo (send_heartbeat s) c := by
  have hv2 := Valid_drain queued now _ (Valid_send_heartbeat s hv)
  obtain ⟨_, _, _, _, _, e6, _, e8⟩ := checkDeadConnections_slot _ hv2 0
  obtain ⟨d1, d2⟩ := drain_heartbeats queued now (send_heartbeat s)
  unfold tick
  refine ⟨e8.trans d1, fun c => ?_⟩
  rw [← d2 c]
  unfold heartbeatsSentTo
  rw [e6]

/-- A broadcast sends one command to the address of an assigned slot that is alive and
none to the address of an assigned slot that is not. -/
theorem heartbeatTargets_count_assigned (s : UDPDeviceQuatServer) (hv : Valid s) (i : Nat)
    (hi : i < s.activeTrackerCount.toNat) :
    (heartbeatTargets s).countP
      (fun e => decide (e = (s.clients.getD i default, Payload.byteBuffer heartbeatCommand)))
      = if isConnectionAlive s (i : Int) = true then 1 else 0 := by
  unfold heartbeatTargets
  rw [countP_map_of_injOn
    (fun j => (s.clients.getD j default, Payload.byteBuffer heartbeatCommand)) _ i]
  · rw [count_filter_range]
    simp only [hi, true_and]
  · intro j hj hjc
    simp only [List.mem_filter, List.mem_range] at hj
    simp only [Prod.mk.injEq, and_true] at hjc
    by_contra hne
    rcases Nat.lt_or_gt_of_ne hne with hlt | hgt
    · have := hv.distinct j i hlt hi
      rw [hjc, isSameClient_self] at this
      exact absurd this (by simp)
    · have := hv.distinct i j hgt hj.1
      rw [hjc, isSameClient_self] at this
      exact absurd this (by simp)

/-- A tick, seen from the accumulator: it either broadcasts and resets the accumulator
or increments it and sends no heartbeat command. -/
theorem tick_broadcast (s : UDPDeviceQuatServer) (hv : Valid s)
    (queued : List (Nat × sockaddr_in × List Byte)) (now : Nat) :
    (broadcasts s = true →
      (tick s queued now).hb_accum = 0 ∧
        ∀ i, i < s.activeTrackerCount.toNat →
          heartbeatsSentTo (tick s queued now) (s.clients.getD i default)
            = heartbeatsSentTo s (s.clients.getD i default)
              + (if isConnectionAlive s (i : Int) = true then 1 else 0)) ∧
      (broadcasts s = false →
        (tick s queued now).hb_accum = wrapInt32 (s.hb_accum + 1) ∧
          ∀ c, heartbeatsSentTo (tick s queued now) c = heartbeatsSentTo s c) := by
  obtain ⟨t1, t2⟩ := tick_heartbeats s hv queued now
  constructor
  · intro hb
    have hb2 : wrapInt32 (s.hb_accum + 1) > 200 := by
      simpa [broadcasts] using hb
    have hs : send_heartbeat s
        = { s with hb_accum := 0, sent := s.sent ++ heartbeatTargets s } := by
      rw [send_heartbeat_eq, if_pos hb2]
    refine ⟨by rw [t1, hs], fun i hi => ?_⟩
    rw [t2, hs]
    unfold heartbeatsSentTo
    simp only []
    rw [List.countP_append, heartbeatTargets_count_assigned s hv i hi]
  · intro hb
    have hb2 : ¬ wrapInt32 (s.hb_accum + 1) > 200 := by
      simpa [broadcasts] using hb
    have hs : send_heartbeat s = { s with hb_accum := wrapInt32 (s.hb_accum + 1) } := by
      rw [send_heartbeat_eq, if_neg hb2]
    refine ⟨by rw [t1, hs], fun c => ?_⟩
    rw [t2, hs]
    rfl

/-- Ticks, one at a time. -/
theorem runTicks_cons (s : UDPDeviceQuatServer) (x : List (Nat × sockaddr_in × List Byte) × Nat)
    (inputs : List (List (Nat × sockaddr_in × List Byte) × Nat)) :
    runTicks s (x :: inputs) = runTicks (tick s x.1 x.2) inputs := rfl

/-- Ticks below the threshold only count. -/
theorem runTicks_below (inputs : List (List (Nat × sockaddr_in × List Byte) × Nat)) :
    ∀ s : UDPDeviceQuatServer, Valid s → 0 ≤ s.hb_accum →
      s.hb_accum + inputs.length ≤ 200 →
      (runTicks s inputs).hb_accum = s.hb_accum + inputs.length := by
  induction inputs with
  | nil => intro s _ _ _; simp [runTicks]
  | cons x rest ih =>
    intro s hv h0 h1
    simp only [List.length_cons, Nat.cast_add, Nat.cast_one] at h1
    have hw : wrapInt32 (s.hb_accum + 1) = s.hb_accum + 1 := by
      unfold wrapInt32
      omega
    have hb : broadcasts s = false := by
      simp only [broadcasts, hw, decide_eq_false_iff_not]
      omega
    have e1 := ((tick_broadcast s hv x.1 x.2).2 hb).1
    rw [hw] at e1
    rw [runTicks_cons, ih (tick s x.1 x.2) (Valid_tick s x.1 x.2 hv) (by omega) (by omega), e1]
    simp only [List.length_cons, Nat.cast_add, Nat.cast_one]
    omega

/-- After a tick that broadcast, the ticks that follow do not broadcast before the
201st. -/
theorem broadcasts_after_reset (s : UDPDeviceQuatServer) (hv : Valid s) (h0 : s.hb_accum = 0)
    (inputs : List (List (Nat × sockaddr_in × List Byte) × Nat)) (hl : inputs.length ≤ 200) :
    broadcasts (runTicks s inputs) = decide (inputs.length = 200) := by
  have h := runTicks_below inputs s hv (by omega) (by omega)
  rw [h0] at h
  have hw : wrapInt32 (((0 : Int) + inputs.length) + 1) = (inputs.length : Int) + 1 := by
    unfold wrapInt32
    omega
  unfold broadcasts
  rw [h, hw]
  by_cases hc : inputs.length = 200
  · simp [hc]
  · simp only [hc, decide_False, decide_eq_false_iff_not]
    omega

/-- Ticks that find the socket empty are quiet ticks. -/
theorem runTicks_quiet (nows : List Nat) :
    ∀ s : UDPDeviceQuatServer,
      runTicks s (nows.map (fun now => ([], now))) = quietTicks s nows := by
  induction nows with
  | nil => intro s; rfl
  | cons now rest ih =>
    intro s
    rw [List.map_cons, runTicks_cons, quietTicks_cons, ih]

/-- The server `dueServer` is reachable. -/
theorem dueServer_reachable : Reachable dueServer :=
  ⟨199, exampleBuffer, _, by decide, by decide, List.length_replicate 256 0, rfl⟩

/-- The server `dueServer` after its first quiet tick and `n` further ones, up to 200,
all at clock reading 100: the accumulator holds `n`, one heartbeat command has been sent
to `exampleClient`, and slot 0 still belongs to it and is alive. -/
theorem dueServer_after (n : Nat) (hn : n ≤ 200) :
    Valid (quietTicks dueServer (List.replicate (n + 1) 100)) ∧
      (quietTicks dueServer (List.replicate (n + 1) 100)).hb_accum = n ∧
      heartbeatsSentTo (quietTicks dueServer (List.replicate (n + 1) 100)) exampleClient = 1 ∧
      (quietTicks dueServer (List.replicate (n + 1) 100)).clients.getD 0 default
        = exampleClient ∧
      (quietTicks dueServer (List.replicate (n + 1) 100)).activeTrackerCount = 1 ∧
      isConnectionAlive (quietTicks dueServer (List.replicate (n + 1) 100)) ((0 : Nat) : Int)
        = true := by
  have hv1 : Valid (tick dueServer [] 100) :=
    Valid_tick _ _ _ (Reachable_valid _ dueServer_reachable)
  have hq : quietTicks dueServer (List.replicate (n + 1) 100)
      = quietTicks (tick dueServer [] 100) (List.replicate n 100) := rfl
  obtain ⟨e1, e2, e3, e4⟩ := quietTicks_below (List.replicate n 100) (tick dueServer [] 100) hv1
    (by decide) (by
      rw [List.length_replicate]
      have : (tick dueServer [] 100).hb_accum = 0 := by decide
      rw [this]
      omega)
  have halive := quietTicks_alive 0 (List.replicate n 100) (tick dueServer [] 100) hv1
    (by
      intro now hnow
      have := List.eq_of_mem_replicate hnow
      subst this
      decide)
    (by decide)
  rw [hq]
  refine ⟨Valid_quietTicks _ _ hv1, ?_, ?_, ?_, ?_, ?_⟩
  · rw [e1, List.length_replicate]
    have : (tick dueServer [] 100).hb_accum = 0 := by decide
    rw [this]
    omega
  · unfold heartbeatsSentTo
    rw [e2]
    decide
  · rw [e3]
    decide
  · rw [e4]
    decide
  · unfold isConnectionAlive
    rw [if_neg (by decide), Int.toNat_ofNat, halive]
    rfl

/-- C19 fails as stated: the first tick of `dueServer` broadcasts, which sends the first
heartbeat command to `exampleClient`; slot 0 is alive when the tick 200 ticks later
begins, yet after that tick the count still is 1, and it becomes 2 with the tick that
follows, 201 ticks after the first broadcast. -/
theorem heartbeat_period_counterexample :
    heartbeatsSentTo dueServer exampleClient = 0 ∧
      heartbeatsSentTo (runTicks dueServer (List.replicate 1 ([], 100))) exampleClient = 1 ∧
      isConnectionAlive (runTicks dueServer (List.replicate 200 ([], 100))) 0 = true ∧
      heartbeatsSentTo (runTicks dueServer (List.replicate 201 ([], 100))) exampleClient = 1 ∧
      heartbeatsSentTo (runTicks dueServer (List.replicate 202 ([], 100))) exampleClient
        = 2 := by
  have hq : ∀ k, runTicks dueServer (List.replicate k ([], 100))
      = quietTicks dueServer (List.replicate k 100) := by
    intro k
    rw [← runTicks_quiet, List.map_replicate]
  obtain ⟨v200, a200, c200, l200, n200, al200⟩ := dueServer_after 200 le_rfl
  refine ⟨by decide, by decide, ?_, ?_, ?_⟩
  · rw [hq]
    exact (dueServer_after 199 (by decide)).2.2.2.2.2
  · rw [hq]
    exact c200
  · rw [hq]
    have hb : broadcasts (quietTicks dueServer (List.replicate (200 + 1) 100)) = true := by
      unfold broadcasts
      rw [a200]
      decide
    have h := ((tick_broadcast _ v200 [] 100).1 hb).2 0 (by rw [n200]; decide)
    rw [l200, c200, al200, if_pos rfl] at h
    show heartbeatsSentTo (quietTicks dueServer (List.replicate (200 + 1 + 1) 100))
      exampleClient = 2
    have hq2 : ∀ t : UDPDeviceQuatServer, quietTicks t [100] = tick t [] 100 := fun _ => rfl
    rw [List.replicate_succ' (200 + 1) 100, quietTicks_append, hq2, h]

/-- C19, amended: the broadcast comes once every 201 ticks. In a reachable state, a tick
on which `send_heartbeat` does not broadcast sends no heartbeat command; a tick on which
it broadcasts sends exactly one heartbeat command to the address of every assigned slot
that is alive when the tick begins and none to an assigned slot that is not alive; and
after a tick that broadcast, whatever datagrams arrive, none of the next 200 ticks
broadcasts and the 201st does, so that two consecutive broadcasting ticks are exactly 201
ticks apart. -/
theorem heartbeat_period (s : UDPDeviceQuatServer) (hs : Reachable s)
    (queued : List (Nat × sockaddr_in × List Byte)) (now : Nat) :
    (broadcasts s = false →
        ∀ c, heartbeatsSentTo (tick s queued now) c = heartbeatsSentTo s c) ∧
      (broadcasts s = true →
        (∀ i : Nat, (i : Int) < s.activeTrackerCount →
          heartbeatsSentTo (tick s queued now) (s.clients.getD i default)
            = heartbeatsSentTo s (s.clients.getD i default)
              + (if isConnectionAlive s (i : Int) = true then 1 else 0)) ∧
          (∀ inputs : List (List (Nat × sockaddr_in × List Byte) × Nat),
            inputs.length < 200 →
            broadcasts (runTicks (tick s queued now) inputs) = false) ∧
          (∀ inputs : List (List (Nat × sockaddr_in × List Byte) × Nat),
            inputs.length = 200 →
            broadcasts (runTicks (tick s queued now) inputs) = true)) := by
  have hv := Reachable_valid s hs
  obtain ⟨k1, k2⟩ := tick_broadcast s hv queued now
  have hv1 := Valid_tick s queued now hv
  refine ⟨fun hb => (k2 hb).2, fun hb => ⟨fun i hi => (k1 hb).2 i (by omega), ?_, ?_⟩⟩
  · intro inputs hl
    rw [broadcasts_after_reset _ hv1 (k1 hb).1 inputs (by omega)]
    simp only [decide_eq_false_iff_not]
    omega
  · intro inputs hl
    rw [broadcasts_after_reset _ hv1 (k1 hb).1 inputs (by omega)]
    simp only [hl, decide_True]

/-- C19, amended, on `dueServer`: its next tick broadcasts, which sends one heartbeat
command to the address of slot 0, and the tick that follows 200 further ticks broadcasts
again. -/
theorem heartbeat_period_witness :
    heartbeatsSentTo (tick dueServer [] 100) (dueServer.clients.getD 0 default)
        = heartbeatsSentTo dueServer (dueServer.clients.getD 0 default)
          + (if isConnectionAlive dueServer ((0 : Nat) : Int) = true then 1 else 0) ∧
      broadcasts (runTicks (tick dueServer [] 100) (List.replicate 200 ([], 100))) = true :=
  ⟨((heartbeat_period dueServer dueServer_reachable [] 100).2 (by decide)).1 0 (by decide),
    ((heartbeat_period dueServer dueServer_reachable [] 100).2 (by decide)).2.2
      (List.replicate 200 ([], 100)) (List.length_replicate 200 _)⟩

/-! ## Timeout arithmetic under a non-decreasing clock -/

/-- Unsigned subtraction is the true difference when the clock is in order. -/
theorem sub64_of_le (a b : Nat) (ha : a < U64) (hb : b ≤ a) : sub64 a b = a - b := by
  unfold sub64
  rw [Nat.mod_eq_of_lt (by omega : b < U64)]
  have : a + U64 - b = (a - b) + U64 := by omega
  rw [this, Nat.add_mod_right, Nat.mod_eq_of_lt (by omega)]

/-- Writing to an element of an array, seen from any element. -/
theorem getD_set_cases {α : Type} (l : List α) (i j : Nat) (x d : α) :
    (l.set i x).getD j d = l.getD j d ∨ (l.set i x).getD j d = x := by
  by_cases h : i = j
  · by_cases hl : i < l.length
    · right
      rw [← h]
      exact getD_set_self l i x d hl
    · left
      rw [List.set_eq_of_length_le (by omega)]
  · left
    exact getD_set_other l i j x d h

/-- Writing a contact: every slot either keeps its contact time and its dead flag or gets
the written time and is alive. -/
theorem set_contact_cases (lct : List Nat) (dead : List Bool) (i j t : Nat)
    (hl : lct.length = dead.length) :
    ((lct.set i t).getD j 0 = lct.getD j 0 ∧ (dead.set i false).getD j true = dead.getD j true) ∨
      ((lct.set i t).getD j 0 = t ∧ (dead.set i false).getD j true = false) := by
  by_cases h : i = j
  · by_cases hi : i < lct.length
    · right
      rw [← h]
      exact ⟨getD_set_self lct i t 0 hi, getD_set_self dead i false true (by omega)⟩
    · left
      rw [List.set_eq_of_length_le (by omega), List.set_eq_of_length_le (by omega)]
      exact ⟨rfl, rfl⟩
  · left
    exact ⟨getD_set_other lct i j t 0 h, getD_set_other dead i j false true h⟩

/-- A call of `more_data_exists__read` stores its clock reading in `curr_time`; every
slot either keeps its contact time and its dead flag or is heard of at that reading and
alive. -/
theorem read_contact_cases (s : UDPDeviceQuatServer) (hv : Valid s) (now : Nat)
    (recv : Option (sockaddr_in × List Byte)) :
    (more_data_exists__read s now recv).2.curr_time = now % U64 ∧
      ∀ j,
        ((more_data_exists__read s now recv).2.lastContactTime.getD j 0
            = s.lastContactTime.getD j 0 ∧
          (more_data_exists__read s now recv).2.connectionIsDead.getD j true
            = s.connectionIsDead.getD j true) ∨
        ((more_data_exists__read s now recv).2.lastContactTime.getD j 0 = now % U64 ∧
          (more_data_exists__read s now recv).2.connectionIsDead.getD j true = false) := by
  cases recv with
  | none => exact ⟨rfl, fun _ => Or.inl ⟨rfl, rfl⟩⟩
  | some r =>
    obtain ⟨a, d⟩ := r
    have hr := Valid_receive s now d hv
    have hlen : (receive s now d).lastContactTime.length
        = (receive s now d).connectionIsDead.length := by
      rw [hr.lastContactTime_length, hr.connectionIsDead_length]
    -- the state after `getOrAssignTrackerId`
    have hg : (getOrAssignTrackerId (receive s now d) a).2.curr_time = now % U64 ∧
        (getOrAssignTrackerId (receive s now d) a).2.lastContactTime.length
          = (getOrAssignTrackerId (receive s now d) a).2.connectionIsDead.length ∧
        ∀ j,
          ((getOrAssignTrackerId (receive s now d) a).2.lastContactTime.getD j 0
              = s.lastContactTime.getD j 0 ∧
            (getOrAssignTrackerId (receive s now d) a).2.connectionIsDead.getD j true
              = s.connectionIsDead.getD j true) ∨
          ((getOrAssignTrackerId (receive s now d) a).2.lastContactTime.getD j 0
              = now % U64 ∧
            (getOrAssignTrackerId (receive s now d) a).2.connectionIsDead.getD j true
              = false) := by
      have hg1 := (Valid_getOrAssign (receive s now d) a hr).1
      refine ⟨(getOrAssign_buffer _ a).2.1, ?_, ?_⟩
      · rw [hg1.lastContactTime_length, hg1.connectionIsDead_length]
      · intro j
        rcases getOrAssign_cases (receive s now d) a with ⟨i, _, _, _, g4⟩ | ⟨_, _, g3⟩ | ⟨_, _, g3⟩
        · rw [g4]
          exact Or.inl ⟨rfl, rfl⟩
        · rw [g3]
          exact set_contact_cases _ _ _ j _ hlen
        · rw [g3]
          exact Or.inl ⟨rfl, rfl⟩
    rw [more_data_exists__read_some]
    split_ifs with h1 h2
    · exact ⟨rfl, fun _ => Or.inl ⟨rfl, rfl⟩⟩
    · exact ⟨hg.1, hg.2.2⟩
    · obtain ⟨_, _, d3, d4, _, _, d7, _⟩ := dispatch_table
        (markContact (getOrAssignTrackerId (receive s now d) a).2
          (getOrAssignTrackerId (receive s now d) a).1.toNat)
        (convert_chars 4 (receive s now d).buffer) (getOrAssignTrackerId (receive s now d) a).1
      simp only []
      rw [d3, d4, d7]
      refine ⟨hg.1, fun j => ?_⟩
      have hm := set_contact_cases
        (getOrAssignTrackerId (receive s now d) a).2.lastContactTime
        (getOrAssignTrackerId (receive s now d) a).2.connectionIsDead
        (getOrAssignTrackerId (receive s now d) a).1.toNat j
        (getOrAssignTrackerId (receive s now d) a).2.curr_time hg.2.1
      have e1 : (markContact (getOrAssignTrackerId (receive s now d) a).2
          (getOrAssignTrackerId (receive s now d) a).1.toNat).lastContactTime
          = (getOrAssignTrackerId (receive s now d) a).2.lastContactTime.set
              (getOrAssignTrackerId (receive s now d) a).1.toNat
              (getOrAssignTrackerId (receive s now d) a).2.curr_time := rfl
      have e2 : (markContact (getOrAssignTrackerId (receive s now d) a).2
          (getOrAssignTrackerId (receive s now d) a).1.toNat).connectionIsDead
          = (getOrAssignTrackerId (receive s now d) a).2.connectionIsDead.set
              (getOrAssignTrackerId (receive s now d) a).1.toNat false := rfl
      rw [e1, e2]
      rw [hg.1] at hm ⊢
      rcases hm with hm | hm
      · rcases hg.2.2 j with hj | hj
        · exact Or.inl ⟨hm.1.trans hj.1, hm.2.trans hj.2⟩
        · exact Or.inr ⟨hm.1.trans hj.1, hm.2.trans hj.2⟩
      · exact Or.inr hm

/-- A call of `more_data_exists__read` whose clock reading is not before `curr_time`
keeps the clock in order and every slot that was heard of. -/
theorem read_clock (s : UDPDeviceQuatServer) (now : Nat)
    (recv : Option (sockaddr_in × List Byte)) (h : InClock s)
    (hle : s.curr_time ≤ now % U64) :
    InClock (more_data_exists__read s now recv).2 ∧
      (more_data_exists__read s now recv).2.curr_time = now % U64 ∧
      ∀ i t, HeardSince s i t → HeardSince (more_data_exists__read s now recv).2 i t := by
  obtain ⟨hv, hc, hl⟩ := h
  obtain ⟨c1, c2⟩ := read_contact_cases s hv now recv
  have hlt : now % U64 < U64 := Nat.mod_lt _ (by decide)
  refine ⟨⟨Valid_read s now recv hv, by rw [c1]; exact hlt, fun j => ?_⟩, c1, ?_⟩
  · rw [c1]
    rcases c2 j with hj | hj
    · rw [hj.1]
      exact le_trans (hl j) hle
    · rw [hj.1]
  · intro i t ⟨k1, k2, k3⟩
    have he := (read_extends s now recv).1
    refine ⟨by omega, ?_, ?_⟩
    · rcases c2 i with hj | hj
      · rw [hj.1]
        exact k2
      · rw [hj.1]
        exact le_trans k2 (le_trans (hl i) hle)
    · rcases c2 i with hj | hj
      · rw [hj.2]
        exact k3
      · exact hj.2

/-- The method `send_heartbeat` keeps the clock in order and every slot that was heard
of. -/
theorem send_heartbeat_clock (s : UDPDeviceQuatServer) (h : InClock s) :
    InClock (send_heartbeat s) ∧ (send_heartbeat s).curr_time = s.curr_time ∧
      ∀ i t, HeardSince s i t → HeardSince (send_heartbeat s) i t := by
  obtain ⟨hv, hc, hl⟩ := h
  obtain ⟨_, e2, _, e4, e5, _, e7, _⟩ := send_heartbeat_frame s
  refine ⟨⟨Valid_send_heartbeat s hv, by rw [e7]; exact hc, fun j => ?_⟩, e7, ?_⟩
  · rw [e4, e7]
    exact hl j
  · intro i t hk
    unfold HeardSince
    rw [e2, e4, e5]
    exact hk

/-- The sweep keeps the clock in order, and it keeps alive a slot that was heard of at
most 2 seconds before `curr_time`. -/
theorem checkDeadConnections_clock (s : UDPDeviceQuatServer) (h : InClock s) :
    InClock (checkDeadConnections s) ∧ (checkDeadConnections s).curr_time = s.curr_time ∧
      ∀ i t, HeardSince s i t → s.curr_time ≤ t + 2 →
        HeardSince (checkDeadConnections s) i t ∧ timedOut s i = false := by
  obtain ⟨hv, hc, hl⟩ := h
  obtain ⟨_, _, e3, _, e5, _, e7, _⟩ := checkDeadConnections_slot s hv 0
  refine ⟨⟨Valid_checkDeadConnections s hv, by rw [e7]; exact hc, fun j => ?_⟩, e7, ?_⟩
  · rw [e3, e7]
    exact hl j
  · intro i t ⟨k1, k2, k3⟩ hb
    have hto : timedOut s i = false := by
      simp only [timedOut, Bool.and_eq_false_iff, decide_eq_false_iff_not]
      right
      rw [sub64_of_le _ _ hc (hl i)]
      omega
    obtain ⟨f1, _⟩ := checkDeadConnections_slot s hv i
    refine ⟨⟨by rw [e5]; exact k1, by rw [e3]; exact k2, ?_⟩, hto⟩
    rw [f1, hto]
    simp only [Bool.false_eq_true, and_false, if_false]
    exact k3

/-- The drain loop with non-decreasing clock readings keeps the clock in order and every
slot that was heard of. -/
theorem drain_clock (queued : List (Nat × sockaddr_in × List Byte)) (now : Nat) :
    ∀ s : UDPDeviceQuatServer, InClock s →
      (s.curr_time :: (queued.map (fun q => q.1 % U64) ++ [now % U64])).Pairwise
        (fun a b => a ≤ b) →
      InClock (drain s queued now) ∧ (drain s queued now).curr_time = now % U64 ∧
        ∀ i t, HeardSince s i t → HeardSince (drain s queued now) i t := by
  induction queued with
  | nil =>
    intro s h hp
    simp only [List.map_nil, List.nil_append, List.pairwise_cons, List.mem_singleton,
      forall_eq] at hp
    exact read_clock s now none h hp.1
  | cons q rest ih =>
    intro s h hp
    obtain ⟨t, a, d⟩ := q
    simp only [List.map_cons, List.cons_append] at hp
    rw [List.pairwise_cons] at hp
    obtain ⟨r1, r2, r3⟩ := read_clock s t (some (a, d)) h (hp.1 _ (List.mem_cons_self _ _))
    unfold drain
    simp only []
    split_ifs
    · have hp2 : ((more_data_exists__read s t (some (a, d))).2.curr_time ::
          (rest.map (fun q => q.1 % U64) ++ [now % U64])).Pairwise (fun a b => a ≤ b) := by
        rw [r2]
        exact hp.2
      obtain ⟨g1, g2, g3⟩ := ih _ r1 hp2
      exact ⟨g1, g2, fun i t hk => g3 i t (r3 i t hk)⟩
    · rename_i hf
      exact absurd (by rw [more_data_exists__read_some]; split_ifs <;> rfl) hf

/-- A tick with non-decreasing clock readings keeps the clock in order, and it keeps
alive a slot that was heard of at most 2 seconds before its last clock reading. -/
theorem tick_clock (s : UDPDeviceQuatServer) (queued : List (Nat × sockaddr_in × List Byte))
    (now : Nat) (h : InClock s)
    (hp : (s.curr_time :: (queued.map (fun q => q.1 % U64) ++ [now % U64])).Pairwise
      (fun a b => a ≤ b)) :
    InClock (tick s queued now) ∧ (tick s queued now).curr_time = now % U64 ∧
      ∀ i t, HeardSince s i t → now % U64 ≤ t + 2 → HeardSince (tick s queued now) i t := by
  obtain ⟨a1, a2, a3⟩ := send_heartbeat_clock s h
  obtain ⟨b1, b2, b3⟩ := drain_clock queued now (send_heartbeat s) a1 (by rw [a2]; exact hp)
  obtain ⟨c1, c2, c3⟩ := checkDeadConnections_clock _ b1
  unfold tick
  refine ⟨c1, c2.trans b2, fun i t hk hb => ?_⟩
  exact (c3 i t (b3 i t (a3 i t hk)) (by rw [b2]; exact hb)).1

/-- Every operation with non-decreasing clock readings keeps the clock in order, leaves
in `curr_time` its last clock reading, and keeps alive a slot that was heard of at most 2
seconds before that reading. -/
theorem step_clock (s : UDPDeviceQuatServer) (x : Action) (h : InClock s)
    (hp : (s.curr_time :: x.clockReadings).Pairwise (fun a b => a ≤ b)) :
    InClock (step s x) ∧ (step s x).curr_time = x.clockReadings.getLastD s.curr_time ∧
      ∀ i t, HeardSince s i t → (step s x).curr_time ≤ t + 2 → HeardSince (step s x) i t := by
  cases x with
  | send_heartbeat =>
    obtain ⟨a1, a2, a3⟩ := send_heartbeat_clock s h
    exact ⟨a1, a2, fun i t hk _ => a3 i t hk⟩
  | more_data_exists__read now recv =>
    simp only [Action.clockReadings, List.pairwise_cons, List.mem_singleton, forall_eq] at hp
    obtain ⟨a1, a2, a3⟩ := read_clock s now recv h hp.1
    exact ⟨a1, a2, fun i t hk _ => a3 i t hk⟩
  | checkDeadConnections =>
    obtain ⟨a1, a2, a3⟩ := checkDeadConnections_clock s h
    refine ⟨a1, a2, fun i t hk hb => (a3 i t hk ?_).1⟩
    exact a2 ▸ hb
  | tick queued now =>
    obtain ⟨a1, a2, a3⟩ := tick_clock s queued now h hp
    refine ⟨a1, ?_, fun i t hk hb => a3 i t hk ?_⟩
    · simp only [step, Action.clockReadings]
      rw [a2, List.getLastD_concat]
    · exact a2 ▸ hb
  | isDataAvailable id =>
    obtain ⟨hv, hc, hl⟩ := h
    have hf := isDataAvailable_frame s id
    simp only [step]
    refine ⟨⟨Valid_isDataAvailable s id hv, ?_, ?_⟩, ?_, ?_⟩
    · rw [hf]; exact hc
    · rw [hf]; exact hl
    · rw [hf]; rfl
    · intro i t hk _
      unfold HeardSince
      rw [hf]
      exact hk
  | buzz id d f a =>
    obtain ⟨hv, hc, hl⟩ := h
    have hf := buzz_frame s id d f a
    simp only [step]
    refine ⟨⟨Valid_buzz s id d f a hv, ?_, ?_⟩, ?_, ?_⟩
    · rw [hf]; exact hc
    · rw [hf]; exact hl
    · rw [hf]; rfl
    · intro i t hk _
      unfold HeardSince
      rw [hf]
      exact hk

/-- The last element of a non-decreasing list is not below its first. -/
theorem le_getLastD_of_pairwise (l : List Nat) (c : Nat)
    (hp : (c :: l).Pairwise (fun a b => a ≤ b)) : c ≤ l.getLastD c := by
  rw [List.pairwise_cons] at hp
  cases hl : l.getLast? with
  | none =>
    rw [List.getLast?_eq_none_iff] at hl
    rw [hl]
    exact le_rfl
  | some x =>
    have hx : x ∈ l := List.mem_of_getLast?_eq_some hl
    rw [List.getLastD_eq_getLast?, hl]
    exact hp.1 x hx

/-- The last element of two lists in a row. -/
theorem getLastD_append_eq (l1 l2 : List Nat) (c : Nat) :
    (l1 ++ l2).getLastD c = l2.getLastD (l1.getLastD c) := by
  induction l2 using List.reverseRecOn with
  | nil => simp
  | append_singleton l x _ =>
    rw [← List.append_assoc, List.getLastD_concat, List.getLastD_concat]

/-- What follows the first part of a non-decreasing list is not below its last
element. -/
theorem pairwise_after (l1 l2 : List Nat) (c : Nat)
    (hp : (c :: (l1 ++ l2)).Pairwise (fun a b => a ≤ b)) :
    (l1.getLastD c :: l2).Pairwise (fun a b => a ≤ b) := by
  rw [List.pairwise_cons] at hp ⊢
  obtain ⟨hp1, hp2⟩ := hp
  rw [List.pairwise_append] at hp2
  refine ⟨fun r hr => ?_, hp2.2.1⟩
  cases hl : l1.getLast? with
  | none =>
    rw [List.getLastD_eq_getLast?, hl]
    exact hp1 r (List.mem_append_right _ hr)
  | some y =>
    rw [List.getLastD_eq_getLast?, hl]
    exact hp2.2.2 y (List.mem_of_getLast?_eq_some hl) r hr

/-- The clock readings of two runs in a row. -/
theorem clockReadings_append (l1 l2 : List Action) :
    clockReadings (l1 ++ l2) = clockReadings l1 ++ clockReadings l2 := by
  induction l1 with
  | nil => rfl
  | cons x rest ih =>
    show x.clockReadings ++ clockReadings (rest ++ l2) = _
    rw [ih]
    exact (List.append_assoc _ _ _).symm

/-- A run with non-decreasing clock readings keeps the clock in order, ends with its
last clock reading in `curr_time`, never sets `curr_time` back, and keeps alive a slot
that was heard of at most 2 seconds before the `curr_time` it ends with. -/
theorem run_clock (actions : List Action) :
    ∀ s : UDPDeviceQuatServer, InClock s →
      (s.curr_time :: clockReadings actions).Pairwise (fun a b => a ≤ b) →
      InClock (run s actions) ∧
        (run s actions).curr_time = (clockReadings actions).getLastD s.curr_time ∧
        s.curr_time ≤ (run s actions).curr_time ∧
        ∀ i t, HeardSince s i t → (run s actions).curr_time ≤ t + 2 →
          HeardSince (run s actions) i t := by
  induction actions with
  | nil => intro s h _; exact ⟨h, rfl, le_rfl, fun _ _ hk _ => hk⟩
  | cons x rest ih =>
    intro s h hp
    simp only [clockReadings] at hp
    have hpx : (s.curr_time :: x.clockReadings).Pairwise (fun a b => a ≤ b) := by
      rw [← List.cons_append] at hp
      exact (List.pairwise_append.1 hp).1
    obtain ⟨a1, a2, a3⟩ := step_clock s x h hpx
    have hle : s.curr_time ≤ (step s x).curr_time := by
      rw [a2]
      exact le_getLastD_of_pairwise _ _ hpx
    have hpr : ((step s x).curr_time :: clockReadings rest).Pairwise (fun a b => a ≤ b) := by
      rw [a2]
      exact pairwise_after _ _ _ hp
    obtain ⟨b1, b2, b3, b4⟩ := ih (step s x) a1 hpr
    have hrun : run s (x :: rest) = run (step s x) rest := rfl
    rw [hrun]
    refine ⟨b1, ?_, le_trans hle b3,
      fun i t hk hb => b4 i t (a3 i t hk (le_trans b3 hb)) hb⟩
    rw [b2, a2]
    show _ = (x.clockReadings ++ clockReadings rest).getLastD s.curr_time
    rw [getLastD_append_eq]

/-- A call of `tick` is the run of its stages, which take the same clock readings. -/
theorem tick_stages (s : UDPDeviceQuatServer) (queued : List (Nat × sockaddr_in × List Byte))
    (now : Nat) :
    tick s queued now = run s (tickStages queued now) ∧
      clockReadings (tickStages queued now) = (Action.tick queued now).clockReadings := by
  constructor
  · have key : ∀ (q : List (Nat × sockaddr_in × List Byte)) (t : UDPDeviceQuatServer),
        checkDeadConnections (drain t q now)
          = run t (q.map (fun q => Action.more_data_exists__read q.1 (some q.2)) ++
              [Action.more_data_exists__read now none, Action.checkDeadConnections]) := by
      intro q
      induction q with
      | nil => intro t; rfl
      | cons y rest ih =>
        intro t
        obtain ⟨u, a, d⟩ := y
        have hd : drain t ((u, a, d) :: rest) now
            = drain (more_data_exists__read t u (some (a, d))).2 rest now := by
          have h1 : (more_data_exists__read t u (some (a, d))).1 = true := by
            rw [more_data_exists__read_some]
            split_ifs <;> rfl
          rw [drain]
          simp only [h1, if_true]
        rw [hd, ih]
        rfl
    exact key queued (send_heartbeat s)
  · have key : ∀ q : List (Nat × sockaddr_in × List Byte),
        clockReadings (q.map (fun q => Action.more_data_exists__read q.1 (some q.2)) ++
            [Action.more_data_exists__read now none, Action.checkDeadConnections])
          = q.map (fun q => q.1 % U64) ++ [now % U64] := by
      intro q
      induction q with
      | nil => rfl
      | cons y rest ih =>
        show y.1 % U64 :: clockReadings
            (rest.map (fun q => Action.more_data_exists__read q.1 (some q.2)) ++
              [Action.more_data_exists__read now none, Action.checkDeadConnections]) = _
        rw [ih]
        rfl
    exact key queued

/-- A freshly constructed server has its clock in order. -/
theorem InClock_new (hb : Int) (buf : List Byte) (h1 : -(2 ^ 31) ≤ hb) (h2 : hb < 2 ^ 31)
    (h3 : buf.length = MAX_MSG_SIZE) : InClock (UDPDeviceQuatServer.new hb buf) := by
  refine ⟨Valid_new hb buf h1 h2 h3, (by decide : 0 < U64), fun j => ?_⟩
  simp only [UDPDeviceQuatServer.new]
  rw [List.getD_eq_getElem?_getD, List.getElem?_replicate]
  split_ifs <;> exact le_rfl

/-- C21: in a run from a freshly constructed server whose successive clock readings are
non-decreasing, `lastContactTime[i] <= curr_time` holds for every assigned slot `i` in
the state reached, so that the unsigned 64-bit subtraction of the sweep is the true
difference of the two times; and when a call of `more_data_exists__read` in the run
accepted a datagram for slot `i` at the clock reading `t` and `curr_time` is at most
`t + 2` in the state reached, then slot `i` is alive there, the sweep does not find it
timed out, leaves it alive and connected and logs no disconnect notification for it. -/
theorem timeout_arithmetic_never_wraps (hb : Int) (buf : List Byte) (actions : List Action)
    (h1 : -(2 ^ 31) ≤ hb) (h2 : hb < 2 ^ 31) (h3 : buf.length = MAX_MSG_SIZE)
    (hmono : MonotoneClock actions) :
    (∀ i : Nat, (i : Int) < (run (UDPDeviceQuatServer.new hb buf) actions).activeTrackerCount →
        (run (UDPDeviceQuatServer.new hb buf) actions).lastContactTime.getD i 0
            ≤ (run (UDPDeviceQuatServer.new hb buf) actions).curr_time ∧
          ((sub64 (run (UDPDeviceQuatServer.new hb buf) actions).curr_time
              ((run (UDPDeviceQuatServer.new hb buf) actions).lastContactTime.getD i 0) : Nat) : Int)
            = ((run (UDPDeviceQuatServer.new hb buf) actions).curr_time : Int)
              - ((run (UDPDeviceQuatServer.new hb buf) actions).lastContactTime.getD i 0 : Int)) ∧
      (run (UDPDeviceQuatServer.new hb buf) actions).curr_time = (clockReadings actions).getLastD 0 ∧
      (∀ (pre mid : List Action) (t : Nat) (a : sockaddr_in) (d : List Byte) (i : Nat),
        actions = pre ++ Action.more_data_exists__read t (some (a, d)) :: mid →
        convert_chars 4 (receive (run (UDPDeviceQuatServer.new hb buf) pre) t d).buffer ≠ MSG_HANDSHAKE →
        (getOrAssignTrackerId (receive (run (UDPDeviceQuatServer.new hb buf) pre) t d) a).1 = (i : Int) →
        (run (UDPDeviceQuatServer.new hb buf) actions).curr_time ≤ t % U64 + 2 →
        isConnectionAlive (run (UDPDeviceQuatServer.new hb buf) actions) (i : Int) = true ∧
          timedOut (run (UDPDeviceQuatServer.new hb buf) actions) i = false ∧
          isConnectionAlive (checkDeadConnections (run (UDPDeviceQuatServer.new hb buf) actions)) (i : Int)
            = true ∧
          isTrackerConnected (checkDeadConnections (run (UDPDeviceQuatServer.new hb buf) actions)) (i : Int)
            = true ∧
          disconnectNotifications (checkDeadConnections (run (UDPDeviceQuatServer.new hb buf) actions)).logged i
            = disconnectNotifications (run (UDPDeviceQuatServer.new hb buf) actions).logged i) := by
  have h0 := InClock_new hb buf h1 h2 h3
  have hp0 : ((UDPDeviceQuatServer.new hb buf).curr_time :: clockReadings actions).Pairwise
      (fun a b => a ≤ b) := by
    rw [List.pairwise_cons]
    exact ⟨fun _ _ => Nat.zero_le _, hmono⟩
  obtain ⟨⟨hv, hc, hl⟩, hcur, _, _⟩ := run_clock actions _ h0 hp0
  refine ⟨fun i _ => ⟨hl i, ?_⟩, hcur, ?_⟩
  · rw [sub64_of_le _ _ hc (hl i)]
    have := hl i
    omega
  · intro pre mid t a d i hact hnh hid hb2
    subst hact
    have hsplit : run (UDPDeviceQuatServer.new hb buf) (pre ++ Action.more_data_exists__read t (some (a, d)) :: mid)
        = run (more_data_exists__read (run (UDPDeviceQuatServer.new hb buf) pre) t (some (a, d))).2 mid := by
      simp only [run, List.foldl_append, List.foldl_cons, step]
    rw [hsplit] at hb2 ⊢
    rw [clockReadings_append] at hp0
    have hp0b : ((UDPDeviceQuatServer.new hb buf).curr_time ::
        (clockReadings pre ++ ((t % U64) :: clockReadings mid))).Pairwise
        (fun a b => a ≤ b) := hp0
    -- the state before the datagram
    obtain ⟨q1, q2, _, _⟩ := run_clock pre _ h0
      (by
        rw [← List.cons_append] at hp0b
        exact (List.pairwise_append.1 hp0b).1)
    have hp1 := pairwise_after _ _ _ hp0b
    rw [← q2] at hp1
    -- the call that accepts the datagram
    obtain ⟨r1, r2, _⟩ := read_clock (run (UDPDeviceQuatServer.new hb buf) pre) t (some (a, d)) q1
      ((List.pairwise_cons.1 hp1).1 _ (List.mem_cons_self _ _))
    have hheard : HeardSince
        (more_data_exists__read (run (UDPDeviceQuatServer.new hb buf) pre) t (some (a, d))).2 i (t % U64) := by
      have hid0 : 0 ≤ (getOrAssignTrackerId (receive (run (UDPDeviceQuatServer.new hb buf) pre) t d) a).1 := by
        rw [hid]
        exact Int.ofNat_nonneg i
      obtain ⟨m, k1, _, _, _, k5, _, k7, k8, _⟩ :=
        read_before_dispatch (run (UDPDeviceQuatServer.new hb buf) pre) q1.1 t a d hnh hid0
      rw [hid, Int.toNat_ofNat] at k5 k7 k8
      obtain ⟨d1, _, d3, d4, _⟩ := dispatch_table m
        (convert_chars 4 (receive (run (UDPDeviceQuatServer.new hb buf) pre) t d).buffer)
        (getOrAssignTrackerId (receive (run (UDPDeviceQuatServer.new hb buf) pre) t d) a).1
      rw [k1]
      simp only []
      unfold HeardSince
      rw [d1, d3, d4, k7, k8]
      exact ⟨k5, le_rfl, rfl⟩
    -- the operations up to the sweep
    obtain ⟨⟨fv, fc, fl⟩, _, _, f4⟩ := run_clock mid _ r1
      (by
        rw [r2]
        exact (List.pairwise_cons.1 hp1).2)
    have hfinal := f4 i (t % U64) hheard hb2
    obtain ⟨⟨s1, s2, s3⟩, hto⟩ :=
      (checkDeadConnections_clock _ ⟨fv, fc, fl⟩).2.2 i (t % U64) hfinal hb2
    have hle := fv.count_le
    have hlt : i < MAX_TRACKERS := by
      have := hfinal.1
      simp only [MAX_TRACKERS] at hle ⊢
      omega
    have hr : ¬ ((i : Int) < 0 ∨ (i : Int) ≥ MAX_TRACKERS) := by
      simp only [MAX_TRACKERS] at hlt ⊢
      omega
    have sv := Valid_checkDeadConnections _ fv
    refine ⟨?_, hto, ?_, ?_, ?_⟩
    · unfold isConnectionAlive
      rw [if_neg hr, Int.toNat_ofNat, hfinal.2.2]
      rfl
    · unfold isConnectionAlive
      rw [if_neg hr, Int.toNat_ofNat, s3]
      rfl
    · unfold isTrackerConnected
      rw [if_neg hr, Int.toNat_ofNat, sv.connected_iff i hlt, s3]
      rfl
    · rw [checkDeadConnections_notifications _ fv i, hto]
      simp

/-- C21 on the example run: the rotation datagram is accepted for slot 0 at clock reading
101 and the socket is found empty at 102, so the sweep that follows leaves slot 0 alive;
its contact time is not after `curr_time`. -/
theorem timeout_arithmetic_never_wraps_witness :
    (run (UDPDeviceQuatServer.new 0 exampleBuffer) clockedActions).lastContactTime.getD 0 0
        ≤ (run (UDPDeviceQuatServer.new 0 exampleBuffer) clockedActions).curr_time ∧
      isConnectionAlive
        (checkDeadConnections (run (UDPDeviceQuatServer.new 0 exampleBuffer) clockedActions))
        ((0 : Nat) : Int) = true :=
  ⟨((timeout_arithmetic_never_wraps 0 exampleBuffer clockedActions (by decide) (by decide)
      (List.length_replicate 256 0) (by decide)).1 0 (by decide)).1,
    ((timeout_arithmetic_never_wraps 0 exampleBuffer clockedActions (by decide) (by decide)
      (List.length_replicate 256 0) (by decide)).2.2
      [Action.tick [(100, exampleClient, exampleHeartbeat)] 100, Action.send_heartbeat]
      [Action.more_data_exists__read 102 none] 101 exampleClient exampleRotation 0 rfl
      (by decide) (by decide) (by decide)).2.2.1⟩

end OwoTrack
